import Mathlib

/-!
# NinjaMonitor: agent / hub relay protocol

A shallow embedding of `connection-server.go` (the local agent) and
`cloud-dashboard.go` (the remote hub), followed by theorems about them.

Conventions of the embedding

* A Go method `func (cs *ConnectionServer) f(args)` becomes a function
  `ConnectionServer.f cs args inputs` that returns the receiver after the call
  (or the returned value, for a method that does not change it) paired with a
  `List Event`: the receiver is passed explicitly, whatever the environment
  hands back to the call (clock readings, the outcome of a dial or of a write,
  a decoded body) is an explicit input, and every externally visible action is
  recorded in the trace in program order.
* Handlers and goroutine bodies are taken one at a time: interleavings of
  concurrent goroutines are outside the embedding.
* Go maps are association lists (`GoMap`), buffered channels are bounded
  queues (`Chan`), `select` with a `default` branch is `Chan.trySend`.
* `time.Time` and `time.Duration` are nanosecond counts; `float64` fields are
  carried but never computed on and are represented by their bit pattern.
* Library calls whose code is not part of the repository (`encoding/json`,
  the websocket dialer and upgrader, `os.WriteFile`) are inputs.
-/

namespace NinjaMonitor

/-! ## Go runtime values -/

/-- A `float64`, carried as its IEEE-754 bit pattern. -/
abbrev Float64 := Nat

/-- A `time.Time`, as a nanosecond reading of the clock. -/
abbrev Time := Int

/-- A `time.Duration`: an `int64` count of nanoseconds. -/
abbrev Duration := Int

/-- Go constant `time.Second`. -/
def Second : Duration := 1000000000

/-- Go constant `time.Minute`. -/
def Minute : Duration := 60 * Second

/-- Go constant `time.Hour`. -/
def Hour : Duration := 60 * Minute

/-- Two's-complement wrap of an integer into the `int64` range. -/
def wrapInt64 (x : Int) : Int :=
  (x + 9223372036854775808) % 18446744073709551616 - 9223372036854775808

/-- A byte. -/
abbrev Byte := Fin 256

/-- A `[]byte`, and a Go `string` where the code looks at its bytes. -/
abbrev Bytes := List Byte

/-- Result of a Go call that either returns or panics. -/
inductive Outcome (α : Type) where
  | ret (a : α)
  | panic (msg : String)
  deriving Repr

/-- Decoded `interface{}` value as produced by `encoding/json`. -/
inductive JSON where
  | null
  | bool (b : Bool)
  | number (f : Float64)
  | string (s : String)
  | array (xs : List JSON)
  | object (kvs : List (String × JSON))

/-! ### Maps -/

/-- A Go `map[κ]ν` as an association list; the first binding of a key counts. -/
abbrev GoMap (κ ν : Type) := List (κ × ν)

/-- Map read `m[k]` with the comma-ok result. -/
def GoMap.get? {κ ν : Type} [DecidableEq κ] : GoMap κ ν → κ → Option ν
  | [], _ => none
  | (k', v) :: m, k => if k' = k then some v else GoMap.get? m k

/-- Map write `m[k] = v`: replaces the binding of `k`, or adds one. -/
def GoMap.set {κ ν : Type} [DecidableEq κ] : GoMap κ ν → κ → ν → GoMap κ ν
  | [], k, v => [(k, v)]
  | (k', v') :: m, k, v => if k' = k then (k, v) :: m else (k', v') :: GoMap.set m k v

/-- Builtin `delete(m, k)`. -/
def GoMap.delete {κ ν : Type} [DecidableEq κ] : GoMap κ ν → κ → GoMap κ ν
  | [], _ => []
  | (k', v') :: m, k => if k' = k then GoMap.delete m k else (k', v') :: GoMap.delete m k

/-- Builtin `len(m)`. -/
def GoMap.len {κ ν : Type} (m : GoMap κ ν) : Nat := m.length

/-! ### Buffered channels -/

/-- A buffered channel `make(chan α, cap)`: the queued values, oldest first. -/
structure Chan (α : Type) where
  cap : Nat
  buf : List α
  deriving Repr, DecidableEq

/-- Go `make(chan α, cap)`. -/
def Chan.make {α : Type} (cap : Nat) : Chan α := { cap := cap, buf := [] }

/-- The send case of `select { case ch <- v: ... default: ... }`: `some` of the
channel with `v` queued at the tail when there is room, `none` (the default
branch is taken) when the buffer is full. -/
def Chan.trySend {α : Type} (ch : Chan α) (v : α) : Option (Chan α) :=
  if ch.buf.length < ch.cap then some { ch with buf := ch.buf ++ [v] } else none

/-- A receive `<-ch` on a channel with a queued value: the value and the rest. -/
def Chan.recv? {α : Type} (ch : Chan α) : Option (α × Chan α) :=
  match ch.buf with
  | [] => none
  | v :: rest => some (v, { ch with buf := rest })

/-! ### Formatting -/

/-- An operand of `fmt.Sprintf` / `log.Printf`. -/
inductive FmtArg where
  | s (v : String)
  | d (v : Int)
  | v (e : String)
  | dur (d : Duration)
  deriving Repr, DecidableEq

/-- The verbs `%s` (string operand) and `%d` (integer operand) of `fmt.Sprintf`,
which are the only ones the repository uses to build file names and
instruction lines; every other character is copied. -/
def sprintfAux : List Char → List FmtArg → List Char
  | '%' :: 's' :: fmt, FmtArg.s v :: args => v.data ++ sprintfAux fmt args
  | '%' :: 'd' :: fmt, FmtArg.d v :: args => (toString v).data ++ sprintfAux fmt args
  | c :: fmt, args => c :: sprintfAux fmt args
  | [], _ => []

/-- Go `fmt.Sprintf(format, args...)`. -/
def sprintf (format : String) (args : List FmtArg) : String :=
  String.mk (sprintfAux format.data args)

/-! ### Trace of visible actions -/

/-- Goroutines started with a `go` statement. -/
inductive Goroutine where
  | readFromCloud
  | reconnectGuard
  | handleConnection (conn : Nat)
  | sendCommands (conn : Nat)
  deriving Repr, DecidableEq

/-- Go struct `http.Cookie`, with the fields the hub sets; `Expires` is `none`
when the field is left at its zero value. -/
structure Cookie where
  Name : String
  Value : String
  Path : String
  Expires : Option Time
  HttpOnly : Bool
  Secure : Bool
  SameSite : Nat
  deriving Repr, DecidableEq

/-- Go constant `http.SameSiteLaxMode`. -/
def SameSiteLaxMode : Nat := 2

/-- Externally visible actions, in program order. -/
inductive Event where
  /-- Call of `log.Printf(format, args...)`. -/
  | log (format : String) (args : List FmtArg)
  /-- Call of `time.Sleep(d)`. -/
  | sleep (d : Duration)
  /-- Mutex operations; `mu` is the field name. -/
  | lock (mu : String)
  | unlock (mu : String)
  | rlock (mu : String)
  | runlock (mu : String)
  /-- Call of `os.WriteFile(filepath.Join(dir, name), data, perm)`. -/
  | writeFile (dir : String) (name : String) (data : String) (perm : Nat)
  /-- Call of `conn.WriteMessage(websocket.TextMessage, data)`. -/
  | wsWrite (conn : Nat) (data : String)
  /-- Call of `conn.Close()`. -/
  | wsClose (conn : Nat)
  /-- Call of `websocket.DefaultDialer.Dial(url, headers)` with its Authorization header. -/
  | dial (url : String) (authorization : Bytes)
  /-- Call of `upgrader.Upgrade(w, r, nil)`. -/
  | upgrade
  /-- A `go` statement. -/
  | go (g : Goroutine)
  /-- Call of `http.Error(w, msg, code)`. -/
  | httpError (msg : String) (code : Nat)
  /-- Call of `w.WriteHeader(code)`. -/
  | writeHeader (code : Nat)
  /-- Call of `http.Redirect(w, r, url, code)`. -/
  | redirect (url : String) (code : Nat)
  /-- Call of `w.Header().Set(key, value)`. -/
  | setHeader (key : String) (value : String)
  /-- Body bytes written to the response with `fmt.Fprintf(w, ...)`. -/
  | write (data : String)
  /-- Call of `Flush()` on the response. -/
  | flush
  /-- Call of the handler wrapped by the session gate. -/
  | next
  /-- Call of `http.SetCookie(w, &cookie)`. -/
  | setCookie (cookie : Cookie)
  /-- Call of `loginTpl.Execute(w, data)`; `error` is the entry `Error` of `data`, if any. -/
  | executeLogin (error : Option String)
  deriving Repr, DecidableEq

/-- Go constant `http.StatusOK`. -/
def StatusOK : Nat := 200

/-- Go constant `http.StatusSeeOther`. -/
def StatusSeeOther : Nat := 303

/-- Go constant `http.StatusBadRequest`. -/
def StatusBadRequest : Nat := 400

/-- Go constant `http.StatusUnauthorized`. -/
def StatusUnauthorized : Nat := 401

/-- Go constant `http.StatusInternalServerError`. -/
def StatusInternalServerError : Nat := 500

/-! ## Data model (shared by both programs) -/

/-- Go struct `Position`. -/
structure Position where
  Instrument : String
  Symbol : String
  MarketPosition : String
  Quantity : Int
  AveragePrice : Float64
  Unrealized : Float64
  CurrentPrice : Float64
  deriving Repr, DecidableEq

/-- Go struct `WorkingOrder`. -/
structure WorkingOrder where
  OrderId : String
  Instrument : String
  OrderType : String
  OrderAction : String
  Quantity : Int
  Filled : Int
  LimitPrice : Float64
  StopPrice : Float64
  State : String
  Name : String
  Oco : String
  IsStopLoss : Bool
  IsProfitTarget : Bool
  deriving Repr, DecidableEq

/-- Go struct `Snapshot`. -/
structure Snapshot where
  Timestamp : Time
  Account : String
  Balance : Float64
  Realized : Float64
  Unrealized : Float64
  Positions : List Position
  WorkingOrders : List WorkingOrder
  deriving Repr, DecidableEq

/-- Go struct `Command` (`Type_` is the field `Type`); `Payload` is a `map[string]interface{}`. -/
structure Command where
  Type_ : String
  Payload : GoMap String JSON
  ID : String

/-- The type assertion `x.(string)` on a map read: it yields the string when the
key is bound to one and panics otherwise (absent key, nil map, other type). -/
def assertString : Option JSON → Outcome String
  | some (JSON.string s) => Outcome.ret s
  | _ => Outcome.panic "interface conversion: interface {} is not string"

/-- Environment of one call of `writeOIF`: the clock reading
`time.Now().UnixNano()`, the draw `rand.Intn(10000)` and the error, if any,
that `os.WriteFile` returns. -/
structure WriteInput where
  now : Int
  rnd : Fin 10000
  err : Option String
  deriving Repr, DecidableEq

/-! ## The agent: `connection-server.go` -/

/-- Go struct `ConnectionServer` (the mutexes carry no data). -/
structure ConnectionServer where
  latest : GoMap String Snapshot
  wsConn : Option Nat
  reconnectChan : Chan Unit
  cloudURL : String
  apiSecretToken : Bytes
  incomingDir : String
  commandChan : Chan Command
  isConnected : Bool
  connectAttempts : Int
  maxReconnects : Int

/-- `writeOIF`: one `os.WriteFile` of `line + "\r\n"` to a freshly named file
in the incoming directory; returns the error of that call. -/
def ConnectionServer.writeOIF (cs : ConnectionServer) (line : String) (os : WriteInput) :
    Option String × List Event :=
  let filename := sprintf "oif_%d_%d.txt" [FmtArg.d os.now, FmtArg.d (os.rnd.val : Int)]
  (os.err, [Event.writeFile cs.incomingDir filename (line ++ "\r\n") 0o644])

/-- `executeCommand`: the `switch cmd.Type_` that turns a command into an
instruction line and drops it as a file. The result is the returned `error`
(`none` for `nil`) or a panic of a failed type assertion. -/
def ConnectionServer.executeCommand (cs : ConnectionServer) (cmd : Command) (os : WriteInput) :
    Outcome (Option String) × List Event :=
  if cmd.Type_ = "flatten_all" then
    let r := cs.writeOIF "FLATTENEVERYTHING;;;;;;;;;;;;" os
    (Outcome.ret r.1, r.2)
  else if cmd.Type_ = "flatten_account" then
    match assertString (cmd.Payload.get? "account") with
    | Outcome.panic m => (Outcome.panic m, [])
    | Outcome.ret account =>
      let r := cs.writeOIF (sprintf "FLATTENEVERYTHING;ACCOUNT=%s;;;;;;;;;;;" [FmtArg.s account]) os
      (Outcome.ret r.1, r.2)
  else if cmd.Type_ = "close_position" then
    match assertString (cmd.Payload.get? "account") with
    | Outcome.panic m => (Outcome.panic m, [])
    | Outcome.ret account =>
      match assertString (cmd.Payload.get? "instrument") with
      | Outcome.panic m => (Outcome.panic m, [])
      | Outcome.ret instrument =>
        let r := cs.writeOIF
          (sprintf "CLOSEPOSITION;ACCOUNT=%s;INSTRUMENT=%s;;;;;;;;;;"
            [FmtArg.s account, FmtArg.s instrument]) os
        (Outcome.ret r.1, r.2)
  else if cmd.Type_ = "cancel_order" then
    match assertString (cmd.Payload.get? "account") with
    | Outcome.panic m => (Outcome.panic m, [])
    | Outcome.ret account =>
      match assertString (cmd.Payload.get? "orderId") with
      | Outcome.panic m => (Outcome.panic m, [])
      | Outcome.ret orderID =>
        let r := cs.writeOIF
          (sprintf "CANCEL;ACCOUNT=%s;ORDERID=%s;;;;;;;;;;"
            [FmtArg.s account, FmtArg.s orderID]) os
        (Outcome.ret r.1, r.2)
  else
    (Outcome.ret (some (sprintf "unknown command type: %s" [FmtArg.s cmd.Type_])), [])

/-- Go struct `WebSocketMessage` (`Type_` is the field `Type`); `Data` is an `interface{}`. -/
structure WebSocketMessage where
  Type_ : String
  Data : JSON
  ID : String

/-- The calls into `encoding/json` that the two programs make. Each field is
the function computed by one call site; an error carries its text. -/
structure JsonLib where
  /-- Call `json.Unmarshal(body, &snap)` with `snap` a `Snapshot`. -/
  unmarshalSnapshot : String → Except String Snapshot
  /-- Call `json.Marshal(map[string]interface{}{"type": "snapshot", "data": latest})`. -/
  marshalSnapshotMap : GoMap String Snapshot → Except String String
  /-- Call `json.Marshal(WebSocketMessage{Type: "snapshot", Data: latest})`. -/
  marshalSnapshotMessage : GoMap String Snapshot → Except String String
  /-- Call `json.Marshal(latest)`. -/
  marshalTable : GoMap String Snapshot → Except String String
  /-- Call `json.Marshal(v)` with `v` an `interface{}` value or a `map[string]interface{}`
  (`snapData` on the hub, `ack` on the agent). -/
  marshalValue : JSON → Except String String
  /-- Call `json.Unmarshal(message, &msg)` with `msg` a `WebSocketMessage`. -/
  unmarshalMessage : String → Except String WebSocketMessage
  /-- Call `json.Unmarshal(message, &cmd)` with `cmd` a `Command`. -/
  unmarshalCommand : String → Except String Command
  /-- Call `json.Marshal(cmd)` with `cmd` a `Command`. -/
  marshalCommand : Command → Except String String
  /-- Call `json.NewDecoder(r.Body).Decode(&p)` of `accountCommandHandler`: the field `p.Account`. -/
  decodeAccount : String → Except String String
  /-- Call `json.NewDecoder(r.Body).Decode(&p)` of `instrumentCommandHandler`: the fields
  `p.Account` and `p.Instrument`. -/
  decodeInstrument : String → Except String (String × String)
  /-- Call `json.NewDecoder(r.Body).Decode(&p)` of `orderCommandHandler`: the fields
  `p.Account` and `p.OrderId`. -/
  decodeOrder : String → Except String (String × String)

/-- The bytes of a marshalling whose error is discarded (`data, _ := json.Marshal(..)`):
the slice is nil when the call failed. -/
def bytesOrNil : Except String String → String
  | Except.ok b => b
  | Except.error _ => ""

/-- The bytes of the string literal `"Bearer "`. -/
def bearer : Bytes := [66, 101, 97, 114, 101, 114, 32]

/-- `NewConnectionServer`, given the values of the environment variables
`CLOUD_URL`, `API_SECRET_TOKEN` and the resolved incoming directory
(`NT_INCOMING`, or its default under the home directory). `none` is the
`log.Fatal` exit on a missing token. -/
def NewConnectionServer (cloudURLEnv : String) (apiSecretTokenEnv : Bytes) (incoming : String) :
    Option ConnectionServer :=
  let cloudURL := if cloudURLEnv = "" then "ws://localhost:8081/ws" else cloudURLEnv
  if apiSecretTokenEnv = [] then none
  else some {
    latest := []
    wsConn := none
    reconnectChan := Chan.make 1
    cloudURL := cloudURL
    apiSecretToken := apiSecretTokenEnv
    incomingDir := incoming
    commandChan := Chan.make 100
    isConnected := false
    connectAttempts := 0
    maxReconnects := 10 }

/-- `sendToCloud`: writes `data` to the hub connection when there is one and it
is marked connected; `writeErr` is the error returned by `WriteMessage`. -/
def ConnectionServer.sendToCloud (cs : ConnectionServer) (data : String)
    (writeErr : Option String) : ConnectionServer × List Event :=
  match cs.wsConn with
  | none =>
    (cs, [Event.lock "wsConnMu",
          Event.log "WebSocket not connected, dropping message" [],
          Event.unlock "wsConnMu"])
  | some conn =>
    if !cs.isConnected then
      (cs, [Event.lock "wsConnMu",
            Event.log "WebSocket not connected, dropping message" [],
            Event.unlock "wsConnMu"])
    else
      match writeErr with
      | none => (cs, [Event.lock "wsConnMu", Event.wsWrite conn data, Event.unlock "wsConnMu"])
      | some err =>
        let cs1 := { cs with isConnected := false }
        let cs2 :=
          match cs1.reconnectChan.trySend () with
          | some ch => { cs1 with reconnectChan := ch }
          | none => cs1
        (cs2, [Event.lock "wsConnMu", Event.wsWrite conn data,
               Event.log "Failed to send message to cloud: %v" [FmtArg.v err],
               Event.unlock "wsConnMu"])

/-- Environment of one webhook request: the result of `io.ReadAll(r.Body)` and
the error, if any, of the `WriteMessage` that may follow. -/
structure WebhookInput where
  body : Except String String
  writeErr : Option String

/-- `webhookHandler` of the agent. -/
def ConnectionServer.webhookHandler (lib : JsonLib) (cs : ConnectionServer)
    (inp : WebhookInput) : ConnectionServer × List Event :=
  match inp.body with
  | Except.error _ => (cs, [Event.httpError "failed to read body" StatusBadRequest])
  | Except.ok body =>
    match lib.unmarshalSnapshot body with
    | Except.error _ => (cs, [Event.httpError "bad payload" StatusBadRequest])
    | Except.ok snap =>
      if snap.Account = "" then (cs, [Event.httpError "bad payload" StatusBadRequest])
      else
        let cs1 := { cs with latest := cs.latest.set snap.Account snap }
        match lib.marshalSnapshotMap cs1.latest with
        | Except.error err =>
          (cs1, [Event.lock "mu", Event.unlock "mu",
                 Event.log "JSON Marshal error: %v" [FmtArg.v err],
                 Event.writeHeader StatusOK])
        | Except.ok data =>
          let r := cs1.sendToCloud data inp.writeErr
          (r.1, [Event.lock "mu", Event.unlock "mu"] ++ r.2 ++ [Event.writeHeader StatusOK])

/-- `scheduleReconnect`: counts the failure, pauses five minutes past the
ceiling, and starts the guard goroutine that re-arms the reconnect loop. -/
def ConnectionServer.scheduleReconnect (cs : ConnectionServer) : ConnectionServer × List Event :=
  let cs1 := { cs with connectAttempts := wrapInt64 (cs.connectAttempts + 1) }
  if cs1.connectAttempts > cs1.maxReconnects then
    ({ cs1 with connectAttempts := cs1.maxReconnects },
     [Event.log "Max reconnection attempts reached, waiting 5 minutes" [],
      Event.sleep (5 * Minute),
      Event.go Goroutine.reconnectGuard])
  else
    (cs1, [Event.go Goroutine.reconnectGuard])

/-- Body of the goroutine started by `scheduleReconnect`: a one second sleep,
then a non-blocking send on `reconnectChan`. -/
def ConnectionServer.reconnectGuard (cs : ConnectionServer) : ConnectionServer × List Event :=
  match cs.reconnectChan.trySend () with
  | some ch => ({ cs with reconnectChan := ch }, [Event.sleep (1 * Second)])
  | none => (cs, [Event.sleep (1 * Second)])

/-- The local variable `backoff` of `connectToCloud`. -/
def ConnectionServer.backoff (cs : ConnectionServer) : Duration :=
  let backoff := wrapInt64 (cs.connectAttempts * Second)
  if backoff > 60 * Second then 60 * Second else backoff

/-- What the environment answers to one connection attempt: `url.Parse` fails,
the dial fails, or the dial returns a connection. -/
inductive DialResult where
  | invalidURL (err : String)
  | failed (err : String)
  | connected (conn : Nat)
  deriving Repr, DecidableEq

/-- `connectToCloud`: tear down the old connection, sleep the backoff, dial. -/
def ConnectionServer.connectToCloud (lib : JsonLib) (cs : ConnectionServer)
    (dial : DialResult) : ConnectionServer × List Event :=
  let closed : ConnectionServer × List Event :=
    match cs.wsConn with
    | some c => ({ cs with wsConn := none, isConnected := false }, [Event.wsClose c])
    | none => (cs, [])
  let cs1 := closed.1
  let backoff := cs1.backoff
  let slept : List Event :=
    if cs1.connectAttempts > 0 then
      [Event.log "Reconnect attempt %d after %v" [FmtArg.d cs1.connectAttempts, FmtArg.dur backoff],
       Event.sleep backoff]
    else []
  match dial with
  | DialResult.invalidURL err =>
    let r := cs1.scheduleReconnect
    (r.1, [Event.lock "wsConnMu"] ++ closed.2 ++ slept
            ++ [Event.log "Invalid cloud URL: %v" [FmtArg.v err]] ++ r.2
            ++ [Event.unlock "wsConnMu"])
  | DialResult.failed err =>
    let r := cs1.scheduleReconnect
    (r.1, [Event.lock "wsConnMu"] ++ closed.2 ++ slept
            ++ [Event.dial cs1.cloudURL (bearer ++ cs1.apiSecretToken),
                Event.log "Failed to connect to cloud: %v" [FmtArg.v err]] ++ r.2
            ++ [Event.unlock "wsConnMu"])
  | DialResult.connected conn =>
    let cs2 := { cs1 with wsConn := some conn, isConnected := true, connectAttempts := 0 }
    let initial : List Event :=
      if cs2.latest.len > 0 then
        [Event.rlock "mu", Event.runlock "mu",
         Event.wsWrite conn (bytesOrNil (lib.marshalSnapshotMap cs2.latest))]
      else [Event.rlock "mu", Event.runlock "mu"]
    (cs2, [Event.lock "wsConnMu"] ++ closed.2 ++ slept
            ++ [Event.dial cs1.cloudURL (bearer ++ cs1.apiSecretToken),
                Event.log "Connected to cloud dashboard" [],
                Event.go Goroutine.readFromCloud] ++ initial
            ++ [Event.unlock "wsConnMu"])

/-- One iteration of the loop of `manageWebSocket`: receive from
`reconnectChan`, then `connectToCloud`. `none` when the channel is empty and
the loop waits. -/
def ConnectionServer.manageWebSocket (lib : JsonLib) (cs : ConnectionServer)
    (dial : DialResult) : Option (ConnectionServer × List Event) :=
  match cs.reconnectChan.recv? with
  | none => none
  | some (_, ch) => some (ConnectionServer.connectToCloud lib { cs with reconnectChan := ch } dial)

/-- One round of the reconnect loop: an iteration of `manageWebSocket` followed
by the guard goroutine that `scheduleReconnect` started in it. -/
def ConnectionServer.reconnectRound (lib : JsonLib) (cs : ConnectionServer)
    (dial : DialResult) : Option (ConnectionServer × List Event) :=
  match cs.manageWebSocket lib dial with
  | none => none
  | some r =>
    let g := r.1.reconnectGuard
    some (g.1, r.2 ++ g.2)

/-- A run of the reconnect loop against the given answers of the environment:
the trace of every round, in order. The run stops early if the loop finds
`reconnectChan` empty. -/
def ConnectionServer.reconnectRun (lib : JsonLib) :
    ConnectionServer → List DialResult → List (List Event)
  | _, [] => []
  | cs, dial :: rest =>
    match cs.reconnectRound lib dial with
    | none => []
    | some r => r.2 :: ConnectionServer.reconnectRun lib r.1 rest

/-- The state of the agent as `Start` leaves it: a fresh server with the
initial token queued on `reconnectChan`. -/
def ConnectionServer.Start (cs : ConnectionServer) : ConnectionServer :=
  match cs.reconnectChan.trySend () with
  | some ch => { cs with reconnectChan := ch }
  | none => cs

/-- Total time slept in a round before its dial is issued (zero when the round
does not sleep before dialing). -/
def sleptBeforeDial : List Event → Duration
  | [] => 0
  | Event.dial _ _ :: _ => 0
  | Event.sleep d :: rest => d + sleptBeforeDial rest
  | _ :: rest => sleptBeforeDial rest

/-- Whether a trace contains the five minute pause. -/
def hasFiveMinutePause (evs : List Event) : Bool :=
  evs.contains (Event.sleep (5 * Minute))

/-- The status code a handler answered with: the code of the first
`http.Error`, `WriteHeader` or `http.Redirect` in its trace. -/
def statusOf : List Event → Option Nat
  | [] => none
  | Event.httpError _ code :: _ => some code
  | Event.writeHeader code :: _ => some code
  | Event.redirect _ code :: _ => some code
  | _ :: rest => statusOf rest

/-- The messages a trace writes to websocket connections, in order. -/
def wsWrites : List Event → List (Nat × String)
  | [] => []
  | Event.wsWrite conn data :: rest => (conn, data) :: wsWrites rest
  | _ :: rest => wsWrites rest

/-- What `cs.wsConn.ReadMessage()` returns to the inbound reader. -/
inductive ReadResult where
  | failed (err : String)
  | message (data : String)
  deriving Repr, DecidableEq

/-- One iteration of the loop of `readFromCloud`. On a read error the loop is
left and the deferred function runs (clear the connected flag under the lock,
then `scheduleReconnect`); otherwise the frame is decoded as a `Command` and
offered to `commandChan` without blocking. -/
def ConnectionServer.readFromCloud (lib : JsonLib) (cs : ConnectionServer)
    (read : ReadResult) : ConnectionServer × List Event :=
  match read with
  | ReadResult.failed err =>
    let cs1 := { cs with isConnected := false }
    let r := cs1.scheduleReconnect
    (r.1, [Event.log "WebSocket read error: %v" [FmtArg.v err],
           Event.lock "wsConnMu", Event.unlock "wsConnMu"] ++ r.2)
  | ReadResult.message message =>
    match lib.unmarshalCommand message with
    | Except.error err => (cs, [Event.log "Invalid command received: %v" [FmtArg.v err]])
    | Except.ok cmd =>
      match cs.commandChan.trySend cmd with
      | some ch => ({ cs with commandChan := ch }, [])
      | none => (cs, [Event.log "Command queue full, dropping command: %s" [FmtArg.s cmd.Type_]])

/-- The map `ack` that `processCommands` builds for a command and the error
(`none` for `nil`) its execution returned. -/
def ackOf (cmd : Command) (err : Option String) : GoMap String JSON :=
  match err with
  | some e =>
    [("type", JSON.string "command_ack"), ("id", JSON.string cmd.ID), ("error", JSON.string e)]
  | none =>
    [("type", JSON.string "command_ack"), ("id", JSON.string cmd.ID), ("success", JSON.bool true)]

/-- Environment of one iteration of the execution worker: the inputs of the
file write and the error, if any, of the `WriteMessage` that sends the
acknowledgment. -/
structure WorkerInput where
  os : WriteInput
  writeErr : Option String

/-- One iteration of the loop `for cmd := range cs.commandChan` of
`processCommands`: take the oldest queued command, execute it, build the
acknowledgment and hand it to `sendToCloud`. `none` when the queue is empty and
the worker waits; `Outcome.panic` when the execution panics, which nothing
recovers. -/
def ConnectionServer.processCommands (lib : JsonLib) (cs : ConnectionServer)
    (inp : WorkerInput) : Option (Outcome ConnectionServer × List Event) :=
  match cs.commandChan.recv? with
  | none => none
  | some (cmd, ch) =>
    let cs1 := { cs with commandChan := ch }
    let r := cs1.executeCommand cmd inp.os
    match r.1 with
    | Outcome.panic m => some (Outcome.panic m, r.2)
    | Outcome.ret err =>
      let ack := ackOf cmd err
      let logged : List Event :=
        match err with
        | some e => [Event.log "Command execution failed: %v" [FmtArg.v e]]
        | none => []
      let data := bytesOrNil (lib.marshalValue (JSON.object ack))
      let sent := cs1.sendToCloud data inp.writeErr
      some (Outcome.ret sent.1, r.2 ++ logged ++ sent.2)

/-- What can happen next on the agent: a webhook request is handled, the
reconnect loop makes an iteration, the guard goroutine of `scheduleReconnect`
runs, the inbound reader makes an iteration, some caller sends data to the hub,
or the execution worker makes an iteration. -/
inductive AgentAction where
  | webhook (inp : WebhookInput)
  | connect (dial : DialResult)
  | guard
  | read (r : ReadResult)
  | send (data : String) (writeErr : Option String)
  | work (inp : WorkerInput)

/-- The agent state after one action. An iteration that finds its channel
empty, and a worker iteration that panics, leave the state as it is. -/
def ConnectionServer.step (lib : JsonLib) (cs : ConnectionServer) : AgentAction → ConnectionServer
  | AgentAction.webhook inp => (cs.webhookHandler lib inp).1
  | AgentAction.connect dial =>
    match cs.manageWebSocket lib dial with
    | some r => r.1
    | none => cs
  | AgentAction.guard => cs.reconnectGuard.1
  | AgentAction.read r => (cs.readFromCloud lib r).1
  | AgentAction.send data writeErr => (cs.sendToCloud data writeErr).1
  | AgentAction.work inp =>
    match cs.processCommands lib inp with
    | some (Outcome.ret cs', _) => cs'
    | _ => cs

/-- The agent state after a sequence of actions. -/
def ConnectionServer.run (lib : JsonLib) : ConnectionServer → List AgentAction → ConnectionServer
  | cs, [] => cs
  | cs, a :: rest => ConnectionServer.run lib (cs.step lib a) rest

/-! ## The hub: `cloud-dashboard.go` -/

/-- Go struct `ConnectionClient`; `conn` is the identity of the connection. -/
structure ConnectionClient where
  conn : Nat
  commandChan : Chan Command
  id : String

/-- Go struct `CloudDashboard` (the mutexes and the upgrader carry no data).
`webClients` maps the identity of each subscriber channel to the channel;
`connections` maps the identity of each agent connection to its client. -/
structure CloudDashboard where
  latest : GoMap String Snapshot
  webClients : GoMap Nat (Chan String)
  connections : GoMap Nat ConnectionClient
  dashboardUser : Bytes
  dashboardPass : Bytes
  apiSecretToken : Bytes
  sessions : GoMap String Time

/-- `NewCloudDashboard`, given the resolved credentials and secret. -/
def NewCloudDashboard (dashUser dashPass apiSecretToken : Bytes) : CloudDashboard :=
  { latest := []
    webClients := []
    connections := []
    dashboardUser := dashUser
    dashboardPass := dashPass
    apiSecretToken := apiSecretToken
    sessions := [] }

/-- Go `subtle.ConstantTimeByteEq(x, y uint8) int`:
`int((uint32(x^y) - 1) >> 31)`. -/
def ConstantTimeByteEq (x y : Nat) : Int :=
  ((((x ^^^ y) % 256 + 4294967296 - 1) % 4294967296) >>> 31 : Nat)

/-- The loop `v |= x[i] ^ y[i]` of `subtle.ConstantTimeCompare`, `v` a byte. -/
def xorFold : Nat → Bytes → Bytes → Nat
  | v, a :: x, b :: y => xorFold ((v ||| (a.val ^^^ b.val)) % 256) x y
  | v, _, _ => v

/-- Go `subtle.ConstantTimeCompare(x, y []byte) int`. -/
def ConstantTimeCompare (x y : Bytes) : Int :=
  if x.length ≠ y.length then 0
  else ConstantTimeByteEq (xorFold 0 x y) 0

/-- The `select` of `sendCommandToConnections` for one client: queue the
command, or log that the channel is full. -/
def ConnectionClient.offer (client : ConnectionClient) (cmd : Command) :
    ConnectionClient × List Event :=
  match client.commandChan.trySend cmd with
  | some ch => ({ client with commandChan := ch }, [])
  | none => (client, [Event.log "Command channel full for connection %s" [FmtArg.s client.id]])

/-- The loop `for _, client := range cd.connections` of `sendCommandToConnections`. -/
def offerAll : GoMap Nat ConnectionClient → Command → GoMap Nat ConnectionClient × List Event
  | [], _ => ([], [])
  | (k, client) :: rest, cmd =>
    let r := client.offer cmd
    let rs := offerAll rest cmd
    ((k, r.1) :: rs.1, r.2 ++ rs.2)

/-- `sendCommandToConnections`. -/
def CloudDashboard.sendCommandToConnections (cd : CloudDashboard) (cmd : Command) :
    CloudDashboard × List Event :=
  let r := offerAll cd.connections cmd
  ({ cd with connections := r.1 },
   [Event.lock "connectionsMu"] ++ r.2 ++ [Event.unlock "connectionsMu"])

/-- A sequence of submissions, none of the queues being drained meanwhile. -/
def CloudDashboard.submitAll : CloudDashboard → List Command → CloudDashboard × List Event
  | cd, [] => (cd, [])
  | cd, cmd :: rest =>
    let r := cd.sendCommandToConnections cmd
    let rs := CloudDashboard.submitAll r.1 rest
    (rs.1, r.2 ++ rs.2)

/-- The loop of `broadcast`: a non-blocking send of `b` to every subscriber. -/
def offerBytes : GoMap Nat (Chan String) → String → GoMap Nat (Chan String)
  | [], _ => []
  | (k, ch) :: rest, b =>
    match ch.trySend b with
    | some ch' => (k, ch') :: offerBytes rest b
    | none => (k, ch) :: offerBytes rest b

/-- `broadcast`. -/
def CloudDashboard.broadcast (cd : CloudDashboard) (b : String) : CloudDashboard × List Event :=
  ({ cd with webClients := offerBytes cd.webClients b },
   [Event.lock "webClientsMu", Event.unlock "webClientsMu"])

/-- The loop `for account, snapData := range dataMap` of `handleConnection`:
every entry that re-encodes and decodes as a `Snapshot` is stored under its
map key. -/
def mergeSnapshots (lib : JsonLib) :
    GoMap String Snapshot → List (String × JSON) → GoMap String Snapshot
  | latest, [] => latest
  | latest, (account, snapData) :: rest =>
    match lib.marshalValue snapData with
    | Except.error _ => mergeSnapshots lib latest rest
    | Except.ok snapBytes =>
      match lib.unmarshalSnapshot snapBytes with
      | Except.error _ => mergeSnapshots lib latest rest
      | Except.ok snap => mergeSnapshots lib (latest.set account snap) rest

/-- Body of the read loop of `handleConnection` for one message read from an
agent connection. -/
def CloudDashboard.handleMessage (lib : JsonLib) (cd : CloudDashboard) (message : String) :
    CloudDashboard × List Event :=
  match lib.unmarshalMessage message with
  | Except.error err => (cd, [Event.log "Invalid WebSocket message: %v" [FmtArg.v err]])
  | Except.ok msg =>
    if msg.Type_ = "snapshot" then
      match msg.Data with
      | JSON.object dataMap =>
        let cd1 := { cd with latest := mergeSnapshots lib cd.latest dataMap }
        let broadcastData := bytesOrNil (lib.marshalTable cd1.latest)
        let r := cd1.broadcast broadcastData
        (r.1, [Event.lock "mu", Event.unlock "mu"] ++ r.2)
      | _ => (cd, [])
    else if msg.Type_ = "command_ack" then
      (cd, [Event.log "Command acknowledged: %s" [FmtArg.s msg.ID]])
    else
      (cd, [Event.log "Unknown message type: %s" [FmtArg.s msg.Type_]])

/-- A sequence of messages read from agent connections, processed in order. -/
def CloudDashboard.handleMessages (lib : JsonLib) :
    CloudDashboard → List String → CloudDashboard
  | cd, [] => cd
  | cd, m :: rest => CloudDashboard.handleMessages lib (cd.handleMessage lib m).1 rest

/-- `eventsHandler` up to its loop: `ch` is the identity of the channel made
for this subscriber. The channel is registered, then the table is serialised
and written as the first frame. -/
def CloudDashboard.eventsHandler (lib : JsonLib) (cd : CloudDashboard) (ch : Nat) :
    CloudDashboard × List Event :=
  let cd1 := { cd with webClients := cd.webClients.set ch (Chan.make 10) }
  let b := bytesOrNil (lib.marshalTable cd1.latest)
  (cd1, [Event.setHeader "Content-Type" "text/event-stream",
         Event.setHeader "Cache-Control" "no-cache",
         Event.setHeader "Connection" "keep-alive",
         Event.lock "webClientsMu", Event.unlock "webClientsMu",
         Event.rlock "mu", Event.runlock "mu",
         Event.write (sprintf "data: %s\n\n" [FmtArg.s b]),
         Event.flush])

/-- Which case of the `select` in the loop of `eventsHandler` fires. -/
inductive SelectCase where
  | msg
  | tick
  | done
  deriving Repr, DecidableEq

/-- One iteration of the loop of `eventsHandler` for the subscriber with
channel `ch`; on `done` the deferred unregistration runs. `none` when the
chosen case is not ready (no queued message). -/
def CloudDashboard.eventsLoop (cd : CloudDashboard) (ch : Nat) (c : SelectCase) :
    Option (CloudDashboard × List Event) :=
  match c with
  | SelectCase.msg =>
    match cd.webClients.get? ch with
    | none => none
    | some q =>
      match q.recv? with
      | none => none
      | some (m, q') =>
        some ({ cd with webClients := cd.webClients.set ch q' },
              [Event.write (sprintf "data: %s\n\n" [FmtArg.s m]), Event.flush])
  | SelectCase.tick => some (cd, [Event.write ": heartbeat\n\n", Event.flush])
  | SelectCase.done =>
    some ({ cd with webClients := cd.webClients.delete ch },
          [Event.lock "webClientsMu", Event.unlock "webClientsMu"])

/-- The data frames a trace writes to the response, in order. -/
def framesOf : List Event → List String
  | [] => []
  | Event.write data :: rest => data :: framesOf rest
  | _ :: rest => framesOf rest

/-- What `upgrader.Upgrade` answers. -/
inductive UpgradeResult where
  | failed (err : String)
  | ok (conn : Nat)
  deriving Repr, DecidableEq

/-- Environment of one request to `/ws`: the value of the Authorization
header (empty when absent), the answer of the upgrader and the clock reading
`time.Now().UnixNano()`. -/
structure WsInput where
  authHeader : Bytes
  upgrade : UpgradeResult
  now : Int

/-- `websocketHandler`. -/
def CloudDashboard.websocketHandler (lib : JsonLib) (cd : CloudDashboard) (inp : WsInput) :
    CloudDashboard × List Event :=
  let expectedHeader := bearer ++ cd.apiSecretToken
  if ConstantTimeCompare inp.authHeader expectedHeader ≠ 1 then
    (cd, [Event.log "WebSocket unauthorized: Invalid token." [],
          Event.httpError "Unauthorized" StatusUnauthorized])
  else
    match inp.upgrade with
    | UpgradeResult.failed err =>
      (cd, [Event.upgrade, Event.log "WebSocket upgrade error: %v" [FmtArg.v err]])
    | UpgradeResult.ok conn =>
      let client : ConnectionClient :=
        { conn := conn
          commandChan := Chan.make 10
          id := sprintf "conn_%d" [FmtArg.d inp.now] }
      let cd1 := { cd with connections := cd.connections.set conn client }
      let initial : List Event :=
        if cd1.latest.len > 0 then
          [Event.rlock "mu", Event.runlock "mu",
           Event.wsWrite conn (bytesOrNil (lib.marshalSnapshotMessage cd1.latest))]
        else [Event.rlock "mu", Event.runlock "mu"]
      (cd1, [Event.upgrade, Event.lock "connectionsMu", Event.unlock "connectionsMu",
             Event.log "Connection server connected: %s" [FmtArg.s client.id]]
            ++ initial
            ++ [Event.go (Goroutine.handleConnection conn), Event.go (Goroutine.sendCommands conn)])

/-- Largest `time.Duration`. -/
def maxDuration : Duration := 9223372036854775807

/-- Smallest `time.Duration`. -/
def minDuration : Duration := -9223372036854775808

/-- Go `time.Since(t)` read at clock value `now`: the difference, saturated to
the range of `time.Duration`. -/
def since (now t : Time) : Duration :=
  let d := now - t
  if d > maxDuration then maxDuration else if d < minDuration then minDuration else d

/-- Environment of one request through the session gate: the value of the
cookie named `session` (`none` when `r.Cookie` returns an error), the clock
reading of `time.Since` and the clock reading of the later `time.Now()`. -/
structure AuthInput where
  cookie : Option String
  nowCheck : Time
  nowUpdate : Time
  deriving Repr, DecidableEq

/-- The handler returned by `requireAuth(next)`; the call of `next` is the
event `Event.next`. -/
def CloudDashboard.requireAuth (cd : CloudDashboard) (inp : AuthInput) :
    CloudDashboard × List Event :=
  match inp.cookie with
  | none => (cd, [Event.redirect "/login" StatusSeeOther])
  | some value =>
    let expired : Bool :=
      match cd.sessions.get? value with
      | none => true
      | some sessionTime => decide (since inp.nowCheck sessionTime > 24 * Hour)
    if expired then
      ({ cd with sessions := cd.sessions.delete value },
       [Event.lock "sessionsMu", Event.unlock "sessionsMu",
        Event.lock "sessionsMu", Event.unlock "sessionsMu",
        Event.redirect "/login" StatusSeeOther])
    else
      ({ cd with sessions := cd.sessions.set value inp.nowUpdate },
       [Event.lock "sessionsMu", Event.unlock "sessionsMu",
        Event.lock "sessionsMu", Event.unlock "sessionsMu",
        Event.next])

/-- One iteration of the loop `for cmd := range client.commandChan` of
`sendCommands`, for the client registered under `conn`: the oldest queued
command is taken, serialised and written to the connection; `writeErr` is the
error of that write. On an error the function logs and returns. `none` when
there is no such client or its queue is empty and the sender waits. -/
def CloudDashboard.sendCommands (lib : JsonLib) (cd : CloudDashboard) (conn : Nat)
    (writeErr : Option String) : Option (CloudDashboard × List Event) :=
  match cd.connections.get? conn with
  | none => none
  | some client =>
    match client.commandChan.recv? with
    | none => none
    | some (cmd, ch) =>
      let cd1 := { cd with connections := cd.connections.set conn { client with commandChan := ch } }
      let data := bytesOrNil (lib.marshalCommand cmd)
      match writeErr with
      | none => some (cd1, [Event.wsWrite client.conn data])
      | some err =>
        some (cd1, [Event.wsWrite client.conn data,
                    Event.log "Failed to send command to connection server: %v" [FmtArg.v err]])

/-- What `client.conn.ReadMessage()` returns to the reader of the hub;
`unexpected` is the answer of `websocket.IsUnexpectedCloseError` for the error. -/
inductive HubRead where
  | failed (err : String) (unexpected : Bool)
  | message (data : String)
  deriving Repr, DecidableEq

/-- One iteration of the loop of `handleConnection` for `client`. On a read
error the loop is left and the deferred function runs: the client is deleted
from the registry, its channel and its connection are closed. -/
def CloudDashboard.handleConnection (lib : JsonLib) (cd : CloudDashboard)
    (client : ConnectionClient) (read : HubRead) : CloudDashboard × List Event :=
  match read with
  | HubRead.failed err unexpected =>
    let logged : List Event :=
      if unexpected then [Event.log "WebSocket error: %v" [FmtArg.v err]] else []
    ({ cd with connections := cd.connections.delete client.conn },
     logged ++ [Event.lock "connectionsMu", Event.unlock "connectionsMu",
                Event.wsClose client.conn,
                Event.log "Connection server disconnected: %s" [FmtArg.s client.id]])
  | HubRead.message message => cd.handleMessage lib message

/-- Go `strings.HasPrefix(s, p)`. -/
def startsWith (s p : String) : Bool :=
  decide (p.data.length ≤ s.data.length) && decide (s.data.take p.data.length = p.data)

/-- Environment of one request to `/login`: the method, the form values
`username` and `password`, the value of the header `X-Forwarded-Proto`, the
key returned by `generateRandomKey()` and the clock reading `time.Now()`. -/
structure LoginInput where
  method : String
  username : Bytes
  password : Bytes
  forwardedProto : String
  sessionID : String
  now : Time

/-- `loginHandler`. -/
def CloudDashboard.loginHandler (cd : CloudDashboard) (inp : LoginInput) :
    CloudDashboard × List Event :=
  if inp.method = "GET" then (cd, [Event.executeLogin none])
  else if inp.method = "POST" then
    let usernameOK : Bool := decide (ConstantTimeCompare inp.username cd.dashboardUser = 1)
    let passwordOK : Bool := decide (ConstantTimeCompare inp.password cd.dashboardPass = 1)
    if usernameOK && passwordOK then
      ({ cd with sessions := cd.sessions.set inp.sessionID inp.now },
       [Event.lock "sessionsMu", Event.unlock "sessionsMu",
        Event.setCookie
          { Name := "session"
            Value := inp.sessionID
            Path := "/"
            Expires := none
            HttpOnly := true
            Secure := startsWith inp.forwardedProto "https"
            SameSite := SameSiteLaxMode },
        Event.redirect "/" StatusSeeOther])
    else
      (cd, [Event.executeLogin (some "Invalid username or password")])
  else (cd, [])

/-- The handler returned by `commandHandler(cmdType)`; `now` is the clock
reading `time.Now().UnixNano()`. -/
def CloudDashboard.commandHandler (cd : CloudDashboard) (cmdType : String) (now : Int) :
    CloudDashboard × List Event :=
  let cmd : Command :=
    { Type_ := cmdType
      Payload := []
      ID := sprintf "cmd_%d" [FmtArg.d now] }
  let r := cd.sendCommandToConnections cmd
  (r.1, r.2 ++ [Event.writeHeader StatusOK])

/-- The handler returned by `accountCommandHandler(cmdType)`; `body` is the
request body and `now` the clock reading `time.Now().UnixNano()`. -/
def CloudDashboard.accountCommandHandler (lib : JsonLib) (cd : CloudDashboard)
    (cmdType : String) (body : String) (now : Int) : CloudDashboard × List Event :=
  match lib.decodeAccount body with
  | Except.error _ => (cd, [Event.httpError "bad request" StatusBadRequest])
  | Except.ok account =>
    let cmd : Command :=
      { Type_ := cmdType
        Payload := [("account", JSON.string account)]
        ID := sprintf "cmd_%d" [FmtArg.d now] }
    let r := cd.sendCommandToConnections cmd
    (r.1, r.2 ++ [Event.writeHeader StatusOK])

/-- The handler returned by `instrumentCommandHandler(cmdType)`. -/
def CloudDashboard.instrumentCommandHandler (lib : JsonLib) (cd : CloudDashboard)
    (cmdType : String) (body : String) (now : Int) : CloudDashboard × List Event :=
  match lib.decodeInstrument body with
  | Except.error _ => (cd, [Event.httpError "bad request" StatusBadRequest])
  | Except.ok p =>
    let cmd : Command :=
      { Type_ := cmdType
        Payload := [("account", JSON.string p.1), ("instrument", JSON.string p.2)]
        ID := sprintf "cmd_%d" [FmtArg.d now] }
    let r := cd.sendCommandToConnections cmd
    (r.1, r.2 ++ [Event.writeHeader StatusOK])

/-- The handler returned by `orderCommandHandler(cmdType)`. -/
def CloudDashboard.orderCommandHandler (lib : JsonLib) (cd : CloudDashboard)
    (cmdType : String) (body : String) (now : Int) : CloudDashboard × List Event :=
  match lib.decodeOrder body with
  | Except.error _ => (cd, [Event.httpError "bad request" StatusBadRequest])
  | Except.ok p =>
    let cmd : Command :=
      { Type_ := cmdType
        Payload := [("account", JSON.string p.1), ("orderId", JSON.string p.2)]
        ID := sprintf "cmd_%d" [FmtArg.d now] }
    let r := cd.sendCommandToConnections cmd
    (r.1, r.2 ++ [Event.writeHeader StatusOK])

/-! ## The single-process variant: `main.go` -/

/-- The globals `latest` and `clients` of `main.go`. -/
structure SingleProcess where
  latest : GoMap String Snapshot
  clients : GoMap Nat (Chan String)

/-- `broadcast` of `main.go`. -/
def SingleProcess.broadcast (st : SingleProcess) (b : String) : SingleProcess × List Event :=
  ({ st with clients := offerBytes st.clients b },
   [Event.lock "clientsMu", Event.unlock "clientsMu"])

/-- `webhookHandler` of `main.go`; `body` is the result of `io.ReadAll(r.Body)`. -/
def SingleProcess.webhookHandler (lib : JsonLib) (st : SingleProcess)
    (body : Except String String) : SingleProcess × List Event :=
  match body with
  | Except.error _ => (st, [Event.httpError "failed to read body" StatusBadRequest])
  | Except.ok body =>
    match lib.unmarshalSnapshot body with
    | Except.error _ => (st, [Event.httpError "bad payload" StatusBadRequest])
    | Except.ok snap =>
      if snap.Account = "" then (st, [Event.httpError "bad payload" StatusBadRequest])
      else
        let st1 := { st with latest := st.latest.set snap.Account snap }
        match lib.marshalTable st1.latest with
        | Except.error err =>
          (st1, [Event.lock "mu", Event.unlock "mu",
                 Event.log "JSON Marshal error: %v" [FmtArg.v err],
                 Event.writeHeader StatusOK])
        | Except.ok b =>
          let r := st1.broadcast b
          (r.1, [Event.lock "mu", Event.unlock "mu"] ++ r.2 ++ [Event.writeHeader StatusOK])

/-- `writeOIF` of `main.go`; `defaultDir` is the incoming directory under the
home directory that is used when `incomingDir` is empty. -/
def SingleProcess.writeOIF (incomingDir defaultDir line : String) (os : WriteInput) :
    Option String × List Event :=
  let dir := if incomingDir = "" then defaultDir else incomingDir
  let filename := sprintf "oif_%d_%d.txt" [FmtArg.d os.now, FmtArg.d (os.rnd.val : Int)]
  (os.err, [Event.writeFile dir filename (line ++ "\r\n") 0o644])

/-- The tail shared by the command handlers of `main.go`: write the line, then
answer 500 with the error text or 200. `incoming` is the value of `NT_INCOMING`. -/
def SingleProcess.writeAndAnswer (incoming defaultDir line : String) (os : WriteInput) :
    List Event :=
  let r := SingleProcess.writeOIF incoming defaultDir line os
  match r.1 with
  | some err => r.2 ++ [Event.httpError ("write failed: " ++ err) StatusInternalServerError]
  | none => r.2 ++ [Event.writeHeader StatusOK]

/-- The handler returned by `commandHandler(line)` of `main.go`. -/
def SingleProcess.commandHandler (line incoming defaultDir : String) (os : WriteInput) :
    List Event :=
  SingleProcess.writeAndAnswer incoming defaultDir line os

/-- The handler returned by `accountCommandHandler(format)` of `main.go`. -/
def SingleProcess.accountCommandHandler (lib : JsonLib) (format body incoming defaultDir : String)
    (os : WriteInput) : List Event :=
  match lib.decodeAccount body with
  | Except.error _ => [Event.httpError "bad request" StatusBadRequest]
  | Except.ok account =>
    SingleProcess.writeAndAnswer incoming defaultDir (sprintf format [FmtArg.s account]) os

/-- The handler returned by `instrumentCommandHandler(format)` of `main.go`. -/
def SingleProcess.instrumentCommandHandler (lib : JsonLib)
    (format body incoming defaultDir : String) (os : WriteInput) : List Event :=
  match lib.decodeInstrument body with
  | Except.error _ => [Event.httpError "bad request" StatusBadRequest]
  | Except.ok p =>
    SingleProcess.writeAndAnswer incoming defaultDir
      (sprintf format [FmtArg.s p.1, FmtArg.s p.2]) os

/-- The handler returned by `orderCommandHandler(format)` of `main.go`. -/
def SingleProcess.orderCommandHandler (lib : JsonLib) (format body incoming defaultDir : String)
    (os : WriteInput) : List Event :=
  match lib.decodeOrder body with
  | Except.error _ => [Event.httpError "bad request" StatusBadRequest]
  | Except.ok p =>
    SingleProcess.writeAndAnswer incoming defaultDir
      (sprintf format [FmtArg.s p.1, FmtArg.s p.2]) os

/-- The four command routes registered by `main` of `main.go`, by path. -/
def SingleProcess.api (lib : JsonLib) (path body incoming defaultDir : String)
    (os : WriteInput) : List Event :=
  if path = "/api/flatten" then
    SingleProcess.commandHandler "FLATTENEVERYTHING;;;;;;;;;;;;" incoming defaultDir os
  else if path = "/api/flatten_account" then
    SingleProcess.accountCommandHandler lib "FLATTENEVERYTHING;ACCOUNT=%s;;;;;;;;;;;"
      body incoming defaultDir os
  else if path = "/api/close_position" then
    SingleProcess.instrumentCommandHandler lib "CLOSEPOSITION;ACCOUNT=%s;INSTRUMENT=%s;;;;;;;;;;"
      body incoming defaultDir os
  else if path = "/api/cancel_order" then
    SingleProcess.orderCommandHandler lib "CANCEL;ACCOUNT=%s;ORDERID=%s;;;;;;;;;;"
      body incoming defaultDir os
  else []

/-! ## Runs and observations used in the statements -/

/-- The snapshot a webhook body carries: the result of `io.ReadAll` passed
through `json.Unmarshal`; `none` when either call returns an error. -/
def decodeBody (lib : JsonLib) (body : Except String String) : Option Snapshot :=
  match body with
  | Except.error _ => none
  | Except.ok b =>
    match lib.unmarshalSnapshot b with
    | Except.error _ => none
    | Except.ok snap => some snap

/-- A sequence of webhook requests handled by the agent, in order. -/
def ConnectionServer.webhooks (lib : JsonLib) :
    ConnectionServer → List WebhookInput → ConnectionServer
  | cs, [] => cs
  | cs, inp :: rest => ConnectionServer.webhooks lib (cs.webhookHandler lib inp).1 rest

/-- A sequence of webhook requests handled by the single-process variant. -/
def SingleProcess.webhooks (lib : JsonLib) :
    SingleProcess → List (Except String String) → SingleProcess
  | st, [] => st
  | st, body :: rest => SingleProcess.webhooks lib (st.webhookHandler lib body).1 rest

/-- Number of drop events logged for the connection whose id is `id`. -/
def dropEvents (id : String) (evs : List Event) : Nat :=
  evs.count (Event.log "Command channel full for connection %s" [FmtArg.s id])

/-- The snapshot the hub reads out of one entry of an inbound mapping:
`json.Marshal(snapData)` followed by `json.Unmarshal(snapBytes, &snap)`; `none`
when either call returns an error. -/
def decodeEntry (lib : JsonLib) (snapData : JSON) : Option Snapshot :=
  match lib.marshalValue snapData with
  | Except.error _ => none
  | Except.ok snapBytes =>
    match lib.unmarshalSnapshot snapBytes with
    | Except.error _ => none
    | Except.ok snap => some snap

/-- The attempt count lies between 0 and the ceiling 10. -/
def ConnectionServer.attemptsInRange (cs : ConnectionServer) : Prop :=
  0 ≤ cs.connectAttempts ∧ cs.connectAttempts ≤ 10 ∧ cs.maxReconnects = 10

/-- Whether an action is a blocking network operation or a sleep. -/
def Event.isBlocking : Event → Bool
  | Event.sleep _ => true
  | Event.dial _ _ => true
  | Event.wsWrite _ _ => true
  | _ => false

/-- The blocking actions of a trace that are issued while the mutex `mu` is
held, that is after a `Lock` or `RLock` of `mu` and before the next `Unlock` or
`RUnlock`; `held` tells whether the mutex is held where the trace starts. -/
def blockedUnder (mu : String) : Bool → List Event → List Event
  | _, [] => []
  | held, e :: rest =>
    if e = Event.lock mu ∨ e = Event.rlock mu then blockedUnder mu true rest
    else if e = Event.unlock mu ∨ e = Event.runlock mu then blockedUnder mu false rest
    else if held && e.isBlocking then e :: blockedUnder mu held rest
    else blockedUnder mu held rest

/-- The contents handed to `os.WriteFile` by a trace, in order. -/
def filesWritten : List Event → List String
  | [] => []
  | Event.writeFile _ _ data _ :: rest => data :: filesWritten rest
  | _ :: rest => filesWritten rest

/-- Number of semicolons in a string. -/
def semicolons (s : String) : Nat := s.data.count ';'

/-- The first semicolon-delimited field of a string. -/
def firstField (s : String) : String := String.mk (s.data.takeWhile (fun c => c ≠ ';'))

/-- The cookies a trace sets, in order. -/
def cookiesOf : List Event → List Cookie
  | [] => []
  | Event.setCookie c :: rest => c :: cookiesOf rest
  | _ :: rest => cookiesOf rest

/-- The string fields of a payload, in order; `none` for a value that is not
a string. -/
def payloadStrings (payload : GoMap String JSON) : List (String × Option String) :=
  payload.map (fun f =>
    (f.1, match f.2 with
          | JSON.string s => some s
          | _ => none))

/-! ## Sample values -/

/-- A snapshot of account `Sim101` holding one long position. -/
def sampleSnapshot : Snapshot :=
  { Timestamp := 1700000000000000000
    Account := "Sim101"
    Balance := 50000
    Realized := 1250
    Unrealized := 125
    Positions := [{ Instrument := "ES 03-25", Symbol := "", MarketPosition := "Long",
                    Quantity := 2, AveragePrice := 5925, Unrealized := 125,
                    CurrentPrice := 5863 }]
    WorkingOrders := [] }

/-- A later snapshot of account `Sim101`, flat. -/
def sampleSnapshotFlat : Snapshot :=
  { Timestamp := 1700000001000000000
    Account := "Sim101"
    Balance := 50125
    Realized := 1375
    Unrealized := 0
    Positions := []
    WorkingOrders := [] }

/-- A stand-in for `encoding/json` on three bodies: `first` and `second` decode
to the two sample snapshots, `anonymous` to a snapshot without account, and
every other body is rejected. A table is rendered by its size, or by its
accounts and balances, and a map of strings by its entries. Of the frames sent
to an agent, `hubSnapshot` stands for
a frame of type `snapshot` (it carries no `payload` and no `id`),
`flattenNoAccount` for a `flatten_account` frame with an empty payload and
`flattenAll` for a `flatten_all` frame. A command body other than `garbage`
decodes to itself as the account. -/
def sampleLib : JsonLib :=
  { unmarshalSnapshot := fun b =>
      if b = "first" then Except.ok sampleSnapshot
      else if b = "second" then Except.ok sampleSnapshotFlat
      else if b = "anonymous" then Except.ok { sampleSnapshot with Account := "" }
      else Except.error "invalid character"
    marshalSnapshotMap := fun t => Except.ok (toString t.length)
    marshalSnapshotMessage := fun t => Except.ok (toString t.length)
    marshalTable := fun t =>
      Except.ok (String.intercalate "," (t.map (fun e => e.1 ++ "=" ++ toString e.2.Balance)))
    marshalValue := fun v =>
      match v with
      | JSON.string s => Except.ok s
      | JSON.object kvs =>
        Except.ok (String.intercalate ","
          (kvs.map (fun e =>
            match e.2 with
            | JSON.string x => e.1 ++ "=" ++ x
            | JSON.bool true => e.1 ++ "=true"
            | _ => e.1)))
      | _ => Except.error "unsupported"
    unmarshalMessage := fun m =>
      if m = "update1" then
        Except.ok { Type_ := "snapshot", Data := JSON.object [("Sim101", JSON.string "first")], ID := "" }
      else if m = "update2" then
        Except.ok { Type_ := "snapshot", Data := JSON.object [("Sim101", JSON.string "second")], ID := "" }
      else if m = "update3" then
        Except.ok { Type_ := "snapshot", Data := JSON.object [("ghost", JSON.string "anonymous")], ID := "" }
      else Except.error "invalid character"
    unmarshalCommand := fun m =>
      if m = "hubSnapshot" then Except.ok { Type_ := "snapshot", Payload := [], ID := "" }
      else if m = "flattenNoAccount" then
        Except.ok { Type_ := "flatten_account", Payload := [], ID := "cmd_9" }
      else if m = "flattenAll" then
        Except.ok { Type_ := "flatten_all", Payload := [], ID := "cmd_8" }
      else Except.error "invalid character"
    decodeAccount := fun b =>
      if b = "garbage" then Except.error "invalid character" else Except.ok b
    decodeInstrument := fun b =>
      if b = "garbage" then Except.error "invalid character" else Except.ok (b, "ES 03-25")
    decodeOrder := fun b =>
      if b = "garbage" then Except.error "invalid character" else Except.ok (b, "order-1")
    marshalCommand := fun c => Except.ok (c.Type_ ++ "#" ++ c.ID) }

/-- An agent as `NewConnectionServer` and `Start` leave it. -/
def sampleServer : ConnectionServer :=
  { latest := []
    wsConn := none
    reconnectChan := { cap := 1, buf := [()] }
    cloudURL := "ws://localhost:8081/ws"
    apiSecretToken := [115, 101, 99, 114, 101, 116]
    incomingDir := "incoming"
    commandChan := Chan.make 100
    isConnected := false
    connectAttempts := 0
    maxReconnects := 10 }

/-- A close-position command for `Sim101` / `ES 03-25`. -/
def sampleCommand : Command :=
  { Type_ := "close_position"
    Payload := [("account", JSON.string "Sim101"), ("instrument", JSON.string "ES 03-25")]
    ID := "cmd_1700000000000000000" }

/-- A successful file write at clock reading 1 with random draw 7. -/
def sampleWrite : WriteInput := { now := 1, rnd := 7, err := none }

/-- An agent connection as `websocketHandler` registers it: empty queue of
capacity 10. -/
def sampleClient : ConnectionClient :=
  { conn := 1, commandChan := Chan.make 10, id := "conn_1700000000000000001" }

/-- A hub with one registered agent connection and one session. -/
def sampleHub : CloudDashboard :=
  { latest := []
    webClients := []
    connections := [(1, sampleClient)]
    dashboardUser := [97, 100, 109, 105, 110]
    dashboardPass := [110, 105, 110, 106, 97, 49, 50, 51]
    apiSecretToken := [115, 101, 99, 114, 101, 116]
    sessions := [("token", 1700000000000000000)] }

/-- Twelve flatten-all commands with request identifiers `cmd_0` .. `cmd_11`. -/
def sampleCommands : List Command :=
  (List.range 12).map
    (fun n => { Type_ := "flatten_all", Payload := [], ID := sprintf "cmd_%d" [FmtArg.d n] })

/-- The sample agent connected to the hub over connection 3. -/
def sampleConnectedServer : ConnectionServer :=
  { sampleServer with wsConn := some 3, isConnected := true, reconnectChan := Chan.make 1 }

/-- A hub with two registered agent connections: connection 1 has one command
queued for its sender, connection 2 has an empty queue. -/
def sampleBusyHub : CloudDashboard :=
  { sampleHub with
    connections :=
      [(1, { sampleClient with commandChan := { cap := 10, buf := [sampleCommand] } }),
       (2, { conn := 2, commandChan := Chan.make 10, id := "conn_1700000000000000002" })] }

/-- A hub with three subscribers: the queue of subscriber 1 is empty, that of
subscriber 2 is full, that of subscriber 3 holds one update. -/
def sampleFeedHub : CloudDashboard :=
  { sampleHub with
    webClients :=
      [(1, Chan.make 10),
       (2, { cap := 10, buf := ["u0", "u1", "u2", "u3", "u4", "u5", "u6", "u7", "u8", "u9"] }),
       (3, { cap := 10, buf := ["u9"] })] }

/-- A stand-in for `encoding/json` that adds to `sampleLib` what
`json.NewDecoder(r.Body).Decode(&p)` answers on three command bodies: `{}`,
`null` and `{}garbage`. `Decode` reads the first JSON value of the body, does
not look at what follows it, and leaves a field that the value does not
mention at its zero value, so each of the three bodies decodes without error
to empty strings. -/
def sampleDecoderLib : JsonLib :=
  { sampleLib with
    decodeAccount := fun b =>
      if b = "\x7b\x7d" ∨ b = "null" ∨ b = "\x7b\x7dgarbage" then Except.ok ""
      else sampleLib.decodeAccount b
    decodeInstrument := fun b =>
      if b = "\x7b\x7d" ∨ b = "null" ∨ b = "\x7b\x7dgarbage" then Except.ok ("", "")
      else sampleLib.decodeInstrument b
    decodeOrder := fun b =>
      if b = "\x7b\x7d" ∨ b = "null" ∨ b = "\x7b\x7dgarbage" then Except.ok ("", "")
      else sampleLib.decodeOrder b }

/-! ## Theorems -/

/-! ### Formatting -/

theorem sprintf_close_position (a i : String) :
    sprintf "CLOSEPOSITION;ACCOUNT=%s;INSTRUMENT=%s;;;;;;;;;;" [FmtArg.s a, FmtArg.s i]
      = "CLOSEPOSITION;ACCOUNT=" ++ a ++ ";INSTRUMENT=" ++ i ++ ";;;;;;;;;;" := by
  apply String.ext
  simp [sprintf, sprintfAux]

theorem sprintf_data (b : String) :
    sprintf "data: %s\n\n" [FmtArg.s b] = "data: " ++ b ++ "\n\n" := by
  apply String.ext
  simp [sprintf, sprintfAux]

/-! ### Maps -/

theorem get?_set_self {κ ν : Type} [DecidableEq κ] (m : GoMap κ ν) (k : κ) (v : ν) :
    GoMap.get? (GoMap.set m k v) k = some v := by
  induction m with
  | nil => simp [GoMap.set, GoMap.get?]
  | cons e m ih =>
    obtain ⟨k', v'⟩ := e
    by_cases h : k' = k
    · simp [GoMap.set, GoMap.get?, h]
    · simp [GoMap.set, GoMap.get?, h, ih]

theorem get?_set_other {κ ν : Type} [DecidableEq κ] (m : GoMap κ ν) (k k2 : κ) (v : ν)
    (hne : k ≠ k2) : GoMap.get? (GoMap.set m k v) k2 = GoMap.get? m k2 := by
  induction m with
  | nil => simp [GoMap.set, GoMap.get?, hne]
  | cons e m ih =>
    obtain ⟨k', v'⟩ := e
    by_cases h : k' = k
    · subst h
      simp [GoMap.set, GoMap.get?, hne]
    · by_cases h2 : k' = k2
      · subst h2
        simp [GoMap.set, GoMap.get?, h]
      · simp [GoMap.set, GoMap.get?, h, h2, ih]

theorem get?_delete_self {κ ν : Type} [DecidableEq κ] (m : GoMap κ ν) (k : κ) :
    GoMap.get? (GoMap.delete m k) k = none := by
  induction m with
  | nil => simp [GoMap.delete, GoMap.get?]
  | cons e m ih =>
    obtain ⟨k', v'⟩ := e
    by_cases h : k' = k
    · simp [GoMap.delete, h, ih]
    · simp [GoMap.delete, GoMap.get?, h, ih]

/-! ### Sample values -/

/-- The sample agent is the state that `NewConnectionServer` followed by
`Start` produces for the secret `secret` and the default hub address. -/
theorem sampleServer_started :
    (NewConnectionServer "" [115, 101, 99, 114, 101, 116] "incoming").map ConnectionServer.Start
      = some sampleServer := by
  rfl

/-! ### C1: the instruction file of a close-position command -/

/-- C1: for every account string `a` and instrument string `i`, executing a
command of kind `close_position` whose payload binds `account` to `a` and
`instrument` to `i` performs exactly one file write, and the content written is
`CLOSEPOSITION;ACCOUNT=a;INSTRUMENT=i;;;;;;;;;;` followed by CRLF; the call
returns what the write returned. -/
theorem close_position_writes_instruction_line (cs : ConnectionServer) (cmd : Command)
    (os : WriteInput) (a i : String)
    (hkind : cmd.Type_ = "close_position")
    (haccount : cmd.Payload.get? "account" = some (JSON.string a))
    (hinstrument : cmd.Payload.get? "instrument" = some (JSON.string i)) :
    cs.executeCommand cmd os =
      (Outcome.ret os.err,
       [Event.writeFile cs.incomingDir
          (sprintf "oif_%d_%d.txt" [FmtArg.d os.now, FmtArg.d (os.rnd.val : Int)])
          ("CLOSEPOSITION;ACCOUNT=" ++ a ++ ";INSTRUMENT=" ++ i ++ ";;;;;;;;;;" ++ "\r\n")
          0o644]) := by
  simp [ConnectionServer.executeCommand, ConnectionServer.writeOIF, hkind, haccount,
    hinstrument, assertString, sprintf_close_position]

/-- Witness of C1 at `a = "Sim101"`, `i = "ES 03-25"`. -/
theorem close_position_writes_instruction_line_witness :
    sampleCommand.Type_ = "close_position"
    ∧ sampleCommand.Payload.get? "account" = some (JSON.string "Sim101")
    ∧ sampleCommand.Payload.get? "instrument" = some (JSON.string "ES 03-25")
    ∧ sampleServer.executeCommand sampleCommand sampleWrite =
      (Outcome.ret sampleWrite.err,
       [Event.writeFile sampleServer.incomingDir
          (sprintf "oif_%d_%d.txt" [FmtArg.d sampleWrite.now, FmtArg.d (sampleWrite.rnd.val : Int)])
          "CLOSEPOSITION;ACCOUNT=Sim101;INSTRUMENT=ES 03-25;;;;;;;;;;\r\n"
          0o644]) :=
  ⟨rfl, rfl, rfl,
   close_position_writes_instruction_line sampleServer sampleCommand sampleWrite
     "Sim101" "ES 03-25" rfl rfl rfl⟩

/-! ### C2 and C3: the webhook of the agent -/

theorem sendToCloud_latest (cs : ConnectionServer) (data : String)
    (writeErr : Option String) : (cs.sendToCloud data writeErr).1.latest = cs.latest := by
  unfold ConnectionServer.sendToCloud
  cases cs.wsConn with
  | none => rfl
  | some conn =>
    cases hc : cs.isConnected with
    | false => simp
    | true =>
      cases writeErr with
      | none => simp
      | some err =>
        simp only [Bool.not_true, Bool.false_eq_true, if_false]
        split <;> rfl

theorem agent_webhookHandler_accepted (lib : JsonLib) (cs : ConnectionServer)
    (inp : WebhookInput) (snap : Snapshot) (hdec : decodeBody lib inp.body = some snap)
    (hacc : snap.Account ≠ "") :
    (cs.webhookHandler lib inp).1.latest = cs.latest.set snap.Account snap := by
  unfold decodeBody at hdec
  unfold ConnectionServer.webhookHandler
  cases hb : inp.body with
  | error e => simp [hb] at hdec
  | ok body =>
    simp only [hb] at hdec
    cases hu : lib.unmarshalSnapshot body with
    | error e => simp [hu] at hdec
    | ok s =>
      simp only [hu, Option.some.injEq] at hdec
      subst hdec
      cases hm : lib.marshalSnapshotMap (GoMap.set cs.latest s.Account s) with
      | error e => simp [hu, hacc, hm]
      | ok data => simp [hu, hacc, hm, sendToCloud_latest]

theorem single_webhookHandler_accepted (lib : JsonLib) (st : SingleProcess)
    (body : Except String String) (snap : Snapshot) (hdec : decodeBody lib body = some snap)
    (hacc : snap.Account ≠ "") :
    (st.webhookHandler lib body).1.latest = st.latest.set snap.Account snap := by
  unfold decodeBody at hdec
  unfold SingleProcess.webhookHandler
  cases body with
  | error e => simp at hdec
  | ok body =>
    simp only at hdec
    cases hu : lib.unmarshalSnapshot body with
    | error e => simp [hu] at hdec
    | ok s =>
      simp only [hu, Option.some.injEq] at hdec
      subst hdec
      cases hm : lib.marshalTable (GoMap.set st.latest s.Account s) with
      | error e => simp [hu, hacc, hm]
      | ok data => simp [hu, hacc, hm, SingleProcess.broadcast]

theorem agent_webhooks_append (lib : JsonLib) (cs : ConnectionServer)
    (xs ys : List WebhookInput) :
    ConnectionServer.webhooks lib cs (xs ++ ys)
      = ConnectionServer.webhooks lib (ConnectionServer.webhooks lib cs xs) ys := by
  induction xs generalizing cs with
  | nil => rfl
  | cons x xs ih => simp [ConnectionServer.webhooks, ih]

theorem single_webhooks_append (lib : JsonLib) (st : SingleProcess)
    (xs ys : List (Except String String)) :
    SingleProcess.webhooks lib st (xs ++ ys)
      = SingleProcess.webhooks lib (SingleProcess.webhooks lib st xs) ys := by
  induction xs generalizing st with
  | nil => rfl
  | cons x xs ih => simp [SingleProcess.webhooks, ih]

/-- C2: after any sequence of webhook requests that ends with an accepted
snapshot for account `acct` (in particular after a non-empty sequence of
accepted snapshots that all carry `acct`), the table entry for `acct` is that
last snapshot, equal to it in every field, positions and working orders
included. This holds for the agent and for the single-process variant. -/
theorem last_snapshot_replaces_entry (lib : JsonLib) (acct : String) (last : Snapshot)
    (hacct : acct ≠ "") (hlast : last.Account = acct) :
    (∀ (cs : ConnectionServer) (earlier : List WebhookInput) (final : WebhookInput),
        (∀ inp ∈ earlier, ∃ s, decodeBody lib inp.body = some s ∧ s.Account = acct) →
        decodeBody lib final.body = some last →
        (ConnectionServer.webhooks lib cs (earlier ++ [final])).latest.get? acct = some last)
    ∧ (∀ (st : SingleProcess) (earlier : List (Except String String))
         (final : Except String String),
        (∀ body ∈ earlier, ∃ s, decodeBody lib body = some s ∧ s.Account = acct) →
        decodeBody lib final = some last →
        (SingleProcess.webhooks lib st (earlier ++ [final])).latest.get? acct = some last) := by
  subst hlast
  constructor
  · intro cs earlier final _ hfinal
    rw [agent_webhooks_append]
    simp only [ConnectionServer.webhooks]
    rw [agent_webhookHandler_accepted lib _ final last hfinal hacct]
    exact get?_set_self _ _ _
  · intro st earlier final _ hfinal
    rw [single_webhooks_append]
    simp only [SingleProcess.webhooks]
    rw [single_webhookHandler_accepted lib _ final last hfinal hacct]
    exact get?_set_self _ _ _

/-- Witness of C2: two accepted snapshots of `Sim101`; the entry is the second. -/
theorem last_snapshot_replaces_entry_witness :
    ("Sim101" ≠ "" ∧ sampleSnapshotFlat.Account = "Sim101")
    ∧ (ConnectionServer.webhooks sampleLib sampleServer
        ([{ body := Except.ok "first", writeErr := none }]
          ++ [{ body := Except.ok "second", writeErr := none }])).latest.get? "Sim101"
        = some sampleSnapshotFlat
    ∧ (SingleProcess.webhooks sampleLib { latest := [], clients := [] }
        ([Except.ok "first"] ++ [Except.ok "second"])).latest.get? "Sim101"
        = some sampleSnapshotFlat :=
  ⟨⟨by decide, rfl⟩,
   (last_snapshot_replaces_entry sampleLib "Sim101" sampleSnapshotFlat (by decide) rfl).1
     sampleServer [{ body := Except.ok "first", writeErr := none }]
     { body := Except.ok "second", writeErr := none }
     (by
       intro inp hinp
       simp only [List.mem_singleton] at hinp
       subst hinp
       exact ⟨sampleSnapshot, rfl, rfl⟩)
     rfl,
   (last_snapshot_replaces_entry sampleLib "Sim101" sampleSnapshotFlat (by decide) rfl).2
     { latest := [], clients := [] } [Except.ok "first"] (Except.ok "second")
     (by
       intro body hbody
       simp only [List.mem_singleton] at hbody
       subst hbody
       exact ⟨sampleSnapshot, rfl, rfl⟩)
     rfl⟩

theorem sendToCloud_status (cs : ConnectionServer) (data : String)
    (writeErr : Option String) (rest : List Event) :
    statusOf ((cs.sendToCloud data writeErr).2 ++ rest) = statusOf rest := by
  unfold ConnectionServer.sendToCloud
  cases cs.wsConn with
  | none => simp [statusOf]
  | some conn =>
    cases hc : cs.isConnected with
    | false => simp [statusOf]
    | true =>
      cases writeErr with
      | none => simp [statusOf]
      | some err => simp [statusOf]

/-- C3: the webhook of the agent answers 400 exactly when the body cannot be
read and decoded as a Snapshot or the decoded account identifier is empty; in
that case the agent state (the snapshot table included) is unchanged and
nothing is written to the hub connection. Every other request is answered
200, whatever the state of the hub connection and whatever the write to it
returns. -/
theorem webhook_status (lib : JsonLib) (cs : ConnectionServer) (inp : WebhookInput) :
    (statusOf (cs.webhookHandler lib inp).2 = some 400 ↔
      (decodeBody lib inp.body = none
        ∨ ∃ s, decodeBody lib inp.body = some s ∧ s.Account = ""))
    ∧ ((decodeBody lib inp.body = none
        ∨ ∃ s, decodeBody lib inp.body = some s ∧ s.Account = "") →
        (cs.webhookHandler lib inp).1 = cs ∧ wsWrites (cs.webhookHandler lib inp).2 = [])
    ∧ (¬ (decodeBody lib inp.body = none
        ∨ ∃ s, decodeBody lib inp.body = some s ∧ s.Account = "") →
        statusOf (cs.webhookHandler lib inp).2 = some 200) := by
  unfold decodeBody ConnectionServer.webhookHandler
  cases hb : inp.body with
  | error e => simp [statusOf, wsWrites, StatusBadRequest]
  | ok body =>
    cases hu : lib.unmarshalSnapshot body with
    | error e => simp [hu, statusOf, wsWrites, StatusBadRequest]
    | ok s =>
      by_cases hacc : s.Account = ""
      · simp [hu, hacc, statusOf, wsWrites, StatusBadRequest]
      · cases hm : lib.marshalSnapshotMap (GoMap.set cs.latest s.Account s) with
        | error e => simp [hu, hacc, hm, statusOf, StatusOK]
        | ok data =>
          simp [hu, hacc, hm, statusOf, StatusOK, sendToCloud_status]

/-- Witness of C3: a body that does not decode is answered 400 and changes
nothing; the first sample body is answered 200. -/
theorem webhook_status_witness :
    (decodeBody sampleLib (Except.ok "garbage") = none
      ∨ ∃ s, decodeBody sampleLib (Except.ok "garbage") = some s ∧ s.Account = "")
    ∧ statusOf (sampleServer.webhookHandler sampleLib
        { body := Except.ok "garbage", writeErr := none }).2 = some 400
    ∧ ((sampleServer.webhookHandler sampleLib
        { body := Except.ok "garbage", writeErr := none }).1 = sampleServer
      ∧ wsWrites (sampleServer.webhookHandler sampleLib
        { body := Except.ok "garbage", writeErr := none }).2 = [])
    ∧ statusOf (sampleServer.webhookHandler sampleLib
        { body := Except.ok "first", writeErr := none }).2 = some 200 :=
  ⟨Or.inl rfl,
   (webhook_status sampleLib sampleServer { body := Except.ok "garbage", writeErr := none }).1.2
     (Or.inl rfl),
   (webhook_status sampleLib sampleServer { body := Except.ok "garbage", writeErr := none }).2.1
     (Or.inl rfl),
   (webhook_status sampleLib sampleServer { body := Except.ok "first", writeErr := none }).2.2
     (by
       intro h
       rcases h with h | ⟨s, hs, hacc⟩
       · exact absurd h (by decide)
       · have hs' : sampleSnapshot = s := Option.some.inj hs
         subst hs'
         exact absurd hacc (by decide))⟩

/-! ### C4 and C5: command submission on the hub -/

theorem offer_id (c : ConnectionClient) (cmd : Command) :
    (c.offer cmd).1.id = c.id := by
  unfold ConnectionClient.offer
  split <;> rfl

theorem offer_room (c : ConnectionClient) (cmd : Command)
    (h : c.commandChan.buf.length < c.commandChan.cap) :
    c.offer cmd
      = ({ c with commandChan := { c.commandChan with buf := c.commandChan.buf ++ [cmd] } }, []) := by
  simp [ConnectionClient.offer, Chan.trySend, h]

theorem offer_full (c : ConnectionClient) (cmd : Command)
    (h : ¬ c.commandChan.buf.length < c.commandChan.cap) :
    c.offer cmd
      = (c, [Event.log "Command channel full for connection %s" [FmtArg.s c.id]]) := by
  simp [ConnectionClient.offer, Chan.trySend, h]

theorem dropEvents_append (id : String) (xs ys : List Event) :
    dropEvents id (xs ++ ys) = dropEvents id xs + dropEvents id ys := by
  simp [dropEvents, List.count_append]

theorem dropEvents_offer_other (id : String) (c : ConnectionClient) (cmd : Command)
    (h : c.id ≠ id) : dropEvents id (c.offer cmd).2 = 0 := by
  by_cases hr : c.commandChan.buf.length < c.commandChan.cap
  · simp [offer_room c cmd hr, dropEvents]
  · simp [offer_full c cmd hr, dropEvents, List.count_cons, h]

theorem offerAll_get? (m : GoMap Nat ConnectionClient) (cmd : Command) (k : Nat) :
    GoMap.get? (offerAll m cmd).1 k = (GoMap.get? m k).map (fun c => (c.offer cmd).1) := by
  induction m with
  | nil => simp [offerAll, GoMap.get?]
  | cons e m ih =>
    obtain ⟨k', c'⟩ := e
    by_cases h : k' = k
    · simp [offerAll, GoMap.get?, h]
    · simp [offerAll, GoMap.get?, h, ih]

theorem offerAll_filter (m : GoMap Nat ConnectionClient) (cmd : Command) (id : String) :
    (offerAll m cmd).1.filter (fun e => decide (e.2.id = id))
      = (offerAll (m.filter (fun e => decide (e.2.id = id))) cmd).1 := by
  induction m with
  | nil => simp [offerAll]
  | cons e m ih =>
    obtain ⟨k', c'⟩ := e
    by_cases h : c'.id = id
    · simp [offerAll, List.filter_cons, h, offer_id, ih]
    · simp [offerAll, List.filter_cons, h, offer_id, ih]

theorem offerAll_dropEvents (m : GoMap Nat ConnectionClient) (cmd : Command) (id : String) :
    dropEvents id (offerAll m cmd).2
      = dropEvents id (offerAll (m.filter (fun e => decide (e.2.id = id))) cmd).2 := by
  induction m with
  | nil => simp [offerAll]
  | cons e m ih =>
    obtain ⟨k', c'⟩ := e
    by_cases h : c'.id = id
    · simp [offerAll, List.filter_cons, h, dropEvents_append, ih]
    · simp [offerAll, List.filter_cons, h, dropEvents_append, ih,
        dropEvents_offer_other id c' cmd h]

theorem sendCommand_dropEvents (cd : CloudDashboard) (cmd : Command)
    (id : String) :
    dropEvents id (cd.sendCommandToConnections cmd).2
      = dropEvents id (offerAll cd.connections cmd).2 := by
  simp [CloudDashboard.sendCommandToConnections, dropEvents, List.count_cons, List.count_append]

/-- Closed form of a run of submissions seen from one registered connection:
its queue takes the commands that fit and every later one is a drop event. -/
theorem submitAll_client (k : Nat) (cmds : List Command) :
    ∀ (cd : CloudDashboard) (c : ConnectionClient),
      GoMap.get? cd.connections k = some c →
      cd.connections.filter (fun e => decide (e.2.id = c.id)) = [(k, c)] →
      GoMap.get? (cd.submitAll cmds).1.connections k
          = some { c with commandChan :=
              { c.commandChan with
                buf := c.commandChan.buf
                  ++ cmds.take (c.commandChan.cap - c.commandChan.buf.length) } }
        ∧ dropEvents c.id (cd.submitAll cmds).2
          = cmds.length - (c.commandChan.cap - c.commandChan.buf.length) := by
  induction cmds with
  | nil =>
    intro cd c hreg _
    simp [CloudDashboard.submitAll, hreg, dropEvents]
  | cons cmd rest ih =>
    intro cd c hreg honly
    have hreg1 : GoMap.get? (cd.sendCommandToConnections cmd).1.connections k
        = some (c.offer cmd).1 := by
      simp [CloudDashboard.sendCommandToConnections, offerAll_get?, hreg]
    have honly1 : (cd.sendCommandToConnections cmd).1.connections.filter
        (fun e => decide (e.2.id = (c.offer cmd).1.id)) = [(k, (c.offer cmd).1)] := by
      simp only [CloudDashboard.sendCommandToConnections, offer_id]
      rw [offerAll_filter, honly]
      simp [offerAll]
    have hstep : dropEvents c.id (cd.sendCommandToConnections cmd).2
        = dropEvents c.id (c.offer cmd).2 := by
      rw [sendCommand_dropEvents, offerAll_dropEvents, honly]
      simp [offerAll]
    have h := ih (cd.sendCommandToConnections cmd).1 (c.offer cmd).1 hreg1 honly1
    rw [offer_id] at h
    simp only [CloudDashboard.submitAll, dropEvents_append, hstep]
    by_cases hr : c.commandChan.buf.length < c.commandChan.cap
    · rw [offer_room c cmd hr] at h ⊢
      dsimp only at h ⊢
      obtain ⟨hq, hd⟩ := h
      simp only [List.length_append, List.length_singleton] at hq hd
      have hcap : c.commandChan.cap - c.commandChan.buf.length
          = (c.commandChan.cap - (c.commandChan.buf.length + 1)) + 1 := by omega
      constructor
      · rw [hq, hcap, List.take_succ_cons]
        simp
      · rw [hd]
        simp only [List.length_cons, dropEvents, List.count_nil]
        omega
    · rw [offer_full c cmd hr] at h ⊢
      dsimp only at h ⊢
      obtain ⟨hq, hd⟩ := h
      have hcap : c.commandChan.cap - c.commandChan.buf.length = 0 := by omega
      rw [hcap] at hq hd
      constructor
      · rw [hq, hcap]
        simp
      · rw [hd, hcap]
        simp [dropEvents]
        omega

/-- C4: for a registered agent connection whose outbound queue (capacity 10)
is empty and is not drained meanwhile, submitting more than 10 commands leaves
exactly the first 10 in the queue, in submission order, and logs one drop event
for each of the remaining ones. The connection is registered under key `k` and
is the only registered one that logs under its id. Every submission returns:
`sendCommandToConnections` is a total function whose only channel operation is
a `select` with a `default` branch. -/
theorem submit_overflow_keeps_first_ten (cd : CloudDashboard) (k : Nat) (c : ConnectionClient)
    (cmds : List Command)
    (hreg : GoMap.get? cd.connections k = some c)
    (honly : cd.connections.filter (fun e => decide (e.2.id = c.id)) = [(k, c)])
    (hempty : c.commandChan = Chan.make 10)
    (hmore : cmds.length > 10) :
    GoMap.get? (cd.submitAll cmds).1.connections k
        = some { c with commandChan := { cap := 10, buf := cmds.take 10 } }
      ∧ (cmds.take 10).length = 10
      ∧ dropEvents c.id (cd.submitAll cmds).2 = cmds.length - 10 := by
  have h := submitAll_client k cmds cd c hreg honly
  rw [hempty] at h
  simp only [Chan.make, List.length_nil, Nat.sub_zero, List.nil_append] at h
  refine ⟨h.1, ?_, h.2⟩
  rw [List.length_take]
  omega

/-- Witness of C4: twelve commands submitted to the sample hub. -/
theorem submit_overflow_keeps_first_ten_witness :
    (GoMap.get? sampleHub.connections 1 = some sampleClient
      ∧ sampleHub.connections.filter (fun e => decide (e.2.id = sampleClient.id))
          = [(1, sampleClient)]
      ∧ sampleClient.commandChan = Chan.make 10
      ∧ sampleCommands.length > 10)
    ∧ GoMap.get? (sampleHub.submitAll sampleCommands).1.connections 1
        = some { sampleClient with
            commandChan := { cap := 10, buf := sampleCommands.take 10 } }
    ∧ (sampleCommands.take 10).length = 10
    ∧ dropEvents sampleClient.id (sampleHub.submitAll sampleCommands).2
        = sampleCommands.length - 10 :=
  ⟨⟨rfl, by simp [sampleHub], rfl, by decide⟩,
   submit_overflow_keeps_first_ten sampleHub 1 sampleClient sampleCommands
     rfl (by simp [sampleHub]) rfl (by decide)⟩

theorem offerAll_eq_map (m : GoMap Nat ConnectionClient) (cmd : Command) :
    (offerAll m cmd).1
      = m.map (fun e =>
          (e.1, if e.2.commandChan.buf.length < e.2.commandChan.cap then
                  { e.2 with commandChan :=
                      { e.2.commandChan with buf := e.2.commandChan.buf ++ [cmd] } }
                else e.2)) := by
  induction m with
  | nil => simp [offerAll]
  | cons e m ih =>
    obtain ⟨k', c'⟩ := e
    by_cases hr : c'.commandChan.buf.length < c'.commandChan.cap
    · simp [offerAll, offer_room c' cmd hr, hr, ih]
    · simp [offerAll, offer_full c' cmd hr, hr, ih]

theorem offerAll_wsWrites (m : GoMap Nat ConnectionClient) (cmd : Command) :
    wsWrites (offerAll m cmd).2 = [] := by
  induction m with
  | nil => simp [offerAll, wsWrites]
  | cons e m ih =>
    obtain ⟨k', c'⟩ := e
    by_cases hr : c'.commandChan.buf.length < c'.commandChan.cap
    · simp [offerAll, offer_room c' cmd hr, ih]
    · simp [offerAll, offer_full c' cmd hr, ih, wsWrites]

theorem wsWrites_append (xs ys : List Event) :
    wsWrites (xs ++ ys) = wsWrites xs ++ wsWrites ys := by
  induction xs with
  | nil => simp [wsWrites]
  | cons e xs ih => cases e <;> simp [wsWrites, ih]

/-- C5: submitting a command on the hub touches the queues of the registered
agent connections and nothing else. Every registered connection keeps its key,
connection and id; its queue gets the command at the tail when it has room and
is unchanged when it is full. The snapshot table, the session table, the
subscribers and the credentials are unchanged and nothing is written to any
connection. With an empty registry the hub state is unchanged altogether, so
the command is held nowhere from which it could reach an agent. -/
theorem submit_touches_only_queues (cd : CloudDashboard) (cmd : Command) :
    (cd.sendCommandToConnections cmd).1.connections
        = cd.connections.map (fun e =>
            (e.1, if e.2.commandChan.buf.length < e.2.commandChan.cap then
                    { e.2 with commandChan :=
                        { e.2.commandChan with buf := e.2.commandChan.buf ++ [cmd] } }
                  else e.2))
      ∧ (cd.sendCommandToConnections cmd).1.latest = cd.latest
      ∧ (cd.sendCommandToConnections cmd).1.sessions = cd.sessions
      ∧ (cd.sendCommandToConnections cmd).1.webClients = cd.webClients
      ∧ (cd.sendCommandToConnections cmd).1.dashboardUser = cd.dashboardUser
      ∧ (cd.sendCommandToConnections cmd).1.dashboardPass = cd.dashboardPass
      ∧ (cd.sendCommandToConnections cmd).1.apiSecretToken = cd.apiSecretToken
      ∧ wsWrites (cd.sendCommandToConnections cmd).2 = []
      ∧ (cd.connections = [] →
          cd.sendCommandToConnections cmd
            = (cd, [Event.lock "connectionsMu", Event.unlock "connectionsMu"])) := by
  refine ⟨?_, rfl, rfl, rfl, rfl, rfl, rfl, ?_, ?_⟩
  · simp only [CloudDashboard.sendCommandToConnections]
    exact offerAll_eq_map cd.connections cmd
  · simp [CloudDashboard.sendCommandToConnections, wsWrites_append, offerAll_wsWrites, wsWrites]
  · intro hempty
    obtain ⟨l, w, cs, u, pw, tok, ss⟩ := cd
    simp only at hempty
    subst hempty
    rfl

/-- Witness of C5: a submission to a hub without registered agent. -/
theorem submit_touches_only_queues_witness :
    (NewCloudDashboard [97] [98] [99]).connections = []
    ∧ (NewCloudDashboard [97] [98] [99]).sendCommandToConnections sampleCommand
        = (NewCloudDashboard [97] [98] [99],
           [Event.lock "connectionsMu", Event.unlock "connectionsMu"]) :=
  ⟨rfl,
   (submit_touches_only_queues (NewCloudDashboard [97] [98] [99]) sampleCommand).2.2.2.2.2.2.2.2
     rfl⟩

/-! ### C6 and C7: the reconnect loop of the agent -/

/-- One failed round from attempt count `a ≤ 10`: the round runs (the loop does
not wait), sleeps `a` seconds before its dial, leaves the count at
`min (a + 1) 10` and the trigger re-armed, and pauses five minutes exactly when
`a = 10`. -/
theorem reconnectRound_failed (lib : JsonLib) (cs : ConnectionServer) (err : String) (a : Nat)
    (ha : a ≤ 10) (hatt : cs.connectAttempts = (a : Int)) (hmax : cs.maxReconnects = 10)
    (hch : cs.reconnectChan = { cap := 1, buf := [()] }) :
    ∃ cs' evs, cs.reconnectRound lib (DialResult.failed err) = some (cs', evs)
      ∧ cs'.connectAttempts = ((min (a + 1) 10 : Nat) : Int)
      ∧ cs'.maxReconnects = 10
      ∧ cs'.reconnectChan = { cap := 1, buf := [()] }
      ∧ sleptBeforeDial evs = (a : Int) * Second
      ∧ hasFiveMinutePause evs = decide (10 ≤ a) := by
  obtain ⟨latest, wsConn, reconnectChan, cloudURL, tok, dir, commandChan, isConnected,
    attempts, maxR⟩ := cs
  simp only at hatt hmax hch
  subst hatt hmax hch
  interval_cases a <;> cases wsConn <;>
    simp [ConnectionServer.reconnectRound, ConnectionServer.manageWebSocket, Chan.recv?,
      ConnectionServer.connectToCloud, ConnectionServer.scheduleReconnect,
      ConnectionServer.reconnectGuard, Chan.trySend, ConnectionServer.backoff, wrapInt64,
      Second, Minute, sleptBeforeDial, hasFiveMinutePause] <;>
    refine ⟨_, _, ⟨rfl, rfl⟩, ?_⟩ <;> simp [sleptBeforeDial]

/-- A run of failed dials from attempt count `a ≤ 10`: round `k` sleeps
`min (a + k) 10` seconds before its dial and pauses five minutes exactly when
`10 ≤ a + k`. -/
theorem reconnectRun_failed (lib : JsonLib) (errs : List String) :
    ∀ (cs : ConnectionServer) (a : Nat), a ≤ 10 → cs.connectAttempts = (a : Int) →
      cs.maxReconnects = 10 → cs.reconnectChan = { cap := 1, buf := [()] } →
      (cs.reconnectRun lib (errs.map DialResult.failed)).map sleptBeforeDial
          = (List.range errs.length).map (fun k => ((min (a + k) 10 : Nat) : Int) * Second)
        ∧ (cs.reconnectRun lib (errs.map DialResult.failed)).map hasFiveMinutePause
          = (List.range errs.length).map (fun k => decide (10 ≤ a + k)) := by
  induction errs with
  | nil => intro cs a _ _ _ _; simp [ConnectionServer.reconnectRun]
  | cons err rest ih =>
    intro cs a ha hatt hmax hch
    obtain ⟨cs', evs, hround, hatt', hmax', hch', hslept, hpause⟩ :=
      reconnectRound_failed lib cs err a ha hatt hmax hch
    obtain ⟨ih1, ih2⟩ := ih cs' (min (a + 1) 10) (by omega) hatt' hmax' hch'
    simp only [List.map_cons, ConnectionServer.reconnectRun, hround, List.length_cons,
      List.range_succ_eq_map, ih1, ih2, hslept, hpause, List.map_map]
    have h1 : ∀ k, ((min (min (a + 1) 10 + k) 10 : Nat) : Int) * Second
        = ((min (a + (k + 1)) 10 : Nat) : Int) * Second := by
      intro k
      have : min (min (a + 1) 10 + k) 10 = min (a + (k + 1)) 10 := by omega
      rw [this]
    have h2 : ∀ k, decide (10 ≤ min (a + 1) 10 + k) = decide (10 ≤ a + (k + 1)) := by
      intro k
      have : (10 ≤ min (a + 1) 10 + k) ↔ (10 ≤ a + (k + 1)) := by omega
      simp [this]
    have h0 : min (a + 0) 10 = a := by omega
    simp only [Function.comp_def, h1, h2, Nat.succ_eq_add_one, h0, Nat.add_zero]
    simp [ha]

/-- C6, counterexample: in a run of twelve failed dials from attempt count 0,
the twelfth dial is preceded by a backoff of 10 seconds, not of 11 seconds, so
the sequence of backoffs is not `0s, 1s, 2s, ...` up to 60 seconds. -/
theorem backoff_sequence_counterexample :
    ((sampleServer.reconnectRun sampleLib
        (List.replicate 12 (DialResult.failed "refused"))).map sleptBeforeDial)[11]?
      = some (10 * Second)
    ∧ (sampleServer.reconnectRun sampleLib
        (List.replicate 12 (DialResult.failed "refused"))).map sleptBeforeDial
      ≠ (List.range 12).map (fun k => ((min k 60 : Nat) : Int) * Second) := by
  constructor
  · rfl
  · intro h
    have h11 := congrArg (fun l => l[11]?) h
    revert h11
    decide

/-- C6, amended: in a run of consecutive failed dials that starts from attempt
count 0 (ceiling 10, reconnect trigger pending), every dial is reached, and the
backoff slept before dial number `k` (counted from 0) is `min k 10` seconds:
`0s, 1s, ..., 10s` and 10 seconds for every attempt after that. -/
theorem backoff_sequence_capped_at_ceiling (lib : JsonLib) (cs : ConnectionServer)
    (errs : List String)
    (hatt : cs.connectAttempts = 0) (hmax : cs.maxReconnects = 10)
    (hch : cs.reconnectChan = { cap := 1, buf := [()] }) :
    (cs.reconnectRun lib (errs.map DialResult.failed)).map sleptBeforeDial
      = (List.range errs.length).map (fun k => ((min k 10 : Nat) : Int) * Second) := by
  have h := (reconnectRun_failed lib errs cs 0 (by omega) (by simpa using hatt) hmax hch).1
  simpa using h

/-- Witness of the amended C6 on a run of thirteen failed dials. -/
theorem backoff_sequence_capped_at_ceiling_witness :
    (sampleServer.connectAttempts = 0 ∧ sampleServer.maxReconnects = 10
      ∧ sampleServer.reconnectChan = { cap := 1, buf := [()] })
    ∧ (sampleServer.reconnectRun sampleLib
        ((List.replicate 13 "refused").map DialResult.failed)).map sleptBeforeDial
      = (List.range (List.replicate 13 "refused").length).map
          (fun k => ((min k 10 : Nat) : Int) * Second) :=
  ⟨⟨rfl, rfl, rfl⟩,
   backoff_sequence_capped_at_ceiling sampleLib sampleServer (List.replicate 13 "refused")
     rfl rfl rfl⟩

/-- C7, counterexample: in a run of twelve failed dials from attempt count 0
the five minute pause follows the eleventh failure and follows the twelfth
failure again. -/
theorem five_minute_pause_counterexample :
    ((sampleServer.reconnectRun sampleLib
        (List.replicate 12 (DialResult.failed "refused"))).map hasFiveMinutePause)[10]?
      = some true
    ∧ ((sampleServer.reconnectRun sampleLib
        (List.replicate 12 (DialResult.failed "refused"))).map hasFiveMinutePause)[11]?
      = some true := by
  constructor <;> rfl

/-- C7, amended: in a run of consecutive failed dials that starts from attempt
count 0 (ceiling 10, reconnect trigger pending), no failure up to the tenth is
followed by the five minute pause, and the eleventh failure and every failure
after it is followed by one. -/
theorem five_minute_pause_after_every_late_failure (lib : JsonLib) (cs : ConnectionServer)
    (errs : List String)
    (hatt : cs.connectAttempts = 0) (hmax : cs.maxReconnects = 10)
    (hch : cs.reconnectChan = { cap := 1, buf := [()] }) :
    (cs.reconnectRun lib (errs.map DialResult.failed)).map hasFiveMinutePause
      = (List.range errs.length).map (fun k => decide (10 ≤ k)) := by
  have h := (reconnectRun_failed lib errs cs 0 (by omega) (by simpa using hatt) hmax hch).2
  simpa using h

/-- Witness of the amended C7 on a run of thirteen failed dials. -/
theorem five_minute_pause_after_every_late_failure_witness :
    (sampleServer.connectAttempts = 0 ∧ sampleServer.maxReconnects = 10
      ∧ sampleServer.reconnectChan = { cap := 1, buf := [()] })
    ∧ (sampleServer.reconnectRun sampleLib
        ((List.replicate 13 "refused").map DialResult.failed)).map hasFiveMinutePause
      = (List.range (List.replicate 13 "refused").length).map (fun k => decide (10 ≤ k)) :=
  ⟨⟨rfl, rfl, rfl⟩,
   five_minute_pause_after_every_late_failure sampleLib sampleServer
     (List.replicate 13 "refused") rfl rfl rfl⟩

/-! ### C8: the first frame of a subscription -/

/-- C8: whatever messages the hub has processed before a browser subscribes,
the handler writes exactly one frame before entering its loop, and that frame
is `data: ` followed by the serialisation of the whole snapshot table as it
stands at registration. The subscriber is registered with an empty queue of
capacity 10, so the message case of its loop has nothing to deliver: no frame
of an earlier table state reaches it. The table itself is not changed. -/
theorem subscriber_first_frame_is_current_table (lib : JsonLib) (cd : CloudDashboard)
    (msgs : List String) (ch : Nat) :
    framesOf ((cd.handleMessages lib msgs).eventsHandler lib ch).2
        = ["data: " ++ bytesOrNil (lib.marshalTable (cd.handleMessages lib msgs).latest)
            ++ "\n\n"]
      ∧ GoMap.get? ((cd.handleMessages lib msgs).eventsHandler lib ch).1.webClients ch
          = some (Chan.make 10)
      ∧ ((cd.handleMessages lib msgs).eventsHandler lib ch).1.eventsLoop ch SelectCase.msg = none
      ∧ ((cd.handleMessages lib msgs).eventsHandler lib ch).1.latest
          = (cd.handleMessages lib msgs).latest := by
  refine ⟨?_, ?_, ?_, rfl⟩
  · simp [CloudDashboard.eventsHandler, framesOf, sprintf_data]
  · simp [CloudDashboard.eventsHandler, get?_set_self]
  · simp [CloudDashboard.eventsHandler, CloudDashboard.eventsLoop, get?_set_self, Chan.make,
      Chan.recv?]

/-- Witness of C8: a subscriber registered after three updates (the third one
making the account flat) receives the table of the third update first. -/
theorem subscriber_first_frame_is_current_table_witness :
    framesOf ((sampleHub.handleMessages sampleLib
        ["update1", "update1", "update2"]).eventsHandler sampleLib 7).2
      = ["data: Sim101=50125\n\n"] :=
  (subscriber_first_frame_is_current_table sampleLib sampleHub
    ["update1", "update1", "update2"] 7).1

/-! ### C9: the bearer check of the agent channel -/

theorem or_eq_zero_of_bytes (v z : Nat) : v ||| z = 0 ↔ v = 0 ∧ z = 0 := by
  constructor
  · intro h
    have hbits : ∀ i, (v.testBit i || z.testBit i) = false := by
      intro i
      rw [← Nat.testBit_or, h]
      simp
    constructor
    · apply Nat.zero_of_testBit_eq_false
      intro i
      have := hbits i
      simp only [Bool.or_eq_false_iff] at this
      exact this.1
    · apply Nat.zero_of_testBit_eq_false
      intro i
      have := hbits i
      simp only [Bool.or_eq_false_iff] at this
      exact this.2
  · rintro ⟨rfl, rfl⟩
    simp

theorem ConstantTimeByteEq_zero (v : Nat) (hv : v < 256) :
    ConstantTimeByteEq v 0 = 1 ↔ v = 0 := by
  unfold ConstantTimeByteEq
  simp only [Nat.xor_zero, Nat.shiftRight_eq_div_pow]
  have hmod : v % 256 = v := Nat.mod_eq_of_lt hv
  rw [hmod]
  constructor
  · intro h
    by_contra hne
    have h' : (v + 4294967296 - 1) % 4294967296 / 2 ^ 31 = 1 := by exact_mod_cast h
    have : (v + 4294967296 - 1) % 4294967296 = v - 1 := by omega
    rw [this] at h'
    norm_num at h'
    omega
  · rintro rfl
    norm_num

theorem xorFold_lt (x : Bytes) : ∀ (v : Nat) (y : Bytes), v < 256 → xorFold v x y < 256 := by
  induction x with
  | nil => intro v y hv; simpa [xorFold] using hv
  | cons a x ih =>
    intro v y hv
    cases y with
    | nil => simpa [xorFold] using hv
    | cons b y =>
      simp only [xorFold]
      exact ih _ y (Nat.mod_lt _ (by norm_num))

theorem xorFold_eq_zero (x : Bytes) :
    ∀ (v : Nat) (y : Bytes), v < 256 → x.length = y.length →
      (xorFold v x y = 0 ↔ v = 0 ∧ x = y) := by
  induction x with
  | nil =>
    intro v y _ hlen
    cases y with
    | nil => simp [xorFold]
    | cons b y => simp at hlen
  | cons a x ih =>
    intro v y hv hlen
    cases y with
    | nil => simp at hlen
    | cons b y =>
      simp only [List.length_cons, Nat.add_right_cancel_iff] at hlen
      simp only [xorFold]
      have hz : a.val ^^^ b.val < 256 :=
        Nat.xor_lt_two_pow (n := 8) a.isLt b.isLt
      have hor : v ||| (a.val ^^^ b.val) < 256 :=
        Nat.or_lt_two_pow (n := 8) hv hz
      rw [ih _ y (Nat.mod_lt _ (by norm_num)) hlen, Nat.mod_eq_of_lt hor, or_eq_zero_of_bytes,
        Nat.xor_eq_zero]
      constructor
      · rintro ⟨⟨hv0, hab⟩, hxy⟩
        exact ⟨hv0, by rw [Fin.ext hab, hxy]⟩
      · rintro ⟨hv0, hxy⟩
        simp only [List.cons.injEq] at hxy
        exact ⟨⟨hv0, by rw [hxy.1]⟩, hxy.2⟩

/-- The constant-time comparison answers 1 exactly on equal byte strings. -/
theorem ConstantTimeCompare_eq_one (x y : Bytes) : ConstantTimeCompare x y = 1 ↔ x = y := by
  unfold ConstantTimeCompare
  by_cases hlen : x.length = y.length
  · simp only [hlen, ne_eq, not_true_eq_false, if_false]
    rw [ConstantTimeByteEq_zero _ (xorFold_lt x 0 y (by norm_num)),
      xorFold_eq_zero x 0 y (by norm_num) hlen]
    simp
  · simp only [ne_eq, hlen, not_false_eq_true, if_true]
    constructor
    · intro h
      simp at h
    · intro h
      exact absurd (congrArg List.length h) hlen

/-- C9: for every Authorization header value and configured secret, a header
that differs from `Bearer ` followed by the secret, whatever its length, is
answered 401, leaves the hub state (the registry included) unchanged and does
not reach the upgrade; the upgrade is reached exactly when the header equals
`Bearer ` followed by the secret. -/
theorem bearer_mismatch_is_rejected (lib : JsonLib) (cd : CloudDashboard) (inp : WsInput) :
    (inp.authHeader ≠ bearer ++ cd.apiSecretToken →
        statusOf (cd.websocketHandler lib inp).2 = some 401
          ∧ (cd.websocketHandler lib inp).1 = cd
          ∧ Event.upgrade ∉ (cd.websocketHandler lib inp).2)
      ∧ (Event.upgrade ∈ (cd.websocketHandler lib inp).2
          ↔ inp.authHeader = bearer ++ cd.apiSecretToken) := by
  unfold CloudDashboard.websocketHandler
  by_cases h : inp.authHeader = bearer ++ cd.apiSecretToken
  · have hc : ConstantTimeCompare (bearer ++ cd.apiSecretToken) (bearer ++ cd.apiSecretToken)
        = 1 := (ConstantTimeCompare_eq_one _ _).2 rfl
    simp only [h, hc, ne_eq, not_true_eq_false, if_false, false_implies, true_and, iff_true]
    cases inp.upgrade with
    | failed err => simp
    | ok conn => simp
  · have hc : ConstantTimeCompare inp.authHeader (bearer ++ cd.apiSecretToken) ≠ 1 :=
      fun hc => h ((ConstantTimeCompare_eq_one _ _).1 hc)
    simp [hc, h, statusOf, StatusUnauthorized]

/-- Witness of C9 on the headers named in the claim, for the secret `secret`:
the empty header, a proper prefix of the expected value, the expected value
with one more byte, and the bare secret. -/
theorem bearer_mismatch_is_rejected_witness :
    (statusOf (sampleHub.websocketHandler sampleLib
        { authHeader := [], upgrade := UpgradeResult.ok 2, now := 5 }).2 = some 401
      ∧ (sampleHub.websocketHandler sampleLib
        { authHeader := [], upgrade := UpgradeResult.ok 2, now := 5 }).1 = sampleHub
      ∧ Event.upgrade ∉ (sampleHub.websocketHandler sampleLib
        { authHeader := [], upgrade := UpgradeResult.ok 2, now := 5 }).2)
    ∧ (statusOf (sampleHub.websocketHandler sampleLib
        { authHeader := [66, 101, 97, 114, 101, 114, 32, 115, 101, 99],
          upgrade := UpgradeResult.ok 2, now := 5 }).2 = some 401)
    ∧ (statusOf (sampleHub.websocketHandler sampleLib
        { authHeader := [66, 101, 97, 114, 101, 114, 32, 115, 101, 99, 114, 101, 116, 33],
          upgrade := UpgradeResult.ok 2, now := 5 }).2 = some 401)
    ∧ (statusOf (sampleHub.websocketHandler sampleLib
        { authHeader := [115, 101, 99, 114, 101, 116],
          upgrade := UpgradeResult.ok 2, now := 5 }).2 = some 401)
    ∧ Event.upgrade ∈ (sampleHub.websocketHandler sampleLib
        { authHeader := [66, 101, 97, 114, 101, 114, 32, 115, 101, 99, 114, 101, 116],
          upgrade := UpgradeResult.ok 2, now := 5 }).2 :=
  ⟨(bearer_mismatch_is_rejected sampleLib sampleHub
      { authHeader := [], upgrade := UpgradeResult.ok 2, now := 5 }).1 (by decide),
   ((bearer_mismatch_is_rejected sampleLib sampleHub
      { authHeader := [66, 101, 97, 114, 101, 114, 32, 115, 101, 99],
        upgrade := UpgradeResult.ok 2, now := 5 }).1 (by decide)).1,
   ((bearer_mismatch_is_rejected sampleLib sampleHub
      { authHeader := [66, 101, 97, 114, 101, 114, 32, 115, 101, 99, 114, 101, 116, 33],
        upgrade := UpgradeResult.ok 2, now := 5 }).1 (by decide)).1,
   ((bearer_mismatch_is_rejected sampleLib sampleHub
      { authHeader := [115, 101, 99, 114, 101, 116],
        upgrade := UpgradeResult.ok 2, now := 5 }).1 (by decide)).1,
   (bearer_mismatch_is_rejected sampleLib sampleHub
      { authHeader := [66, 101, 97, 114, 101, 114, 32, 115, 101, 99, 114, 101, 116],
        upgrade := UpgradeResult.ok 2, now := 5 }).2.2 (by decide)⟩

/-- The byte list `bearer` spells `Bearer ` with its trailing blank. -/
theorem bearer_spelling : bearer.map (fun b => Char.ofNat b.val) = "Bearer ".data := by
  decide

/-! ### C10: the session gate of the hub -/

theorem saturate_gt_day (d : Int) :
    (if d > 9223372036854775807 then (9223372036854775807 : Int)
      else if d < -9223372036854775808 then -9223372036854775808 else d) > 86400000000000
      ↔ d > 86400000000000 := by
  split_ifs <;> omega

/-- Saturation of `time.Since` does not change the comparison with 24 hours. -/
theorem since_gt_day (now t : Int) : since now t > 24 * Hour ↔ now - t > 24 * Hour := by
  have h := saturate_gt_day (now - t)
  have h24 : (24 * Hour : Int) = 86400000000000 := by norm_num [Hour, Minute, Second]
  rw [h24]
  simpa [since, maxDuration, minDuration] using h

/-- C10: the session gate calls the protected handler if and only if the
request carries a session cookie whose token is in the session table with a
last-activity time no more than 24 hours before the clock reading of the check.
When it does, the token's last-activity time is set to the clock reading taken
for the update. Otherwise the request is redirected to `/login` with 303, the
handler is not called, and the presented token, if any, is absent from the
session table afterwards. -/
theorem session_gate (cd : CloudDashboard) (inp : AuthInput) :
    (Event.next ∈ (cd.requireAuth inp).2 ↔
        ∃ tok t, inp.cookie = some tok ∧ GoMap.get? cd.sessions tok = some t
          ∧ inp.nowCheck - t ≤ 24 * Hour)
      ∧ (Event.next ∈ (cd.requireAuth inp).2 →
          ∀ tok, inp.cookie = some tok →
            GoMap.get? (cd.requireAuth inp).1.sessions tok = some inp.nowUpdate)
      ∧ (Event.next ∉ (cd.requireAuth inp).2 →
          Event.redirect "/login" 303 ∈ (cd.requireAuth inp).2
            ∧ statusOf (cd.requireAuth inp).2 = some 303
            ∧ ∀ tok, inp.cookie = some tok →
                GoMap.get? (cd.requireAuth inp).1.sessions tok = none) := by
  unfold CloudDashboard.requireAuth
  cases hck : inp.cookie with
  | none => simp [statusOf, StatusSeeOther]
  | some value =>
    cases hs : GoMap.get? cd.sessions value with
    | none => simp [hs, statusOf, StatusSeeOther, get?_delete_self]
    | some sessionTime =>
      by_cases hexp : since inp.nowCheck sessionTime > 24 * Hour
      · have hd : ¬ inp.nowCheck - sessionTime ≤ 24 * Hour :=
          not_le.2 ((since_gt_day inp.nowCheck sessionTime).1 hexp)
        simp only [hs, hexp, decide_True, if_true, List.mem_cons, List.mem_singleton,
          Option.some.injEq, exists_eq_left', hd, and_false, exists_false]
        simp [statusOf, StatusSeeOther, get?_delete_self]
        intro x hx
        rw [hs] at hx
        obtain rfl := Option.some.inj hx
        linarith [not_le.1 hd]
      · have hd : inp.nowCheck - sessionTime ≤ 24 * Hour :=
          not_lt.1 ((since_gt_day inp.nowCheck sessionTime).not.1 hexp)
        simp only [hs, hexp, decide_False, Bool.false_eq_true, if_false, Option.some.injEq,
          exists_eq_left', hd]
        simp [get?_set_self]
        exact ⟨sessionTime, hs, by linarith⟩

/-- Witness of C10: a request with the live token of the sample hub one hour
after its last activity passes; the same request 25 hours after is redirected
and the token is gone. -/
theorem session_gate_witness :
    (Event.next ∈ (sampleHub.requireAuth
        { cookie := some "token", nowCheck := 1700003600000000000,
          nowUpdate := 1700003600000000001 }).2
      ∧ GoMap.get? (sampleHub.requireAuth
          { cookie := some "token", nowCheck := 1700003600000000000,
            nowUpdate := 1700003600000000001 }).1.sessions "token"
        = some 1700003600000000001)
    ∧ (Event.next ∉ (sampleHub.requireAuth
        { cookie := some "token", nowCheck := 1700090000000000000,
          nowUpdate := 1700090000000000001 }).2
      ∧ GoMap.get? (sampleHub.requireAuth
          { cookie := some "token", nowCheck := 1700090000000000000,
            nowUpdate := 1700090000000000001 }).1.sessions "token" = none) :=
  ⟨⟨by decide,
    (session_gate sampleHub
      { cookie := some "token", nowCheck := 1700003600000000000,
        nowUpdate := 1700003600000000001 }).2.1 (by decide) "token" rfl⟩,
   ⟨by decide,
    ((session_gate sampleHub
      { cookie := some "token", nowCheck := 1700090000000000000,
        nowUpdate := 1700090000000000001 }).2.2 (by decide)).2.2 "token" rfl⟩⟩

/-! ### C11: the login handler of the hub -/

theorem loginHandler_mismatch (cd : CloudDashboard) (inp : LoginInput)
    (h : ¬ (inp.username = cd.dashboardUser ∧ inp.password = cd.dashboardPass)) :
    cd.loginHandler inp = (cd, if inp.method = "GET" then [Event.executeLogin none]
      else if inp.method = "POST" then [Event.executeLogin (some "Invalid username or password")]
      else []) := by
  unfold CloudDashboard.loginHandler
  by_cases hg : inp.method = "GET"
  · simp [hg]
  · by_cases hp : inp.method = "POST"
    · have hpg : ¬ ("POST" = "GET") := by decide
      simp only [hp, hpg, if_false, if_true, Bool.and_eq_true, decide_eq_true_eq,
        ConstantTimeCompare_eq_one, h]
    · simp [hg, hp]

/-- C11: a POST to the login handler stores the freshly generated token in the
session table with the current time, sets the cookie `session` to that token
and redirects to `/`, if and only if the submitted username equals the
configured username and the submitted password equals the configured password.
On any mismatch the hub state, the session table included, is unchanged and no
cookie is set. -/
theorem login_creates_session_iff_credentials_match (cd : CloudDashboard) (inp : LoginInput)
    (hpost : inp.method = "POST") :
    ((∃ c, Event.setCookie c ∈ (cd.loginHandler inp).2)
        ↔ (inp.username = cd.dashboardUser ∧ inp.password = cd.dashboardPass))
      ∧ ((inp.username = cd.dashboardUser ∧ inp.password = cd.dashboardPass) →
          (cd.loginHandler inp).1.sessions = cd.sessions.set inp.sessionID inp.now
            ∧ GoMap.get? (cd.loginHandler inp).1.sessions inp.sessionID = some inp.now
            ∧ (cookiesOf (cd.loginHandler inp).2).map (fun c => (c.Name, c.Value))
                = [("session", inp.sessionID)]
            ∧ statusOf (cd.loginHandler inp).2 = some 303)
      ∧ (¬ (inp.username = cd.dashboardUser ∧ inp.password = cd.dashboardPass) →
          (cd.loginHandler inp).1 = cd ∧ cookiesOf (cd.loginHandler inp).2 = []) := by
  have hpg : ¬ ("POST" = "GET") := by decide
  by_cases h : inp.username = cd.dashboardUser ∧ inp.password = cd.dashboardPass
  · simp [CloudDashboard.loginHandler, hpost, hpg, ConstantTimeCompare_eq_one, h, cookiesOf,
      statusOf, StatusSeeOther, get?_set_self]
  · rw [loginHandler_mismatch cd inp h]
    simp [hpost, hpg, h, cookiesOf]

/-- Witness of C11: the configured pair `admin` / `ninja123` logs in on the
sample hub; the same user with the password `ninja124` changes nothing. -/
theorem login_creates_session_iff_credentials_match_witness :
    (GoMap.get? (sampleHub.loginHandler
        { method := "POST", username := [97, 100, 109, 105, 110],
          password := [110, 105, 110, 106, 97, 49, 50, 51], forwardedProto := "https",
          sessionID := "fresh", now := 1700000000000000005 }).1.sessions "fresh"
      = some 1700000000000000005)
    ∧ ((sampleHub.loginHandler
        { method := "POST", username := [97, 100, 109, 105, 110],
          password := [110, 105, 110, 106, 97, 49, 50, 52], forwardedProto := "https",
          sessionID := "fresh", now := 1700000000000000005 }).1 = sampleHub) :=
  ⟨((login_creates_session_iff_credentials_match sampleHub
      { method := "POST", username := [97, 100, 109, 105, 110],
        password := [110, 105, 110, 106, 97, 49, 50, 51], forwardedProto := "https",
        sessionID := "fresh", now := 1700000000000000005 } rfl).2.1 ⟨rfl, rfl⟩).2.1,
   ((login_creates_session_iff_credentials_match sampleHub
      { method := "POST", username := [97, 100, 109, 105, 110],
        password := [110, 105, 110, 106, 97, 49, 50, 52], forwardedProto := "https",
        sessionID := "fresh", now := 1700000000000000005 } rfl).2.2 (by decide)).1⟩

/-! ### C12: the command endpoints that carry a body -/

theorem statusOf_offerAll (m : GoMap Nat ConnectionClient) (cmd : Command) (rest : List Event) :
    statusOf ((offerAll m cmd).2 ++ rest) = statusOf rest := by
  induction m with
  | nil => simp [offerAll]
  | cons e m ih =>
    obtain ⟨k', c'⟩ := e
    by_cases hr : c'.commandChan.buf.length < c'.commandChan.cap
    · simp [offerAll, offer_room c' cmd hr, ih]
    · simp [offerAll, offer_full c' cmd hr, ih, statusOf]

theorem statusOf_sendCommand (cd : CloudDashboard) (cmd : Command) (rest : List Event) :
    statusOf ((cd.sendCommandToConnections cmd).2 ++ rest) = statusOf rest := by
  simp [CloudDashboard.sendCommandToConnections, statusOf, statusOf_offerAll]

/-- Each of the three command handlers that read a body
(`accountCommandHandler`, `instrumentCommandHandler`, `orderCommandHandler`,
mounted behind the session gate for the kinds `flatten_account`,
`close_position` and `cancel_order`) answers 400 and leaves the hub unchanged,
no queue touched, when `Decode` returns an error. When `Decode` returns no
error, whatever the decoded fields are, the handler makes exactly one call of
`sendCommandToConnections`, with a command whose kind is the kind of the
endpoint, whose payload holds exactly the decoded fields and whose id is `cmd_`
followed by the clock reading, and then answers 200. -/
theorem command_endpoints_reject_or_dispatch_once (lib : JsonLib) (cd : CloudDashboard)
    (cmdType body : String) (now : Int) :
    ((∀ e, lib.decodeAccount body = Except.error e →
        cd.accountCommandHandler lib cmdType body now
          = (cd, [Event.httpError "bad request" 400]))
      ∧ (∀ account, lib.decodeAccount body = Except.ok account →
        cd.accountCommandHandler lib cmdType body now
            = ((cd.sendCommandToConnections
                  { Type_ := cmdType
                    Payload := [("account", JSON.string account)]
                    ID := sprintf "cmd_%d" [FmtArg.d now] }).1,
               (cd.sendCommandToConnections
                  { Type_ := cmdType
                    Payload := [("account", JSON.string account)]
                    ID := sprintf "cmd_%d" [FmtArg.d now] }).2 ++ [Event.writeHeader 200])
          ∧ statusOf (cd.accountCommandHandler lib cmdType body now).2 = some 200))
    ∧ ((∀ e, lib.decodeInstrument body = Except.error e →
        cd.instrumentCommandHandler lib cmdType body now
          = (cd, [Event.httpError "bad request" 400]))
      ∧ (∀ account instrument, lib.decodeInstrument body = Except.ok (account, instrument) →
        cd.instrumentCommandHandler lib cmdType body now
            = ((cd.sendCommandToConnections
                  { Type_ := cmdType
                    Payload := [("account", JSON.string account),
                                ("instrument", JSON.string instrument)]
                    ID := sprintf "cmd_%d" [FmtArg.d now] }).1,
               (cd.sendCommandToConnections
                  { Type_ := cmdType
                    Payload := [("account", JSON.string account),
                                ("instrument", JSON.string instrument)]
                    ID := sprintf "cmd_%d" [FmtArg.d now] }).2 ++ [Event.writeHeader 200])
          ∧ statusOf (cd.instrumentCommandHandler lib cmdType body now).2 = some 200))
    ∧ ((∀ e, lib.decodeOrder body = Except.error e →
        cd.orderCommandHandler lib cmdType body now
          = (cd, [Event.httpError "bad request" 400]))
      ∧ (∀ account orderId, lib.decodeOrder body = Except.ok (account, orderId) →
        cd.orderCommandHandler lib cmdType body now
            = ((cd.sendCommandToConnections
                  { Type_ := cmdType
                    Payload := [("account", JSON.string account),
                                ("orderId", JSON.string orderId)]
                    ID := sprintf "cmd_%d" [FmtArg.d now] }).1,
               (cd.sendCommandToConnections
                  { Type_ := cmdType
                    Payload := [("account", JSON.string account),
                                ("orderId", JSON.string orderId)]
                    ID := sprintf "cmd_%d" [FmtArg.d now] }).2 ++ [Event.writeHeader 200])
          ∧ statusOf (cd.orderCommandHandler lib cmdType body now).2 = some 200)) := by
  refine ⟨⟨?_, ?_⟩, ⟨?_, ?_⟩, ⟨?_, ?_⟩⟩
  · intro e he
    simp [CloudDashboard.accountCommandHandler, he, StatusBadRequest]
  · intro account hok
    simp [CloudDashboard.accountCommandHandler, hok, StatusOK, statusOf_sendCommand, statusOf]
  · intro e he
    simp [CloudDashboard.instrumentCommandHandler, he, StatusBadRequest]
  · intro account instrument hok
    simp [CloudDashboard.instrumentCommandHandler, hok, StatusOK, statusOf_sendCommand, statusOf]
  · intro e he
    simp [CloudDashboard.orderCommandHandler, he, StatusBadRequest]
  · intro account orderId hok
    simp [CloudDashboard.orderCommandHandler, hok, StatusOK, statusOf_sendCommand, statusOf]

/-- On the sample hub, the body `garbage` is answered 400 by
the flatten-account endpoint and changes nothing; the body `Sim101` puts one
`close_position` command for `Sim101` / `ES 03-25` in the queue of the
registered agent and is answered 200. -/
theorem command_endpoints_reject_or_dispatch_once_witness :
    sampleHub.accountCommandHandler sampleLib "flatten_account" "garbage" 5
        = (sampleHub, [Event.httpError "bad request" 400])
    ∧ statusOf (sampleHub.instrumentCommandHandler sampleLib "close_position" "Sim101" 5).2
        = some 200
    ∧ ((sampleHub.instrumentCommandHandler sampleLib "close_position" "Sim101" 5).1.connections.map
        (fun e => e.2.commandChan.buf.map (fun c => (c.Type_, c.ID))))
        = [[("close_position", "cmd_5")]] :=
  ⟨(command_endpoints_reject_or_dispatch_once sampleLib sampleHub "flatten_account" "garbage"
      5).1.1 "invalid character" rfl,
   ((command_endpoints_reject_or_dispatch_once sampleLib sampleHub "close_position" "Sim101"
      5).2.1.2 "Sim101" "ES 03-25" rfl).2,
   by
     rw [((command_endpoints_reject_or_dispatch_once sampleLib sampleHub "close_position"
       "Sim101" 5).2.1.2 "Sim101" "ES 03-25" rfl).1]
     rfl⟩

/-- C12, at the failing input: the body `{}`, which names none of the required
fields, is sent to each of the three endpoints of the sample hub. `Decode`
returns no error, so each endpoint answers 200 and queues one command for the
registered agent whose payload binds every field to the empty string; the
bodies `null` and `{}garbage` are answered 200 in the same way. The agent
turns the queued flatten-account command into an instruction line with an
empty account. The webhook of the agent answers 400 to a payload without
account. -/
theorem body_without_fields_is_dispatched :
    statusOf (sampleHub.accountCommandHandler sampleDecoderLib "flatten_account"
        "\x7b\x7d" 5).2 = some 200
    ∧ (sampleHub.accountCommandHandler sampleDecoderLib "flatten_account"
        "\x7b\x7d" 5).1.connections.map
          (fun e => e.2.commandChan.buf.map (fun c => (c.Type_, c.ID, payloadStrings c.Payload)))
        = [[("flatten_account", "cmd_5", [("account", some "")])]]
    ∧ statusOf (sampleHub.instrumentCommandHandler sampleDecoderLib "close_position"
        "\x7b\x7d" 5).2 = some 200
    ∧ (sampleHub.instrumentCommandHandler sampleDecoderLib "close_position"
        "\x7b\x7d" 5).1.connections.map
          (fun e => e.2.commandChan.buf.map (fun c => (c.Type_, c.ID, payloadStrings c.Payload)))
        = [[("close_position", "cmd_5", [("account", some ""), ("instrument", some "")])]]
    ∧ statusOf (sampleHub.orderCommandHandler sampleDecoderLib "cancel_order"
        "\x7b\x7d" 5).2 = some 200
    ∧ (sampleHub.orderCommandHandler sampleDecoderLib "cancel_order"
        "\x7b\x7d" 5).1.connections.map
          (fun e => e.2.commandChan.buf.map (fun c => (c.Type_, c.ID, payloadStrings c.Payload)))
        = [[("cancel_order", "cmd_5", [("account", some ""), ("orderId", some "")])]]
    ∧ statusOf (sampleHub.accountCommandHandler sampleDecoderLib "flatten_account"
        "null" 5).2 = some 200
    ∧ statusOf (sampleHub.accountCommandHandler sampleDecoderLib "flatten_account"
        "\x7b\x7dgarbage" 5).2 = some 200
    ∧ filesWritten (sampleServer.executeCommand
        { Type_ := "flatten_account", Payload := [("account", JSON.string "")], ID := "cmd_5" }
        sampleWrite).2 = ["FLATTENEVERYTHING;ACCOUNT=;;;;;;;;;;;\r\n"]
    ∧ statusOf (sampleServer.webhookHandler sampleLib
        { body := Except.ok "anonymous", writeErr := none }).2 = some 400 := by
  refine ⟨rfl, rfl, rfl, rfl, rfl, rfl, rfl, rfl, rfl, rfl⟩

/-! ### C15: keys and accounts of the agent table -/

theorem mem_set {κ ν : Type} [DecidableEq κ] (m : GoMap κ ν) (k : κ) (v : ν) (e : κ × ν)
    (he : e ∈ GoMap.set m k v) : e ∈ m ∨ e = (k, v) := by
  induction m with
  | nil =>
    simp only [GoMap.set, List.mem_singleton] at he
    exact Or.inr he
  | cons x m ih =>
    obtain ⟨k', v'⟩ := x
    by_cases h : k' = k
    · simp only [GoMap.set, h, if_true, List.mem_cons] at he
      rcases he with he | he
      · exact Or.inr he
      · exact Or.inl (List.mem_cons_of_mem _ he)
    · simp only [GoMap.set, h, if_false, List.mem_cons] at he
      rcases he with he | he
      · exact Or.inl (by rw [he]; exact List.mem_cons_self _ _)
      · rcases ih he with h1 | h1
        · exact Or.inl (List.mem_cons_of_mem _ h1)
        · exact Or.inr h1

/-- The table after one webhook request: the decoded snapshot is stored under
its account when that is non-empty, and the table is unchanged otherwise. -/
theorem agent_webhookHandler_table (lib : JsonLib) (cs : ConnectionServer)
    (inp : WebhookInput) :
    (cs.webhookHandler lib inp).1.latest = cs.latest
      ∨ ∃ s, s.Account ≠ "" ∧ (cs.webhookHandler lib inp).1.latest
          = cs.latest.set s.Account s := by
  unfold ConnectionServer.webhookHandler
  cases hb : inp.body with
  | error e => left; rfl
  | ok body =>
    cases hu : lib.unmarshalSnapshot body with
    | error e => left; simp [hu]
    | ok s =>
      by_cases hacc : s.Account = ""
      · left; simp [hu, hacc]
      · right
        refine ⟨s, hacc, ?_⟩
        cases hm : lib.marshalSnapshotMap (GoMap.set cs.latest s.Account s) with
        | error e => simp [hu, hacc, hm]
        | ok data => simp [hu, hacc, hm, sendToCloud_latest]

/-- C15: in every state of the agent reached from an empty snapshot table by
webhook requests, every entry of the table holds a snapshot whose account
identifier is non-empty and equal to the key of the entry. -/
theorem agent_table_keys_are_accounts (lib : JsonLib) (cs : ConnectionServer)
    (inps : List WebhookInput) (hempty : cs.latest = []) :
    ∀ e ∈ (ConnectionServer.webhooks lib cs inps).latest,
      e.2.Account ≠ "" ∧ e.2.Account = e.1 := by
  have hinv : ∀ e ∈ cs.latest, e.2.Account ≠ "" ∧ e.2.Account = e.1 := by
    rw [hempty]
    intro e he
    cases he
  clear hempty
  induction inps generalizing cs with
  | nil => simpa [ConnectionServer.webhooks] using hinv
  | cons inp rest ih =>
    simp only [ConnectionServer.webhooks]
    apply ih
    rcases agent_webhookHandler_table lib cs inp with h | ⟨s, hacc, h⟩
    · rw [h]
      exact hinv
    · rw [h]
      intro e he
      rcases mem_set _ _ _ e he with h1 | h1
      · exact hinv e h1
      · rw [h1]
        exact ⟨hacc, rfl⟩

/-- Witness of C15: the table of the sample agent after an accepted, a
rejected and a second accepted request. -/
theorem agent_table_keys_are_accounts_witness :
    sampleServer.latest = []
    ∧ ∀ e ∈ (ConnectionServer.webhooks sampleLib sampleServer
        [{ body := Except.ok "first", writeErr := none },
         { body := Except.ok "anonymous", writeErr := none },
         { body := Except.ok "second", writeErr := none }]).latest,
      e.2.Account ≠ "" ∧ e.2.Account = e.1 :=
  ⟨rfl,
   agent_table_keys_are_accounts sampleLib sampleServer
     [{ body := Except.ok "first", writeErr := none },
      { body := Except.ok "anonymous", writeErr := none },
      { body := Except.ok "second", writeErr := none }] rfl⟩

/-! ### C17: the hub table after a snapshot message -/

theorem get?_of_not_mem_keys {κ ν : Type} [DecidableEq κ] (m : GoMap κ ν) (k : κ)
    (h : k ∉ m.map Prod.fst) : GoMap.get? m k = none := by
  induction m with
  | nil => rfl
  | cons e m ih =>
    obtain ⟨k', v'⟩ := e
    simp only [List.map_cons, List.mem_cons, not_or] at h
    have hne : ¬ k' = k := fun hk => h.1 hk.symm
    simp [GoMap.get?, hne, ih h.2]

/-- The table after the merge loop over a mapping with distinct keys in which
every entry decodes. -/
theorem mergeSnapshots_get? (lib : JsonLib) (dataMap : List (String × JSON)) :
    ∀ (latest : GoMap String Snapshot), (dataMap.map Prod.fst).Nodup →
      (∀ e ∈ dataMap, ∃ s, decodeEntry lib e.2 = some s) →
      ∀ k, GoMap.get? (mergeSnapshots lib latest dataMap) k
        = match GoMap.get? dataMap k with
          | some v => decodeEntry lib v
          | none => GoMap.get? latest k := by
  induction dataMap with
  | nil => intro latest _ _ k; simp [mergeSnapshots, GoMap.get?]
  | cons e rest ih =>
    intro latest hnodup hdec k
    obtain ⟨account, snapData⟩ := e
    simp only [List.map_cons, List.nodup_cons] at hnodup
    obtain ⟨s, hs⟩ := hdec (account, snapData) (List.mem_cons_self _ _)
    have hstep : mergeSnapshots lib latest ((account, snapData) :: rest)
        = mergeSnapshots lib (latest.set account s) rest := by
      simp only [decodeEntry] at hs
      cases hm : lib.marshalValue snapData with
      | error e => simp [hm] at hs
      | ok snapBytes =>
        simp only [hm] at hs
        cases hu : lib.unmarshalSnapshot snapBytes with
        | error e => simp [hu] at hs
        | ok s' =>
          simp only [hu, Option.some.injEq] at hs
          subst hs
          simp [mergeSnapshots, hm, hu]
    rw [hstep, ih (latest.set account s) hnodup.2
      (fun e he => hdec e (List.mem_cons_of_mem _ he)) k]
    by_cases hk : account = k
    · subst hk
      simp [GoMap.get?, get?_of_not_mem_keys rest account hnodup.1, get?_set_self, hs]
    · simp only [GoMap.get?, hk, if_false]
      cases GoMap.get? rest k with
      | none => simp [get?_set_other latest account k s hk]
      | some v => rfl

/-- C17: after the hub processes a snapshot message whose mapping has one
entry per account and in which every entry decodes as a Snapshot, the table is
the previous table overwritten by the message: the entry of every account of
the message is the snapshot decoded from the message for that account, and the
entry of every account absent from the message is what it was (none is
removed). -/
theorem hub_table_overwritten_by_message (lib : JsonLib) (cd : CloudDashboard)
    (message : String) (msg : WebSocketMessage) (dataMap : List (String × JSON))
    (hmsg : lib.unmarshalMessage message = Except.ok msg)
    (htype : msg.Type_ = "snapshot")
    (hdata : msg.Data = JSON.object dataMap)
    (hkeys : (dataMap.map Prod.fst).Nodup)
    (hdec : ∀ e ∈ dataMap, ∃ s, decodeEntry lib e.2 = some s) :
    (∀ account snapData, GoMap.get? dataMap account = some snapData →
        GoMap.get? (cd.handleMessage lib message).1.latest account = decodeEntry lib snapData)
      ∧ (∀ account, GoMap.get? dataMap account = none →
        GoMap.get? (cd.handleMessage lib message).1.latest account
          = GoMap.get? cd.latest account) := by
  have hlatest : (cd.handleMessage lib message).1.latest
      = mergeSnapshots lib cd.latest dataMap := by
    simp [CloudDashboard.handleMessage, hmsg, htype, hdata, CloudDashboard.broadcast]
  rw [hlatest]
  constructor
  · intro account snapData hget
    rw [mergeSnapshots_get? lib dataMap cd.latest hkeys hdec account, hget]
  · intro account hget
    rw [mergeSnapshots_get? lib dataMap cd.latest hkeys hdec account, hget]

/-- Witness of C17: the sample hub after the message `update2`. -/
theorem hub_table_overwritten_by_message_witness :
    (sampleLib.unmarshalMessage "update2"
        = Except.ok { Type_ := "snapshot",
                      Data := JSON.object [("Sim101", JSON.string "second")], ID := "" }
      ∧ (([("Sim101", JSON.string "second")] : List (String × JSON)).map Prod.fst).Nodup)
    ∧ GoMap.get? (sampleHub.handleMessage sampleLib "update2").1.latest "Sim101"
        = some sampleSnapshotFlat
    ∧ GoMap.get? (sampleHub.handleMessage sampleLib "update2").1.latest "Sim102"
        = GoMap.get? sampleHub.latest "Sim102" :=
  ⟨⟨rfl, by simp⟩,
   (hub_table_overwritten_by_message sampleLib sampleHub "update2"
      { Type_ := "snapshot", Data := JSON.object [("Sim101", JSON.string "second")], ID := "" }
      [("Sim101", JSON.string "second")] rfl rfl rfl (by simp)
      (by
        intro e he
        simp only [List.mem_singleton] at he
        subst he
        exact ⟨sampleSnapshotFlat, rfl⟩)).1 "Sim101" (JSON.string "second") rfl,
   (hub_table_overwritten_by_message sampleLib sampleHub "update2"
      { Type_ := "snapshot", Data := JSON.object [("Sim101", JSON.string "second")], ID := "" }
      [("Sim101", JSON.string "second")] rfl rfl rfl (by simp)
      (by
        intro e he
        simp only [List.mem_singleton] at he
        subst he
        exact ⟨sampleSnapshotFlat, rfl⟩)).2 "Sim102" rfl⟩

/-! ### C20: sending while not connected -/

/-- C20: when the agent holds no connection or its connected flag is false,
`sendToCloud` is a no-op: the agent state is returned unchanged (connection,
connected flag, attempt count, reconnect trigger and every queue), nothing is
written to any connection, and the only visible action is the log line under
the connection lock. -/
theorem send_while_disconnected_is_noop (cs : ConnectionServer) (data : String)
    (writeErr : Option String) (hdown : cs.wsConn = none ∨ cs.isConnected = false) :
    (cs.sendToCloud data writeErr).1 = cs
      ∧ wsWrites (cs.sendToCloud data writeErr).2 = []
      ∧ (cs.sendToCloud data writeErr).2
          = [Event.lock "wsConnMu",
             Event.log "WebSocket not connected, dropping message" [],
             Event.unlock "wsConnMu"] := by
  unfold ConnectionServer.sendToCloud
  cases hc : cs.wsConn with
  | none => simp [wsWrites]
  | some conn =>
    rcases hdown with h | h
    · rw [hc] at h
      cases h
    · simp [h, wsWrites]

/-- Witness of C20: the sample agent, which holds no connection. -/
theorem send_while_disconnected_is_noop_witness :
    (sampleServer.wsConn = none ∨ sampleServer.isConnected = false)
    ∧ (sampleServer.sendToCloud "ack" none).1 = sampleServer
    ∧ wsWrites (sampleServer.sendToCloud "ack" none).2 = []
    ∧ (sampleServer.sendToCloud "ack" none).2
        = [Event.lock "wsConnMu",
           Event.log "WebSocket not connected, dropping message" [],
           Event.unlock "wsConnMu"] :=
  ⟨Or.inl rfl, send_while_disconnected_is_noop sampleServer "ack" none (Or.inl rfl)⟩

/-! ### C18: request identifiers -/

theorem digitChar_val (k : Nat) (h : k < 10) : (Nat.digitChar k).toNat - 48 = k := by
  interval_cases k <;> rfl

theorem digitChar_ne_minus (k : Nat) (h : k < 10) : Nat.digitChar k ≠ '-' := by
  interval_cases k <;> decide

theorem foldl_toDigitsCore (fuel : Nat) :
    ∀ (n : Nat) (ds : List Char), n < fuel →
      List.foldl (fun acc c => 10 * acc + (c.toNat - 48)) 0 (Nat.toDigitsCore 10 fuel n ds)
        = List.foldl (fun acc c => 10 * acc + (c.toNat - 48)) n ds := by
  induction fuel with
  | zero => intro n ds h; omega
  | succ fuel ih =>
    intro n ds h
    simp only [Nat.toDigitsCore]
    have hd : (Nat.digitChar (n % 10)).toNat - 48 = n % 10 :=
      digitChar_val (n % 10) (Nat.mod_lt _ (by norm_num))
    split
    · rename_i h0
      have hn : n % 10 = n := by omega
      rw [hn] at hd
      simp only [List.foldl_cons, Nat.mul_zero, Nat.zero_add, hn, hd]
    · rename_i h0
      have hlt : n / 10 < fuel := by omega
      rw [ih (n / 10) _ hlt]
      simp only [List.foldl_cons, hd]
      have : 10 * (n / 10) + n % 10 = n := Nat.div_add_mod n 10
      rw [this]

theorem minus_not_mem_toDigitsCore (fuel : Nat) :
    ∀ (n : Nat) (ds : List Char), '-' ∉ ds → '-' ∉ Nat.toDigitsCore 10 fuel n ds := by
  induction fuel with
  | zero => intro n ds h; simpa [Nat.toDigitsCore] using h
  | succ fuel ih =>
    intro n ds h
    simp only [Nat.toDigitsCore]
    have hd : '-' ≠ Nat.digitChar (n % 10) :=
      fun hc => digitChar_ne_minus (n % 10) (Nat.mod_lt _ (by norm_num)) hc.symm
    have hcons : '-' ∉ Nat.digitChar (n % 10) :: ds := by
      simp only [List.mem_cons, not_or]
      exact ⟨hd, h⟩
    split
    · exact hcons
    · exact ih _ _ hcons

theorem toDigits_injective (a b : Nat) (h : Nat.toDigits 10 a = Nat.toDigits 10 b) : a = b := by
  have ha := foldl_toDigitsCore (a + 1) a [] (by omega)
  have hb := foldl_toDigitsCore (b + 1) b [] (by omega)
  simp only [List.foldl_nil] at ha hb
  unfold Nat.toDigits at h
  rw [h] at ha
  omega

theorem toString_int_data_injective (a b : Int) (h : (toString a).data = (toString b).data) :
    a = b := by
  cases a with
  | ofNat m =>
    cases b with
    | ofNat k =>
      have h' : Nat.toDigits 10 m = Nat.toDigits 10 k := h
      rw [toDigits_injective m k h']
    | negSucc k =>
      exfalso
      have h' : Nat.toDigits 10 m = '-' :: Nat.toDigits 10 (k + 1) := h
      have hmem : '-' ∈ Nat.toDigits 10 m := by rw [h']; exact List.mem_cons_self _ _
      exact minus_not_mem_toDigitsCore _ _ [] (by simp) hmem
  | negSucc m =>
    cases b with
    | ofNat k =>
      exfalso
      have h' : '-' :: Nat.toDigits 10 (m + 1) = Nat.toDigits 10 k := h
      have hmem : '-' ∈ Nat.toDigits 10 k := by rw [← h']; exact List.mem_cons_self _ _
      exact minus_not_mem_toDigitsCore _ _ [] (by simp) hmem
    | negSucc k =>
      have h' : '-' :: Nat.toDigits 10 (m + 1) = '-' :: Nat.toDigits 10 (k + 1) := h
      have := toDigits_injective _ _ (List.cons.inj h').2
      have hmk : m = k := by omega
      rw [hmk]

/-- The request identifier `cmd_<n>` determines the clock reading `n`. -/
theorem request_id_injective (a b : Int)
    (h : sprintf "cmd_%d" [FmtArg.d a] = sprintf "cmd_%d" [FmtArg.d b]) : a = b := by
  have hdata := congrArg String.data h
  simp [sprintf, sprintfAux] at hdata
  exact toString_int_data_injective a b hdata

theorem offerAll_room_ids (m : GoMap Nat ConnectionClient) (cmd : Command) (k : Nat)
    (c : ConnectionClient) (hreg : GoMap.get? m k = some c)
    (hroom : c.commandChan.buf.length < c.commandChan.cap) :
    GoMap.get? (offerAll m cmd).1 k
      = some { c with commandChan := { c.commandChan with buf := c.commandChan.buf ++ [cmd] } } := by
  rw [offerAll_get?, hreg]
  simp [offer_room c cmd hroom]

/-- C18, counterexample: a flatten-all submission and a flatten-account
submission made at the same clock reading 5 put two commands with the same
request identifier `cmd_5` in the queue of the registered agent. -/
theorem request_ids_collide_counterexample :
    ((sampleHub.commandHandler "flatten_all" 5).1.accountCommandHandler sampleLib
        "flatten_account" "Sim101" 5).1.connections.map
      (fun e => e.2.commandChan.buf.map (fun c => (c.Type_, c.ID)))
      = [[("flatten_all", "cmd_5"), ("flatten_account", "cmd_5")]] := by
  rfl

/-- C18, amended: two command submissions on the hub are given the request
identifiers `cmd_<n1>` and `cmd_<n2>` of their clock readings, and these are
distinct exactly when the clock readings differ. The two commands are read off
the queue of a registered connection that has room for both. -/
theorem request_ids_distinct_iff_clock_differs (lib : JsonLib) (cd : CloudDashboard)
    (k : Nat) (c : ConnectionClient) (cmdType1 cmdType2 body account : String) (n1 n2 : Int)
    (hreg : GoMap.get? cd.connections k = some c)
    (hroom : c.commandChan.buf.length + 2 ≤ c.commandChan.cap)
    (hbody : lib.decodeAccount body = Except.ok account) :
    (GoMap.get? ((cd.commandHandler cmdType1 n1).1.accountCommandHandler lib cmdType2 body
        n2).1.connections k).map (fun c' => c'.commandChan.buf.map (fun x => x.ID))
      = some (c.commandChan.buf.map (fun x => x.ID)
          ++ [sprintf "cmd_%d" [FmtArg.d n1], sprintf "cmd_%d" [FmtArg.d n2]])
    ∧ (sprintf "cmd_%d" [FmtArg.d n1] ≠ sprintf "cmd_%d" [FmtArg.d n2] ↔ n1 ≠ n2) := by
  constructor
  · have h1 := offerAll_room_ids cd.connections
      { Type_ := cmdType1, Payload := [], ID := sprintf "cmd_%d" [FmtArg.d n1] } k c hreg
      (by omega)
    have h2 := offerAll_room_ids _
      { Type_ := cmdType2, Payload := [("account", JSON.string account)],
        ID := sprintf "cmd_%d" [FmtArg.d n2] } k _ h1
      (by simp only [List.length_append, List.length_singleton]; omega)
    simp only [CloudDashboard.commandHandler, CloudDashboard.accountCommandHandler, hbody,
      CloudDashboard.sendCommandToConnections, h2]
    simp
  · constructor
    · intro hne heq
      exact hne (by rw [heq])
    · intro hne heq
      exact hne (request_id_injective n1 n2 heq)

/-- Witness of the amended C18 on the sample hub at clock readings 5 and 6. -/
theorem request_ids_distinct_iff_clock_differs_witness :
    (GoMap.get? sampleHub.connections 1 = some sampleClient
      ∧ sampleClient.commandChan.buf.length + 2 ≤ sampleClient.commandChan.cap
      ∧ sampleLib.decodeAccount "Sim101" = Except.ok "Sim101")
    ∧ (GoMap.get? ((sampleHub.commandHandler "flatten_all" 5).1.accountCommandHandler sampleLib
        "flatten_account" "Sim101" 6).1.connections 1).map
          (fun c' => c'.commandChan.buf.map (fun x => x.ID))
      = some (sampleClient.commandChan.buf.map (fun x => x.ID)
          ++ [sprintf "cmd_%d" [FmtArg.d 5], sprintf "cmd_%d" [FmtArg.d 6]])
    ∧ (sprintf "cmd_%d" [FmtArg.d 5] ≠ sprintf "cmd_%d" [FmtArg.d 6] ↔ (5 : Int) ≠ 6) :=
  ⟨⟨rfl, by decide, rfl⟩,
   request_ids_distinct_iff_clock_differs sampleLib sampleHub 1 sampleClient
     "flatten_all" "flatten_account" "Sim101" "Sim101" 5 6 rfl (by decide) rfl⟩

/-! ### C13 and C19: the execution worker of the agent -/

theorem sendToCloud_commandChan (cs : ConnectionServer) (data : String)
    (writeErr : Option String) :
    (cs.sendToCloud data writeErr).1.commandChan = cs.commandChan := by
  unfold ConnectionServer.sendToCloud
  cases cs.wsConn with
  | none => rfl
  | some conn =>
    cases hc : cs.isConnected with
    | false => simp
    | true =>
      cases writeErr with
      | none => simp
      | some err =>
        simp only [Bool.not_true, Bool.false_eq_true, if_false]
        split <;> rfl

/-- When the execution of the oldest queued command returns, the worker takes
the command off the queue and hands exactly one acknowledgment to
`sendToCloud`: the serialisation of the map with `type = command_ack`, the id
of the command, and `success = true` or the text of the returned error. -/
theorem processCommands_acknowledges (lib : JsonLib) (cs : ConnectionServer) (inp : WorkerInput)
    (cmd : Command) (rest : List Command) (err : Option String) (evs : List Event)
    (hqueue : cs.commandChan.buf = cmd :: rest)
    (hexec : ({ cs with commandChan := { cs.commandChan with buf := rest } }).executeCommand
      cmd inp.os = (Outcome.ret err, evs)) :
    ∃ cs' trace, cs.processCommands lib inp = some (Outcome.ret cs', trace)
      ∧ cs'.commandChan.buf = rest
      ∧ (∀ conn, cs.wsConn = some conn → cs.isConnected = true →
          wsWrites trace = [(conn, bytesOrNil (lib.marshalValue (JSON.object (ackOf cmd err))))])
      ∧ GoMap.get? (ackOf cmd err) "id" = some (JSON.string cmd.ID)
      ∧ (err = none → GoMap.get? (ackOf cmd err) "success" = some (JSON.bool true))
      ∧ (∀ e, err = some e → GoMap.get? (ackOf cmd err) "error" = some (JSON.string e)) := by
  have hw : wsWrites evs = [] := by
    have h2 := congrArg Prod.snd hexec
    simp only at h2
    rw [← h2]
    unfold ConnectionServer.executeCommand ConnectionServer.writeOIF
    repeat' split
    all_goals simp [wsWrites]
  cases err with
  | none =>
    have heq : cs.processCommands lib inp
        = some (Outcome.ret
            (({ cs with commandChan := { cs.commandChan with buf := rest } }).sendToCloud
              (bytesOrNil (lib.marshalValue (JSON.object (ackOf cmd none)))) inp.writeErr).1,
            evs ++ []
              ++ (({ cs with commandChan := { cs.commandChan with buf := rest } }).sendToCloud
                (bytesOrNil (lib.marshalValue (JSON.object (ackOf cmd none)))) inp.writeErr).2) := by
      simp only [ConnectionServer.processCommands, Chan.recv?, hqueue, hexec]
    refine ⟨_, _, heq, ?_, ?_, ?_, ?_, ?_⟩
    · simp only [sendToCloud_commandChan]
    · intro conn hconn hup
      cases hwe : inp.writeErr <;>
        simp [wsWrites_append, hw, ConnectionServer.sendToCloud, hconn, hup, wsWrites]
    · simp [ackOf, GoMap.get?]
    · intro _
      simp [ackOf, GoMap.get?]
    · intro e h
      cases h
  | some x =>
    have heq : cs.processCommands lib inp
        = some (Outcome.ret
            (({ cs with commandChan := { cs.commandChan with buf := rest } }).sendToCloud
              (bytesOrNil (lib.marshalValue (JSON.object (ackOf cmd (some x))))) inp.writeErr).1,
            evs ++ [Event.log "Command execution failed: %v" [FmtArg.v x]]
              ++ (({ cs with commandChan := { cs.commandChan with buf := rest } }).sendToCloud
                (bytesOrNil (lib.marshalValue (JSON.object (ackOf cmd (some x)))))
                inp.writeErr).2) := by
      simp only [ConnectionServer.processCommands, Chan.recv?, hqueue, hexec]
    refine ⟨_, _, heq, ?_, ?_, ?_, ?_, ?_⟩
    · simp only [sendToCloud_commandChan]
    · intro conn hconn hup
      cases hwe : inp.writeErr <;>
        simp [wsWrites_append, hw, ConnectionServer.sendToCloud, hconn, hup, wsWrites]
    · simp [ackOf, GoMap.get?]
    · intro h
      cases h
    · intro e h
      cases h
      simp [ackOf, GoMap.get?]

/-- A recognised kind that needs an account panics when the payload does not
bind `account` to a string; nothing is written before the panic. -/
theorem executeCommand_panics_without_account (cs : ConnectionServer) (cmd : Command)
    (os : WriteInput)
    (hkind : cmd.Type_ = "flatten_account" ∨ cmd.Type_ = "close_position"
      ∨ cmd.Type_ = "cancel_order")
    (hacc : ∀ a, GoMap.get? cmd.Payload "account" ≠ some (JSON.string a)) :
    cs.executeCommand cmd os
      = (Outcome.panic "interface conversion: interface {} is not string", []) := by
  have hassert : assertString (GoMap.get? cmd.Payload "account")
      = Outcome.panic "interface conversion: interface {} is not string" := by
    cases hg : GoMap.get? cmd.Payload "account" with
    | none => rfl
    | some v =>
      cases v with
      | string a => exact absurd hg (hacc a)
      | _ => rfl
  have h1 : ¬ ("flatten_account" = "flatten_all") := by decide
  have h2 : ¬ ("close_position" = "flatten_all") := by decide
  have h3 : ¬ ("close_position" = "flatten_account") := by decide
  have h4 : ¬ ("cancel_order" = "flatten_all") := by decide
  have h5 : ¬ ("cancel_order" = "flatten_account") := by decide
  have h6 : ¬ ("cancel_order" = "close_position") := by decide
  rcases hkind with hk | hk | hk <;>
    simp [ConnectionServer.executeCommand, hk, hassert, h1, h2, h3, h4, h5, h6]

/-- C13, at the failing input: the worker of a connected agent takes the
command `flatten_account` with an empty payload and id `cmd_9` from its queue;
the execution panics, the iteration ends without any message written to the
hub, so no acknowledgment with id `cmd_9` is produced. -/
theorem worker_produces_no_ack_on_panic :
    ∃ m trace,
      ({ sampleConnectedServer with
          commandChan :=
            { cap := 100
              buf := [{ Type_ := "flatten_account", Payload := [], ID := "cmd_9" }] } }
        ).processCommands sampleLib { os := sampleWrite, writeErr := none }
        = some (Outcome.panic m, trace)
      ∧ wsWrites trace = [] :=
  ⟨_, _, rfl, rfl⟩

/-- C19, at the failing inputs: executing a `flatten_account` command whose
payload is missing, a `close_position` command that lacks the field
`instrument`, or a `cancel_order` command whose `account` is a number, panics;
and a frame that decodes to the first of these, read by the inbound reader and
taken by the worker, ends the worker with that panic. -/
theorem execution_panics_on_malformed_payload :
    (∃ m, sampleServer.executeCommand
        { Type_ := "flatten_account", Payload := [], ID := "cmd_9" } sampleWrite
        = (Outcome.panic m, []))
    ∧ (∃ m, sampleServer.executeCommand
        { Type_ := "close_position", Payload := [("account", JSON.string "Sim101")],
          ID := "cmd_9" } sampleWrite
        = (Outcome.panic m, []))
    ∧ (∃ m, sampleServer.executeCommand
        { Type_ := "cancel_order",
          Payload := [("account", JSON.number 7), ("orderId", JSON.string "order-1")],
          ID := "cmd_9" } sampleWrite
        = (Outcome.panic m, []))
    ∧ (∃ m, ((sampleConnectedServer.readFromCloud sampleLib
          (ReadResult.message "flattenNoAccount")).1.processCommands sampleLib
          { os := sampleWrite, writeErr := none })
        = some (Outcome.panic m, [])) :=
  ⟨⟨_, rfl⟩, ⟨_, rfl⟩, ⟨_, rfl⟩, ⟨_, rfl⟩⟩

/-! ### C14: frames of type `snapshot` read by the agent -/

theorem scheduleReconnect_latest (cs : ConnectionServer) :
    cs.scheduleReconnect.1.latest = cs.latest := by
  unfold ConnectionServer.scheduleReconnect
  dsimp only
  split <;> rfl

/-- The inbound reader never changes the snapshot table of the agent. -/
theorem readFromCloud_latest (lib : JsonLib) (cs : ConnectionServer) (read : ReadResult) :
    (cs.readFromCloud lib read).1.latest = cs.latest := by
  unfold ConnectionServer.readFromCloud
  cases read with
  | failed err => simp [scheduleReconnect_latest]
  | message message =>
    cases hu : lib.unmarshalCommand message with
    | error e => simp [hu]
    | ok cmd =>
      cases hs : cs.commandChan.trySend cmd with
      | none => simp [hu, hs]
      | some ch => simp [hu, hs]

/-- Every frame that decodes is offered to the execution queue, whatever its
type. -/
theorem readFromCloud_queues (lib : JsonLib) (cs : ConnectionServer) (message : String)
    (cmd : Command) (hdec : lib.unmarshalCommand message = Except.ok cmd)
    (hroom : cs.commandChan.buf.length < cs.commandChan.cap) :
    (cs.readFromCloud lib (ReadResult.message message)).1.commandChan.buf
      = cs.commandChan.buf ++ [cmd] := by
  simp [ConnectionServer.readFromCloud, hdec, Chan.trySend, hroom]

/-- C14, at the failing input: the agent reads the frame of type `snapshot`
that the hub sends on a new connection. The snapshot table of the agent is
unchanged (nothing is merged), the frame is queued as a command of kind
`snapshot` with an empty id, and the worker answers it with the error
acknowledgment `unknown command type: snapshot`. -/
theorem snapshot_frame_is_queued_as_command :
    (sampleConnectedServer.readFromCloud sampleLib (ReadResult.message "hubSnapshot")).1.latest
        = sampleConnectedServer.latest
    ∧ (sampleConnectedServer.readFromCloud sampleLib
        (ReadResult.message "hubSnapshot")).1.commandChan.buf.map (fun c => (c.Type_, c.ID))
        = [("snapshot", "")]
    ∧ ((sampleConnectedServer.readFromCloud sampleLib
          (ReadResult.message "hubSnapshot")).1.processCommands sampleLib
          { os := sampleWrite, writeErr := none }).map (fun r => wsWrites r.2)
        = some [(3, "type=command_ack,id=,error=unknown command type: snapshot")] := by
  refine ⟨rfl, rfl, rfl⟩

/-! ### C16: keys and accounts of the hub table -/

/-- C16, at the failing input: the hub processes a snapshot message whose
mapping binds the key `ghost` to a snapshot with an empty account identifier.
The entry is stored: afterwards the table binds `ghost` to a snapshot whose
account is empty and differs from the key. -/
theorem hub_stores_entry_without_account :
    GoMap.get? (sampleHub.handleMessage sampleLib "update3").1.latest "ghost"
        = some { sampleSnapshot with Account := "" }
    ∧ ({ sampleSnapshot with Account := "" } : Snapshot).Account = ""
    ∧ ({ sampleSnapshot with Account := "" } : Snapshot).Account ≠ "ghost" := by
  refine ⟨rfl, rfl, by decide⟩

/-- The merge loop stores a decoded entry under its map key whatever account
identifier the snapshot carries. -/
theorem mergeSnapshots_ignores_account (lib : JsonLib) (latest : GoMap String Snapshot)
    (key : String) (snapData : JSON) (snap : Snapshot)
    (hdec : decodeEntry lib snapData = some snap) :
    GoMap.get? (mergeSnapshots lib latest [(key, snapData)]) key = some snap := by
  have h := mergeSnapshots_get? lib [(key, snapData)] latest (by simp)
    (by
      intro e he
      simp only [List.mem_singleton] at he
      subst he
      exact ⟨snap, hdec⟩) key
  simpa [GoMap.get?, hdec] using h

/-! ### C21: a successful dial -/

/-- C21: when the dial succeeds, the agent afterwards has attempt count 0, the
connected flag set and the new connection as its only connection; a connection
held before was closed before the dial was issued; and the messages written
are exactly one snapshot message with the serialisation of the whole table, on
the new connection, when the table is non-empty, and none when it is empty.
The table itself is unchanged. -/
theorem dial_success_resets_and_syncs (lib : JsonLib) (cs : ConnectionServer) (conn : Nat) :
    (cs.connectToCloud lib (DialResult.connected conn)).1.connectAttempts = 0
      ∧ (cs.connectToCloud lib (DialResult.connected conn)).1.isConnected = true
      ∧ (cs.connectToCloud lib (DialResult.connected conn)).1.wsConn = some conn
      ∧ (∀ old, cs.wsConn = some old →
          Event.wsClose old ∈
            (cs.connectToCloud lib (DialResult.connected conn)).2.takeWhile
              (fun e => decide (e ≠ Event.dial cs.cloudURL (bearer ++ cs.apiSecretToken))))
      ∧ wsWrites (cs.connectToCloud lib (DialResult.connected conn)).2
          = (if cs.latest.len > 0 then
              [(conn, bytesOrNil (lib.marshalSnapshotMap cs.latest))] else [])
      ∧ (cs.connectToCloud lib (DialResult.connected conn)).1.latest = cs.latest := by
  unfold ConnectionServer.connectToCloud
  cases hw : cs.wsConn with
  | none =>
    by_cases ha : cs.connectAttempts > 0 <;> by_cases hl : cs.latest.len > 0 <;>
      simp [ha, hl, wsWrites]
  | some old =>
    by_cases ha : cs.connectAttempts > 0 <;> by_cases hl : cs.latest.len > 0 <;>
      simp [ha, hl, wsWrites, List.takeWhile]

/-- Witness of C21: the sample agent, connected over 3 and holding one
snapshot, reconnects over connection 4. -/
theorem dial_success_resets_and_syncs_witness :
    ({ sampleConnectedServer with latest := [("Sim101", sampleSnapshot)] }.connectToCloud
        sampleLib (DialResult.connected 4)).1.wsConn = some 4
    ∧ wsWrites ({ sampleConnectedServer with latest := [("Sim101", sampleSnapshot)] }.connectToCloud
        sampleLib (DialResult.connected 4)).2 = [(4, "1")]
    ∧ Event.wsClose 3 ∈
        ({ sampleConnectedServer with latest := [("Sim101", sampleSnapshot)] }.connectToCloud
          sampleLib (DialResult.connected 4)).2.takeWhile
            (fun e => decide (e ≠ Event.dial sampleConnectedServer.cloudURL
              (bearer ++ sampleConnectedServer.apiSecretToken))) :=
  ⟨(dial_success_resets_and_syncs sampleLib
      { sampleConnectedServer with latest := [("Sim101", sampleSnapshot)] } 4).2.2.1,
   (dial_success_resets_and_syncs sampleLib
      { sampleConnectedServer with latest := [("Sim101", sampleSnapshot)] } 4).2.2.2.2.1,
   (dial_success_resets_and_syncs sampleLib
      { sampleConnectedServer with latest := [("Sim101", sampleSnapshot)] } 4).2.2.2.1 3 rfl⟩

/-! ### C22: the attempt count stays below the ceiling -/

theorem wrapInt64_small (x : Int) (h0 : 0 ≤ x) (h1 : x ≤ 11) : wrapInt64 x = x := by
  unfold wrapInt64
  omega

theorem scheduleReconnect_attempts (cs : ConnectionServer) (c : Int) (hc0 : 0 ≤ c)
    (hc10 : c ≤ 10) (hatt : cs.connectAttempts = c) (hmax : cs.maxReconnects = 10) :
    cs.scheduleReconnect.1.connectAttempts = min (c + 1) 10
      ∧ cs.scheduleReconnect.1.maxReconnects = 10
      ∧ cs.scheduleReconnect.1.reconnectChan = cs.reconnectChan
      ∧ cs.scheduleReconnect.2
          = (if c + 1 > 10 then
              [Event.log "Max reconnection attempts reached, waiting 5 minutes" [],
               Event.sleep (5 * Minute), Event.go Goroutine.reconnectGuard]
            else [Event.go Goroutine.reconnectGuard]) := by
  unfold ConnectionServer.scheduleReconnect
  simp only [hatt, hmax, wrapInt64_small (c + 1) (by omega) (by omega)]
  by_cases h : c + 1 > 10
  · have hmin : min (c + 1) 10 = 10 := by omega
    simp [h, hmin, hmax]
  · have hmin : min (c + 1) 10 = c + 1 := by omega
    simp [h, hmin, hmax]

theorem scheduleReconnect_inRange (cs : ConnectionServer) (h : cs.attemptsInRange) :
    cs.scheduleReconnect.1.attemptsInRange := by
  obtain ⟨h0, h10, hmax⟩ := h
  obtain ⟨ha, hm, -, -⟩ := scheduleReconnect_attempts cs cs.connectAttempts h0 h10 rfl hmax
  refine ⟨?_, ?_, hm⟩
  · rw [ha]; omega
  · rw [ha]; omega

theorem sendToCloud_attempts (cs : ConnectionServer) (data : String)
    (writeErr : Option String) :
    (cs.sendToCloud data writeErr).1.connectAttempts = cs.connectAttempts
      ∧ (cs.sendToCloud data writeErr).1.maxReconnects = cs.maxReconnects := by
  unfold ConnectionServer.sendToCloud
  cases cs.wsConn with
  | none => exact ⟨rfl, rfl⟩
  | some conn =>
    cases hc : cs.isConnected with
    | false => simp
    | true =>
      cases writeErr with
      | none => simp
      | some err =>
        simp only [Bool.not_true, Bool.false_eq_true, if_false]
        split <;> exact ⟨rfl, rfl⟩

theorem sendToCloud_inRange (cs : ConnectionServer) (data : String) (writeErr : Option String)
    (h : cs.attemptsInRange) : (cs.sendToCloud data writeErr).1.attemptsInRange := by
  obtain ⟨ha, hm⟩ := sendToCloud_attempts cs data writeErr
  unfold ConnectionServer.attemptsInRange at h ⊢
  rw [ha, hm]
  exact h

theorem webhookHandler_inRange (lib : JsonLib) (cs : ConnectionServer) (inp : WebhookInput)
    (h : cs.attemptsInRange) : (cs.webhookHandler lib inp).1.attemptsInRange := by
  unfold ConnectionServer.webhookHandler
  cases hb : inp.body with
  | error e => exact h
  | ok body =>
    cases hu : lib.unmarshalSnapshot body with
    | error e => simpa [hu] using h
    | ok s =>
      by_cases hacc : s.Account = ""
      · simpa [hu, hacc] using h
      · cases hm : lib.marshalSnapshotMap (GoMap.set cs.latest s.Account s) with
        | error e => simpa [hu, hacc, hm] using h
        | ok data =>
          simp only [hu, hacc, hm, if_false]
          exact sendToCloud_inRange _ _ _ h

theorem reconnectGuard_inRange (cs : ConnectionServer) (h : cs.attemptsInRange) :
    cs.reconnectGuard.1.attemptsInRange := by
  unfold ConnectionServer.reconnectGuard
  split <;> exact h

theorem connectToCloud_inRange (lib : JsonLib) (cs : ConnectionServer) (dial : DialResult)
    (h : cs.attemptsInRange) : (cs.connectToCloud lib dial).1.attemptsInRange := by
  have hclosed : (match cs.wsConn with
      | some c => (({ cs with wsConn := none, isConnected := false } : ConnectionServer),
          [Event.wsClose c])
      | none => (cs, [])).1.attemptsInRange := by
    cases cs.wsConn with
    | none => exact h
    | some c => exact h
  unfold ConnectionServer.connectToCloud
  cases dial with
  | invalidURL err => exact scheduleReconnect_inRange _ hclosed
  | failed err => exact scheduleReconnect_inRange _ hclosed
  | connected conn =>
    obtain ⟨-, -, hmax⟩ := hclosed
    refine ⟨le_refl _, ?_, hmax⟩
    show (0 : Int) ≤ 10
    decide

theorem readFromCloud_inRange (lib : JsonLib) (cs : ConnectionServer) (read : ReadResult)
    (h : cs.attemptsInRange) : (cs.readFromCloud lib read).1.attemptsInRange := by
  unfold ConnectionServer.readFromCloud
  cases read with
  | failed err => exact scheduleReconnect_inRange _ h
  | message message =>
    cases hu : lib.unmarshalCommand message with
    | error e => simpa [hu] using h
    | ok cmd =>
      cases hs : cs.commandChan.trySend cmd with
      | none => simpa [hu, hs] using h
      | some ch => simpa [hu, hs] using h

theorem step_inRange (lib : JsonLib) (cs : ConnectionServer) (a : AgentAction)
    (h : cs.attemptsInRange) : (cs.step lib a).attemptsInRange := by
  cases a with
  | webhook inp => exact webhookHandler_inRange lib cs inp h
  | connect dial =>
    simp only [ConnectionServer.step, ConnectionServer.manageWebSocket]
    cases hr : cs.reconnectChan.recv? with
    | none => exact h
    | some p => exact connectToCloud_inRange lib _ dial h
  | guard => exact reconnectGuard_inRange cs h
  | read r => exact readFromCloud_inRange lib cs r h
  | send data writeErr => exact sendToCloud_inRange cs data writeErr h
  | work inp =>
    simp only [ConnectionServer.step, ConnectionServer.processCommands]
    cases hr : cs.commandChan.recv? with
    | none => exact h
    | some p =>
      obtain ⟨cmd, ch⟩ := p
      simp only
      cases hx : (({ cs with commandChan := ch } : ConnectionServer).executeCommand cmd inp.os).1 with
      | panic m => exact h
      | ret err => exact sendToCloud_inRange _ _ _ h

theorem run_inRange (lib : JsonLib) (actions : List AgentAction) :
    ∀ cs : ConnectionServer, cs.attemptsInRange →
      (ConnectionServer.run lib cs actions).attemptsInRange := by
  induction actions with
  | nil => intro cs h; exact h
  | cons a rest ih => intro cs h; exact ih _ (step_inRange lib cs a h)

/-- C22: scheduling a reconnect from attempt count `c` with `0 ≤ c ≤ 10`
(ceiling 10) leaves the attempt count at `min (c + 1) 10`, pauses five minutes
if and only if `c + 1 > 10`, and in both cases ends by starting the guard
goroutine, which sleeps one second and leaves a trigger pending on the
reconnect channel. Consequently the attempt count is between 0 and 10 after
every sequence of actions of the agent. -/
theorem scheduleReconnect_keeps_attempts_in_range (lib : JsonLib) (cs : ConnectionServer)
    (c : Int) (hc0 : 0 ≤ c) (hc10 : c ≤ 10) (hatt : cs.connectAttempts = c)
    (hmax : cs.maxReconnects = 10) (hcap : cs.reconnectChan.cap = 1) :
    cs.scheduleReconnect.1.connectAttempts = min (c + 1) 10
      ∧ (Event.sleep (5 * Minute) ∈ cs.scheduleReconnect.2 ↔ c + 1 > 10)
      ∧ cs.scheduleReconnect.2.getLast? = some (Event.go Goroutine.reconnectGuard)
      ∧ cs.scheduleReconnect.1.reconnectGuard.2 = [Event.sleep (1 * Second)]
      ∧ cs.scheduleReconnect.1.reconnectGuard.1.reconnectChan.buf ≠ []
      ∧ (∀ actions : List AgentAction,
          0 ≤ (ConnectionServer.run lib cs actions).connectAttempts
            ∧ (ConnectionServer.run lib cs actions).connectAttempts ≤ 10) := by
  obtain ⟨ha, hm, hch, hev⟩ := scheduleReconnect_attempts cs c hc0 hc10 hatt hmax
  refine ⟨ha, ?_, ?_, ?_, ?_, ?_⟩
  · rw [hev]
    by_cases h : c + 1 > 10 <;> simp [h]
  · rw [hev]
    by_cases h : c + 1 > 10 <;> simp [h]
  · unfold ConnectionServer.reconnectGuard
    split <;> rfl
  · unfold ConnectionServer.reconnectGuard
    rw [hch]
    cases hb : cs.reconnectChan.buf with
    | nil => simp [Chan.trySend, hb, hcap]
    | cons x xs => simp [Chan.trySend, hb, hcap, hch]
  · intro actions
    have h := run_inRange lib actions cs ⟨by rw [hatt]; exact hc0, by rw [hatt]; exact hc10, hmax⟩
    exact ⟨h.1, h.2.1⟩

/-- Witness of C22: the sample agent at attempt count 10. -/
theorem scheduleReconnect_keeps_attempts_in_range_witness :
    ((0 : Int) ≤ 10 ∧ (10 : Int) ≤ 10
      ∧ ({ sampleServer with connectAttempts := 10 } : ConnectionServer).connectAttempts = 10
      ∧ ({ sampleServer with connectAttempts := 10 } : ConnectionServer).maxReconnects = 10
      ∧ ({ sampleServer with connectAttempts := 10 } : ConnectionServer).reconnectChan.cap = 1)
    ∧ ({ sampleServer with connectAttempts := 10 } : ConnectionServer).scheduleReconnect.1.connectAttempts
        = min ((10 : Int) + 1) 10
    ∧ (Event.sleep (5 * Minute)
        ∈ ({ sampleServer with connectAttempts := 10 } : ConnectionServer).scheduleReconnect.2
        ↔ (10 : Int) + 1 > 10) :=
  ⟨⟨by decide, by decide, rfl, rfl, rfl⟩,
   (scheduleReconnect_keeps_attempts_in_range sampleLib
      { sampleServer with connectAttempts := 10 } 10 (by decide) (by decide) rfl rfl rfl).1,
   (scheduleReconnect_keeps_attempts_in_range sampleLib
      { sampleServer with connectAttempts := 10 } 10 (by decide) (by decide) rfl rfl rfl).2.1⟩

/-! ### C23: leaving the connected state on an error -/

theorem scheduleReconnect_isConnected (cs : ConnectionServer) :
    cs.scheduleReconnect.1.isConnected = cs.isConnected := by
  unfold ConnectionServer.scheduleReconnect
  dsimp only
  split <;> rfl

/-- A read failure of the inbound reader clears the connected flag and counts
the failure: from attempt count `c` the count becomes `min (c + 1) 10`. -/
theorem readFromCloud_failure_counts (lib : JsonLib) (cs : ConnectionServer) (err : String)
    (c : Int) (hc0 : 0 ≤ c) (hc10 : c ≤ 10) (hatt : cs.connectAttempts = c)
    (hmax : cs.maxReconnects = 10) :
    (cs.readFromCloud lib (ReadResult.failed err)).1.isConnected = false
      ∧ (cs.readFromCloud lib (ReadResult.failed err)).1.connectAttempts = min (c + 1) 10 := by
  unfold ConnectionServer.readFromCloud
  refine ⟨?_, ?_⟩
  · simp only [scheduleReconnect_isConnected]
  · exact (scheduleReconnect_attempts { cs with isConnected := false } c hc0 hc10 hatt hmax).1

/-- A write failure in `sendToCloud` clears the connected flag and leaves a
trigger on the reconnect channel, and the attempt count is what it was. -/
theorem sendToCloud_failure_does_not_count (cs : ConnectionServer) (data err : String)
    (conn : Nat) (hw : cs.wsConn = some conn) (hc : cs.isConnected = true)
    (hroom : 0 < cs.reconnectChan.cap) :
    (cs.sendToCloud data (some err)).1.isConnected = false
      ∧ (cs.sendToCloud data (some err)).1.reconnectChan.buf ≠ []
      ∧ (cs.sendToCloud data (some err)).1.connectAttempts = cs.connectAttempts := by
  refine ⟨?_, ?_, (sendToCloud_attempts cs data (some err)).1⟩
  · unfold ConnectionServer.sendToCloud
    simp only [hw, hc, Bool.not_true, Bool.false_eq_true, if_false]
    split <;> rfl
  · unfold ConnectionServer.sendToCloud
    simp only [hw, hc, Bool.not_true, Bool.false_eq_true, if_false]
    cases hb : cs.reconnectChan.buf with
    | nil => simp [Chan.trySend, hb, hroom]
    | cons x xs =>
      by_cases hcap : xs.length + 1 < cs.reconnectChan.cap
      · simp [Chan.trySend, hb, hcap]
      · simp [Chan.trySend, hb, hcap]

/-- C23, at the failing input: the connected sample agent (attempt count 0)
meets a write failure while it sends data, while it sends the snapshot of a
webhook, and while it sends the acknowledgment of a command. Each time the
agent leaves the connected state with a trigger pending on the reconnect
channel, and the attempt count is still 0, so the connection attempt that
follows sleeps no backoff. A read failure from the same state leaves the
attempt count at 1. -/
theorem write_failure_leaves_attempt_count :
    (sampleConnectedServer.sendToCloud "1" (some "broken pipe")).1.isConnected = false
    ∧ (sampleConnectedServer.sendToCloud "1" (some "broken pipe")).1.reconnectChan.buf = [()]
    ∧ (sampleConnectedServer.sendToCloud "1" (some "broken pipe")).1.connectAttempts = 0
    ∧ (sampleConnectedServer.webhookHandler sampleLib
        { body := Except.ok "first", writeErr := some "broken pipe" }).1.isConnected = false
    ∧ (sampleConnectedServer.webhookHandler sampleLib
        { body := Except.ok "first", writeErr := some "broken pipe" }).1.connectAttempts = 0
    ∧ (({ sampleConnectedServer with
            commandChan := { cap := 100, buf := [sampleCommand] } } : ConnectionServer).processCommands
          sampleLib { os := sampleWrite, writeErr := some "broken pipe" }).map
        (fun r => match r.1 with
          | Outcome.ret s => some (s.isConnected, s.connectAttempts)
          | Outcome.panic _ => none)
        = some (some (false, 0))
    ∧ ((sampleConnectedServer.sendToCloud "1" (some "broken pipe")).1.manageWebSocket sampleLib
          (DialResult.failed "connection refused")).map (fun r => sleptBeforeDial r.2) = some 0
    ∧ (sampleConnectedServer.readFromCloud sampleLib (ReadResult.failed "EOF")).1.isConnected
        = false
    ∧ (sampleConnectedServer.readFromCloud sampleLib (ReadResult.failed "EOF")).1.connectAttempts
        = 1 := by
  refine ⟨rfl, rfl, rfl, rfl, rfl, rfl, rfl, rfl, rfl⟩

/-! ### C24: a write failure of the sender of the hub -/

theorem keys_set_of_get? {κ ν : Type} [DecidableEq κ] (m : GoMap κ ν) (k : κ) (v0 v : ν)
    (h : GoMap.get? m k = some v0) :
    (GoMap.set m k v).map Prod.fst = m.map Prod.fst := by
  induction m with
  | nil => simp [GoMap.get?] at h
  | cons e m ih =>
    obtain ⟨k', v'⟩ := e
    by_cases hk : k' = k
    · simp [GoMap.set, hk]
    · simp only [GoMap.get?, hk, if_false] at h
      simp [GoMap.set, hk, ih h]

/-- An iteration of the sender never changes which connections are registered,
whether the write fails or not, and touches no other connection. -/
theorem sendCommands_keeps_registry (lib : JsonLib) (cd : CloudDashboard) (conn : Nat)
    (writeErr : Option String) (r : CloudDashboard × List Event)
    (h : cd.sendCommands lib conn writeErr = some r) :
    r.1.connections.map Prod.fst = cd.connections.map Prod.fst
      ∧ (∀ k, k ≠ conn → GoMap.get? r.1.connections k = GoMap.get? cd.connections k)
      ∧ (∀ e ∈ r.2, e ≠ Event.wsClose conn) := by
  unfold CloudDashboard.sendCommands at h
  cases hg : GoMap.get? cd.connections conn with
  | none => simp [hg] at h
  | some client =>
    cases hr : client.commandChan.recv? with
    | none => simp [hg, hr] at h
    | some p =>
      obtain ⟨cmd, ch⟩ := p
      cases writeErr with
      | none =>
        simp only [hg, hr, Option.some.injEq] at h
        subst h
        refine ⟨keys_set_of_get? _ _ client _ hg, ?_, ?_⟩
        · intro k hk
          exact get?_set_other _ _ _ _ (fun h => hk h.symm)
        · intro e he
          simp only [List.mem_singleton] at he
          subst he
          simp
      | some err =>
        simp only [hg, hr, Option.some.injEq] at h
        subst h
        refine ⟨keys_set_of_get? _ _ client _ hg, ?_, ?_⟩
        · intro k hk
          exact get?_set_other _ _ _ _ (fun h => hk h.symm)
        · intro e he
          simp only [List.mem_cons, List.mem_singleton, List.not_mem_nil, or_false] at he
          rcases he with he | he <;> subst he <;> simp

/-- A read failure of the reader of the hub removes the client from the
registry and closes its connection. -/
theorem handleConnection_failure_unregisters (lib : JsonLib) (cd : CloudDashboard)
    (client : ConnectionClient) (err : String) (unexpected : Bool) :
    GoMap.get? (cd.handleConnection lib client (HubRead.failed err unexpected)).1.connections
        client.conn = none
      ∧ Event.wsClose client.conn
          ∈ (cd.handleConnection lib client (HubRead.failed err unexpected)).2 := by
  unfold CloudDashboard.handleConnection
  refine ⟨get?_delete_self _ _, ?_⟩
  simp

/-- C24, at the failing input: on a hub with connections 1 and 2, the sender of
connection 1 takes the queued command and its write fails. The sender logs the
failure and returns: connection 1 is still registered and not closed, and the
next submission is still queued for it. The entry of connection 2 is
unchanged. A read failure on connection 1 does remove it from the registry. -/
theorem sender_write_failure_keeps_connection :
    (sampleBusyHub.sendCommands sampleLib 1 (some "broken pipe")).map
        (fun r => r.1.connections.map Prod.fst) = some [1, 2]
    ∧ (sampleBusyHub.sendCommands sampleLib 1 (some "broken pipe")).map (fun r => r.2)
        = some [Event.wsWrite 1 "close_position#cmd_1700000000000000000",
                Event.log "Failed to send command to connection server: %v"
                  [FmtArg.v "broken pipe"]]
    ∧ (sampleBusyHub.sendCommands sampleLib 1 (some "broken pipe")).map
        (fun r => ((r.1.sendCommandToConnections
            { Type_ := "flatten_all", Payload := [], ID := "cmd_2" }).1.connections.map
              (fun e => (e.1, e.2.commandChan.buf.map (fun c => c.ID)))))
        = some [(1, ["cmd_2"]), (2, ["cmd_2"])]
    ∧ (sampleBusyHub.sendCommands sampleLib 1 (some "broken pipe")).map
        (fun r => (GoMap.get? r.1.connections 2).map
          (fun c => (c.conn, c.id, c.commandChan.cap, c.commandChan.buf.length)))
        = some (some (2, "conn_1700000000000000002", 10, 0))
    ∧ (sampleBusyHub.handleConnection sampleLib
          { sampleClient with commandChan := { cap := 10, buf := [sampleCommand] } }
          (HubRead.failed "EOF" true)).1.connections.map Prod.fst = [2] := by
  refine ⟨rfl, rfl, rfl, rfl, rfl⟩

/-! ### C25: broadcasting on the hub -/

theorem offerBytes_eq_map (m : GoMap Nat (Chan String)) (b : String) :
    offerBytes m b
      = m.map (fun e =>
          (e.1, if e.2.buf.length < e.2.cap then { e.2 with buf := e.2.buf ++ [b] } else e.2)) := by
  induction m with
  | nil => rfl
  | cons e m ih =>
    obtain ⟨k, ch⟩ := e
    by_cases h : ch.buf.length < ch.cap
    · simp [offerBytes, Chan.trySend, h, ih]
    · simp [offerBytes, Chan.trySend, h, ih]

/-- C25: on a hub whose subscriber queues have capacity 10, as `eventsHandler`
creates them, a broadcast appends the update to every queue that holds fewer
than 10 entries and leaves every full queue as it is, each subscriber being
treated on its own; the registered subscribers are the same before and after,
and nothing else in the hub changes. -/
theorem broadcast_skips_only_full_queues (lib : JsonLib) (cd : CloudDashboard) (b : String)
    (hcap : ∀ e ∈ cd.webClients, e.2.cap = 10) :
    (cd.broadcast b).1.webClients
        = cd.webClients.map (fun e =>
            (e.1, if e.2.buf.length < 10 then { e.2 with buf := e.2.buf ++ [b] } else e.2))
      ∧ (cd.broadcast b).1.webClients.map Prod.fst = cd.webClients.map Prod.fst
      ∧ (cd.broadcast b).1.latest = cd.latest
      ∧ (cd.broadcast b).1.sessions = cd.sessions
      ∧ (∀ ch, GoMap.get? (cd.eventsHandler lib ch).1.webClients ch = some (Chan.make 10)) := by
  have hmap : (cd.broadcast b).1.webClients
      = cd.webClients.map (fun e =>
          (e.1, if e.2.buf.length < 10 then { e.2 with buf := e.2.buf ++ [b] } else e.2)) := by
    show offerBytes cd.webClients b = _
    rw [offerBytes_eq_map]
    apply List.map_congr_left
    intro e he
    rw [hcap e he]
  refine ⟨hmap, ?_, rfl, rfl, ?_⟩
  · rw [hmap, List.map_map]
    rfl
  · intro ch
    exact get?_set_self _ _ _

/-- Witness of C25: a broadcast to three subscribers of which the second has a
full queue. -/
theorem broadcast_skips_only_full_queues_witness :
    (∀ e ∈ sampleFeedHub.webClients, e.2.cap = 10)
    ∧ (sampleFeedHub.broadcast "u10").1.webClients
        = [(1, { cap := 10, buf := ["u10"] }),
           (2, { cap := 10, buf := ["u0", "u1", "u2", "u3", "u4", "u5", "u6", "u7", "u8", "u9"] }),
           (3, { cap := 10, buf := ["u9", "u10"] })] :=
  ⟨by simp [sampleFeedHub, Chan.make],
   (broadcast_skips_only_full_queues sampleLib sampleFeedHub "u10"
      (by simp [sampleFeedHub, Chan.make])).1⟩

/-! ### C26: locks and blocking operations on the agent -/

theorem sendToCloud_blocking (cs : ConnectionServer) (data : String)
    (writeErr : Option String) :
    blockedUnder "mu" false (cs.sendToCloud data writeErr).2 = []
      ∧ blockedUnder "wsConnMu" false (cs.sendToCloud data writeErr).2
          = (cs.sendToCloud data writeErr).2.filter Event.isBlocking
      ∧ (cs.sendToCloud data writeErr).2.head? = some (Event.lock "wsConnMu")
      ∧ (cs.sendToCloud data writeErr).2.getLast? = some (Event.unlock "wsConnMu") := by
  unfold ConnectionServer.sendToCloud
  cases cs.wsConn with
  | none => simp [blockedUnder, Event.isBlocking]
  | some conn =>
    cases cs.isConnected with
    | false => simp [blockedUnder, Event.isBlocking]
    | true =>
      cases writeErr with
      | none => simp [blockedUnder, Event.isBlocking]
      | some err => simp [blockedUnder, Event.isBlocking]

theorem connectToCloud_blocking (lib : JsonLib) (cs : ConnectionServer) (dial : DialResult) :
    blockedUnder "mu" false (cs.connectToCloud lib dial).2 = []
      ∧ blockedUnder "wsConnMu" false (cs.connectToCloud lib dial).2
          = (cs.connectToCloud lib dial).2.filter Event.isBlocking
      ∧ (cs.connectToCloud lib dial).2.head? = some (Event.lock "wsConnMu")
      ∧ (cs.connectToCloud lib dial).2.getLast? = some (Event.unlock "wsConnMu") := by
  unfold ConnectionServer.connectToCloud ConnectionServer.scheduleReconnect
  cases cs.wsConn with
  | none =>
    by_cases ha : cs.connectAttempts > 0 <;>
      by_cases hs : wrapInt64 (cs.connectAttempts + 1) > cs.maxReconnects <;>
      by_cases hl : cs.latest.len > 0 <;>
      cases dial <;> simp [ha, hs, hl, blockedUnder, Event.isBlocking]
  | some c =>
    by_cases ha : cs.connectAttempts > 0 <;>
      by_cases hs : wrapInt64 (cs.connectAttempts + 1) > cs.maxReconnects <;>
      by_cases hl : cs.latest.len > 0 <;>
      cases dial <;> simp [ha, hs, hl, blockedUnder, Event.isBlocking]

theorem webhookHandler_blocking (lib : JsonLib) (cs : ConnectionServer) (inp : WebhookInput) :
    blockedUnder "mu" false (cs.webhookHandler lib inp).2 = [] := by
  unfold ConnectionServer.webhookHandler
  cases inp.body with
  | error e => simp [blockedUnder, Event.isBlocking]
  | ok body =>
    cases hu : lib.unmarshalSnapshot body with
    | error e => simp [hu, blockedUnder, Event.isBlocking]
    | ok s =>
      by_cases hacc : s.Account = ""
      · simp [hu, hacc, blockedUnder, Event.isBlocking]
      · cases hm : lib.marshalSnapshotMap (GoMap.set cs.latest s.Account s) with
        | error e => simp [hu, hacc, hm, blockedUnder, Event.isBlocking]
        | ok data =>
          simp only [hu, hacc, hm, if_false]
          unfold ConnectionServer.sendToCloud
          cases cs.wsConn with
          | none => simp [blockedUnder, Event.isBlocking]
          | some conn =>
            cases cs.isConnected with
            | false => simp [blockedUnder, Event.isBlocking]
            | true =>
              cases inp.writeErr with
              | none => simp [blockedUnder, Event.isBlocking]
              | some err => simp [blockedUnder, Event.isBlocking]

theorem readFromCloud_blocking (lib : JsonLib) (cs : ConnectionServer) (read : ReadResult) :
    blockedUnder "mu" false (cs.readFromCloud lib read).2 = []
      ∧ blockedUnder "wsConnMu" false (cs.readFromCloud lib read).2 = [] := by
  unfold ConnectionServer.readFromCloud ConnectionServer.scheduleReconnect
  cases read with
  | failed err =>
    by_cases hs : wrapInt64 (cs.connectAttempts + 1) > cs.maxReconnects <;>
      simp [hs, blockedUnder, Event.isBlocking]
  | message message =>
    cases hu : lib.unmarshalCommand message with
    | error e => simp [hu, blockedUnder, Event.isBlocking]
    | ok cmd =>
      cases hs : cs.commandChan.trySend cmd with
      | none => simp [hu, hs, blockedUnder, Event.isBlocking]
      | some ch => simp [hu, hs, blockedUnder, Event.isBlocking]

theorem reconnectGuard_blocking (cs : ConnectionServer) :
    blockedUnder "mu" false cs.reconnectGuard.2 = []
      ∧ blockedUnder "wsConnMu" false cs.reconnectGuard.2 = [] := by
  unfold ConnectionServer.reconnectGuard
  split <;> simp [blockedUnder, Event.isBlocking]

/-- C26, at the failing input: the sample agent at attempt count 10 makes a
connection attempt whose dial fails. The backoff sleep of 10 seconds, the dial
and the five minute pause are all issued while the connection lock `wsConnMu`
is held, and the attempt releases the lock only as its last action. A send,
whatever the state of the agent, begins by taking the same lock, so it cannot
start before the attempt has returned; on a connected agent the write of the
message is issued under that lock as well. A read failure at the same attempt
count issues its five minute pause while no lock is held. -/
theorem connection_attempt_blocks_under_lock :
    blockedUnder "wsConnMu" false
        (({ sampleServer with connectAttempts := 10 } : ConnectionServer).connectToCloud sampleLib
          (DialResult.failed "connection refused")).2
        = [Event.sleep (10 * Second),
           Event.dial "ws://localhost:8081/ws" (bearer ++ [115, 101, 99, 114, 101, 116]),
           Event.sleep (5 * Minute)]
    ∧ (({ sampleServer with connectAttempts := 10 } : ConnectionServer).connectToCloud sampleLib
          (DialResult.failed "connection refused")).2.getLast? = some (Event.unlock "wsConnMu")
    ∧ (({ sampleServer with connectAttempts := 10 } : ConnectionServer).sendToCloud "1" none).2.head?
        = some (Event.lock "wsConnMu")
    ∧ blockedUnder "wsConnMu" false (sampleConnectedServer.sendToCloud "1" none).2
        = [Event.wsWrite 3 "1"]
    ∧ (({ sampleServer with connectAttempts := 10 } : ConnectionServer).readFromCloud sampleLib
          (ReadResult.failed "EOF")).2.filter Event.isBlocking = [Event.sleep (5 * Minute)]
    ∧ blockedUnder "wsConnMu" false
        (({ sampleServer with connectAttempts := 10 } : ConnectionServer).readFromCloud sampleLib
          (ReadResult.failed "EOF")).2 = [] := by
  refine ⟨rfl, rfl, rfl, rfl, rfl, rfl⟩

/-- On the agent the table lock `mu` is never held while a
write to the hub, a dial or a sleep is in progress, in the webhook handler, in
a connection attempt, in a send, in the inbound reader and in the guard
goroutine. The connection lock `wsConnMu` is taken first and released last by
`sendToCloud` and by `connectToCloud`, so every blocking action of either (the
write of a message, the backoff sleep, the dial, the initial snapshot write and
the five minute pause) is issued while it is held, and a send that arrives
during a connection attempt waits for the same lock. The five minute pause
after a read failure and the one second sleep of the guard are under no
lock. -/
theorem only_table_lock_is_released_before_blocking (lib : JsonLib) (cs : ConnectionServer)
    (inp : WebhookInput) (dial : DialResult) (read : ReadResult) (data : String)
    (writeErr : Option String) :
    (blockedUnder "mu" false (cs.webhookHandler lib inp).2 = []
      ∧ blockedUnder "mu" false (cs.connectToCloud lib dial).2 = []
      ∧ blockedUnder "mu" false (cs.sendToCloud data writeErr).2 = []
      ∧ blockedUnder "mu" false (cs.readFromCloud lib read).2 = []
      ∧ blockedUnder "mu" false cs.reconnectGuard.2 = [])
    ∧ (blockedUnder "wsConnMu" false (cs.sendToCloud data writeErr).2
          = (cs.sendToCloud data writeErr).2.filter Event.isBlocking
      ∧ (cs.sendToCloud data writeErr).2.head? = some (Event.lock "wsConnMu")
      ∧ (cs.sendToCloud data writeErr).2.getLast? = some (Event.unlock "wsConnMu"))
    ∧ (blockedUnder "wsConnMu" false (cs.connectToCloud lib dial).2
          = (cs.connectToCloud lib dial).2.filter Event.isBlocking
      ∧ (cs.connectToCloud lib dial).2.head? = some (Event.lock "wsConnMu")
      ∧ (cs.connectToCloud lib dial).2.getLast? = some (Event.unlock "wsConnMu"))
    ∧ (blockedUnder "wsConnMu" false (cs.readFromCloud lib read).2 = []
      ∧ blockedUnder "wsConnMu" false cs.reconnectGuard.2 = []) :=
  ⟨⟨webhookHandler_blocking lib cs inp, (connectToCloud_blocking lib cs dial).1,
     (sendToCloud_blocking cs data writeErr).1, (readFromCloud_blocking lib cs read).1,
     (reconnectGuard_blocking cs).1⟩,
   (sendToCloud_blocking cs data writeErr).2,
   (connectToCloud_blocking lib cs dial).2,
   (readFromCloud_blocking lib cs read).2, (reconnectGuard_blocking cs).2⟩

/-- The sample agent at attempt count 10: a webhook, a failed connection
attempt and a read failure. -/
theorem only_table_lock_is_released_before_blocking_witness :
    blockedUnder "mu" false
        (({ sampleServer with connectAttempts := 10 } : ConnectionServer).webhookHandler sampleLib
          { body := Except.ok "first", writeErr := none }).2 = []
    ∧ blockedUnder "wsConnMu" false
        (({ sampleServer with connectAttempts := 10 } : ConnectionServer).connectToCloud sampleLib
          (DialResult.failed "connection refused")).2
        = [Event.sleep (10 * Second),
           Event.dial "ws://localhost:8081/ws" (bearer ++ [115, 101, 99, 114, 101, 116]),
           Event.sleep (5 * Minute)]
    ∧ blockedUnder "wsConnMu" false
        (({ sampleServer with connectAttempts := 10 } : ConnectionServer).readFromCloud sampleLib
          (ReadResult.failed "EOF")).2 = [] :=
  ⟨(only_table_lock_is_released_before_blocking sampleLib { sampleServer with connectAttempts := 10 }
      { body := Except.ok "first", writeErr := none } (DialResult.failed "connection refused")
      (ReadResult.failed "EOF") "1" none).1.1,
   (only_table_lock_is_released_before_blocking sampleLib { sampleServer with connectAttempts := 10 }
      { body := Except.ok "first", writeErr := none } (DialResult.failed "connection refused")
      (ReadResult.failed "EOF") "1" none).2.2.1.1,
   (only_table_lock_is_released_before_blocking sampleLib { sampleServer with connectAttempts := 10 }
      { body := Except.ok "first", writeErr := none } (DialResult.failed "connection refused")
      (ReadResult.failed "EOF") "1" none).2.2.2.1⟩

/-! ### C27: the fields of an instruction line -/

theorem sprintf_flatten_account (a : String) :
    sprintf "FLATTENEVERYTHING;ACCOUNT=%s;;;;;;;;;;;" [FmtArg.s a]
      = "FLATTENEVERYTHING;ACCOUNT=" ++ a ++ ";;;;;;;;;;;" := by
  apply String.ext
  simp [sprintf, sprintfAux]

theorem sprintf_cancel_order (a o : String) :
    sprintf "CANCEL;ACCOUNT=%s;ORDERID=%s;;;;;;;;;;" [FmtArg.s a, FmtArg.s o]
      = "CANCEL;ACCOUNT=" ++ a ++ ";ORDERID=" ++ o ++ ";;;;;;;;;;" := by
  apply String.ext
  simp [sprintf, sprintfAux]

theorem semicolons_append (s t : String) :
    semicolons (s ++ t) = semicolons s + semicolons t := by
  simp [semicolons, List.count_append]

theorem firstField_append (v rest : String) (hv : ';' ∉ v.data) :
    firstField (v ++ ";" ++ rest) = v := by
  apply String.ext
  have h : ∀ l : List Char, ';' ∉ l → ∀ r : List Char,
      List.takeWhile (fun c => decide (c ≠ ';')) (l ++ ';' :: r) = l := by
    intro l
    induction l with
    | nil => intro _ r; simp [List.takeWhile]
    | cons x l ih =>
      intro hmem r
      simp only [List.mem_cons, not_or] at hmem
      have hx : decide (x ≠ ';') = true := by
        simp only [decide_eq_true_eq]
        exact fun h => hmem.1 h.symm
      rw [List.cons_append, List.takeWhile_cons]
      simp only [hx, if_true]
      rw [ih hmem.2 r]
  simp only [firstField, String.data_append]
  rw [List.append_assoc]
  exact h v.data hv _

/-- The file content of a flatten-account instruction. -/
theorem fields_flatten_account (a : String) :
    semicolons ("FLATTENEVERYTHING;ACCOUNT=" ++ a ++ ";;;;;;;;;;;" ++ "\r\n") = 12 + semicolons a
      ∧ firstField ("FLATTENEVERYTHING;ACCOUNT=" ++ a ++ ";;;;;;;;;;;" ++ "\r\n")
          = "FLATTENEVERYTHING" := by
  constructor
  · simp only [semicolons_append]
    have h1 : semicolons "FLATTENEVERYTHING;ACCOUNT=" = 1 := by decide
    have h2 : semicolons ";;;;;;;;;;;" = 11 := by decide
    have h3 : semicolons "\r\n" = 0 := by decide
    omega
  · have h : "FLATTENEVERYTHING;ACCOUNT=" ++ a ++ ";;;;;;;;;;;" ++ "\r\n"
        = "FLATTENEVERYTHING" ++ ";" ++ ("ACCOUNT=" ++ a ++ ";;;;;;;;;;;" ++ "\r\n") := by
      apply String.ext
      simp
    rw [h]
    exact firstField_append _ _ (by decide)

/-- The file content of a close-position instruction. -/
theorem fields_close_position (a i : String) :
    semicolons ("CLOSEPOSITION;ACCOUNT=" ++ a ++ ";INSTRUMENT=" ++ i ++ ";;;;;;;;;;" ++ "\r\n")
        = 12 + semicolons a + semicolons i
      ∧ firstField ("CLOSEPOSITION;ACCOUNT=" ++ a ++ ";INSTRUMENT=" ++ i ++ ";;;;;;;;;;" ++ "\r\n")
          = "CLOSEPOSITION" := by
  constructor
  · simp only [semicolons_append]
    have h1 : semicolons "CLOSEPOSITION;ACCOUNT=" = 1 := by decide
    have h2 : semicolons ";INSTRUMENT=" = 1 := by decide
    have h3 : semicolons ";;;;;;;;;;" = 10 := by decide
    have h4 : semicolons "\r\n" = 0 := by decide
    omega
  · have h : "CLOSEPOSITION;ACCOUNT=" ++ a ++ ";INSTRUMENT=" ++ i ++ ";;;;;;;;;;" ++ "\r\n"
        = "CLOSEPOSITION" ++ ";"
            ++ ("ACCOUNT=" ++ a ++ ";INSTRUMENT=" ++ i ++ ";;;;;;;;;;" ++ "\r\n") := by
      apply String.ext
      simp
    rw [h]
    exact firstField_append _ _ (by decide)

/-- The file content of a cancel-order instruction. -/
theorem fields_cancel_order (a o : String) :
    semicolons ("CANCEL;ACCOUNT=" ++ a ++ ";ORDERID=" ++ o ++ ";;;;;;;;;;" ++ "\r\n")
        = 12 + semicolons a + semicolons o
      ∧ firstField ("CANCEL;ACCOUNT=" ++ a ++ ";ORDERID=" ++ o ++ ";;;;;;;;;;" ++ "\r\n")
          = "CANCEL" := by
  constructor
  · simp only [semicolons_append]
    have h1 : semicolons "CANCEL;ACCOUNT=" = 1 := by decide
    have h2 : semicolons ";ORDERID=" = 1 := by decide
    have h3 : semicolons ";;;;;;;;;;" = 10 := by decide
    have h4 : semicolons "\r\n" = 0 := by decide
    omega
  · have h : "CANCEL;ACCOUNT=" ++ a ++ ";ORDERID=" ++ o ++ ";;;;;;;;;;" ++ "\r\n"
        = "CANCEL" ++ ";" ++ ("ACCOUNT=" ++ a ++ ";ORDERID=" ++ o ++ ";;;;;;;;;;" ++ "\r\n") := by
      apply String.ext
      simp
    rw [h]
    exact firstField_append _ _ (by decide)

theorem semicolons_pos_iff (s : String) : 0 < semicolons s ↔ ';' ∈ s.data := by
  simp [semicolons, List.count_pos_iff]

/-- What the agent writes for each of the four kinds of command. -/
theorem executeCommand_files (cs : ConnectionServer) (cmd : Command) (os : WriteInput) :
    (cmd.Type_ = "flatten_all" →
        filesWritten (cs.executeCommand cmd os).2 = ["FLATTENEVERYTHING;;;;;;;;;;;;" ++ "\r\n"])
    ∧ (cmd.Type_ = "flatten_account" → ∀ a : String,
        cmd.Payload.get? "account" = some (JSON.string a) →
        filesWritten (cs.executeCommand cmd os).2
          = ["FLATTENEVERYTHING;ACCOUNT=" ++ a ++ ";;;;;;;;;;;" ++ "\r\n"])
    ∧ (cmd.Type_ = "close_position" → ∀ a i : String,
        cmd.Payload.get? "account" = some (JSON.string a) →
        cmd.Payload.get? "instrument" = some (JSON.string i) →
        filesWritten (cs.executeCommand cmd os).2
          = ["CLOSEPOSITION;ACCOUNT=" ++ a ++ ";INSTRUMENT=" ++ i ++ ";;;;;;;;;;" ++ "\r\n"])
    ∧ (cmd.Type_ = "cancel_order" → ∀ a o : String,
        cmd.Payload.get? "account" = some (JSON.string a) →
        cmd.Payload.get? "orderId" = some (JSON.string o) →
        filesWritten (cs.executeCommand cmd os).2
          = ["CANCEL;ACCOUNT=" ++ a ++ ";ORDERID=" ++ o ++ ";;;;;;;;;;" ++ "\r\n"]) := by
  have h1 : ¬ ("flatten_account" = "flatten_all") := by decide
  have h2 : ¬ ("close_position" = "flatten_all") := by decide
  have h3 : ¬ ("close_position" = "flatten_account") := by decide
  have h4 : ¬ ("cancel_order" = "flatten_all") := by decide
  have h5 : ¬ ("cancel_order" = "flatten_account") := by decide
  have h6 : ¬ ("cancel_order" = "close_position") := by decide
  refine ⟨?_, ?_, ?_, ?_⟩
  · intro hk
    simp [ConnectionServer.executeCommand, ConnectionServer.writeOIF, hk, filesWritten]
  · intro hk a ha
    simp [ConnectionServer.executeCommand, ConnectionServer.writeOIF, hk, ha, h1, assertString,
      sprintf_flatten_account, filesWritten]
  · intro hk a i ha hi
    simp [ConnectionServer.executeCommand, ConnectionServer.writeOIF, hk, ha, hi, h2, h3,
      assertString, sprintf_close_position, filesWritten]
  · intro hk a o ha ho
    simp [ConnectionServer.executeCommand, ConnectionServer.writeOIF, hk, ha, ho, h4, h5, h6,
      assertString, sprintf_cancel_order, filesWritten]

/-- What the single-process variant writes on each of its four command routes. -/
theorem api_files (lib : JsonLib) (body incoming defaultDir : String) (os : WriteInput) :
    filesWritten (SingleProcess.api lib "/api/flatten" body incoming defaultDir os)
        = ["FLATTENEVERYTHING;;;;;;;;;;;;" ++ "\r\n"]
    ∧ (∀ a : String, lib.decodeAccount body = Except.ok a →
        filesWritten (SingleProcess.api lib "/api/flatten_account" body incoming defaultDir os)
          = ["FLATTENEVERYTHING;ACCOUNT=" ++ a ++ ";;;;;;;;;;;" ++ "\r\n"])
    ∧ (∀ a i : String, lib.decodeInstrument body = Except.ok (a, i) →
        filesWritten (SingleProcess.api lib "/api/close_position" body incoming defaultDir os)
          = ["CLOSEPOSITION;ACCOUNT=" ++ a ++ ";INSTRUMENT=" ++ i ++ ";;;;;;;;;;" ++ "\r\n"])
    ∧ (∀ a o : String, lib.decodeOrder body = Except.ok (a, o) →
        filesWritten (SingleProcess.api lib "/api/cancel_order" body incoming defaultDir os)
          = ["CANCEL;ACCOUNT=" ++ a ++ ";ORDERID=" ++ o ++ ";;;;;;;;;;" ++ "\r\n"]) := by
  have h1 : ¬ ("/api/flatten_account" = "/api/flatten") := by decide
  have h2 : ¬ ("/api/close_position" = "/api/flatten") := by decide
  have h3 : ¬ ("/api/close_position" = "/api/flatten_account") := by decide
  have h4 : ¬ ("/api/cancel_order" = "/api/flatten") := by decide
  have h5 : ¬ ("/api/cancel_order" = "/api/flatten_account") := by decide
  have h6 : ¬ ("/api/cancel_order" = "/api/close_position") := by decide
  refine ⟨?_, ?_, ?_, ?_⟩
  · cases he : os.err <;>
      simp [SingleProcess.api, SingleProcess.commandHandler, SingleProcess.writeAndAnswer,
        SingleProcess.writeOIF, he, filesWritten]
  · intro a ha
    cases he : os.err <;>
      simp [SingleProcess.api, SingleProcess.accountCommandHandler, SingleProcess.writeAndAnswer,
        SingleProcess.writeOIF, he, ha, h1, sprintf_flatten_account, filesWritten]
  · intro a i ha
    cases he : os.err <;>
      simp [SingleProcess.api, SingleProcess.instrumentCommandHandler,
        SingleProcess.writeAndAnswer, SingleProcess.writeOIF, he, ha, h2, h3,
        sprintf_close_position, filesWritten]
  · intro a o ha
    cases he : os.err <;>
      simp [SingleProcess.api, SingleProcess.orderCommandHandler, SingleProcess.writeAndAnswer,
        SingleProcess.writeOIF, he, ha, h4, h5, h6, sprintf_cancel_order, filesWritten]

/-- C27: for each of the four kinds of command whose payload binds the
parameters of the kind to strings, the agent writes one file, the number of
semicolons in its content is 12 plus the number of semicolons in the parameter
strings, and the text before the first semicolon is the verb of the kind
(`FLATTENEVERYTHING`, `CLOSEPOSITION`, `CANCEL`). A string has no semicolon
exactly when its count is 0, so the line has 12 semicolons, that is 13 fields,
exactly when no parameter contains a semicolon, and more otherwise. The same
counts hold for the four command routes of the single-process variant. -/
theorem instruction_line_has_twelve_semicolons (lib : JsonLib) (cs : ConnectionServer)
    (cmd : Command) (os : WriteInput) (body incoming defaultDir : String) :
    (cmd.Type_ = "flatten_all" →
        (filesWritten (cs.executeCommand cmd os).2).map semicolons = [12]
        ∧ (filesWritten (cs.executeCommand cmd os).2).map firstField = ["FLATTENEVERYTHING"])
    ∧ (cmd.Type_ = "flatten_account" → ∀ a : String,
        cmd.Payload.get? "account" = some (JSON.string a) →
        (filesWritten (cs.executeCommand cmd os).2).map semicolons = [12 + semicolons a]
        ∧ (filesWritten (cs.executeCommand cmd os).2).map firstField = ["FLATTENEVERYTHING"])
    ∧ (cmd.Type_ = "close_position" → ∀ a i : String,
        cmd.Payload.get? "account" = some (JSON.string a) →
        cmd.Payload.get? "instrument" = some (JSON.string i) →
        (filesWritten (cs.executeCommand cmd os).2).map semicolons
            = [12 + semicolons a + semicolons i]
        ∧ (filesWritten (cs.executeCommand cmd os).2).map firstField = ["CLOSEPOSITION"])
    ∧ (cmd.Type_ = "cancel_order" → ∀ a o : String,
        cmd.Payload.get? "account" = some (JSON.string a) →
        cmd.Payload.get? "orderId" = some (JSON.string o) →
        (filesWritten (cs.executeCommand cmd os).2).map semicolons
            = [12 + semicolons a + semicolons o]
        ∧ (filesWritten (cs.executeCommand cmd os).2).map firstField = ["CANCEL"])
    ∧ (∀ s : String, semicolons s = 0 ↔ ';' ∉ s.data)
    ∧ ((filesWritten (SingleProcess.api lib "/api/flatten" body incoming defaultDir os)).map
          semicolons = [12]
      ∧ (∀ a : String, lib.decodeAccount body = Except.ok a →
          (filesWritten (SingleProcess.api lib "/api/flatten_account" body incoming defaultDir
            os)).map semicolons = [12 + semicolons a])
      ∧ (∀ a i : String, lib.decodeInstrument body = Except.ok (a, i) →
          (filesWritten (SingleProcess.api lib "/api/close_position" body incoming defaultDir
            os)).map semicolons = [12 + semicolons a + semicolons i])
      ∧ (∀ a o : String, lib.decodeOrder body = Except.ok (a, o) →
          (filesWritten (SingleProcess.api lib "/api/cancel_order" body incoming defaultDir
            os)).map semicolons = [12 + semicolons a + semicolons o])) := by
  obtain ⟨e1, e2, e3, e4⟩ := executeCommand_files cs cmd os
  obtain ⟨s1, s2, s3, s4⟩ := api_files lib body incoming defaultDir os
  have hall : semicolons ("FLATTENEVERYTHING;;;;;;;;;;;;" ++ "\r\n") = 12 := by decide
  have hfirst : firstField ("FLATTENEVERYTHING;;;;;;;;;;;;" ++ "\r\n") = "FLATTENEVERYTHING" := by
    decide
  refine ⟨?_, ?_, ?_, ?_, ?_, ?_, ?_, ?_, ?_⟩
  · intro hk
    rw [e1 hk]
    simp only [List.map_cons, List.map_nil, hall, hfirst, and_self]
  · intro hk a ha
    rw [e2 hk a ha]
    simp only [List.map_cons, List.map_nil, (fields_flatten_account a).1,
      (fields_flatten_account a).2, and_self]
  · intro hk a i ha hi
    rw [e3 hk a i ha hi]
    simp only [List.map_cons, List.map_nil, (fields_close_position a i).1,
      (fields_close_position a i).2, and_self]
  · intro hk a o ha ho
    rw [e4 hk a o ha ho]
    simp only [List.map_cons, List.map_nil, (fields_cancel_order a o).1,
      (fields_cancel_order a o).2, and_self]
  · intro s
    have h := semicolons_pos_iff s
    constructor
    · intro h0 hmem
      have := h.2 hmem
      omega
    · intro hn
      by_contra hne
      exact hn (h.1 (Nat.pos_of_ne_zero hne))
  · rw [s1]
    simp only [List.map_cons, List.map_nil, hall]
  · intro a ha
    rw [s2 a ha]
    simp only [List.map_cons, List.map_nil, (fields_flatten_account a).1]
  · intro a i ha
    rw [s3 a i ha]
    simp only [List.map_cons, List.map_nil, (fields_close_position a i).1]
  · intro a o ha
    rw [s4 a o ha]
    simp only [List.map_cons, List.map_nil, (fields_cancel_order a o).1]

/-- Witness of C27: the close-position command for `Sim101` / `ES 03-25`
yields a line of 12 semicolons, and an account string that contains a
semicolon yields a line of 13. -/
theorem instruction_line_has_twelve_semicolons_witness :
    (sampleCommand.Type_ = "close_position"
      ∧ sampleCommand.Payload.get? "account" = some (JSON.string "Sim101")
      ∧ sampleCommand.Payload.get? "instrument" = some (JSON.string "ES 03-25"))
    ∧ (filesWritten (sampleServer.executeCommand sampleCommand sampleWrite).2).map semicolons
        = [12]
    ∧ (filesWritten (sampleServer.executeCommand sampleCommand sampleWrite).2).map firstField
        = ["CLOSEPOSITION"]
    ∧ (filesWritten (sampleServer.executeCommand
          { Type_ := "flatten_account", Payload := [("account", JSON.string "Sim101;X")],
            ID := "cmd_3" } sampleWrite).2).map semicolons = [13] :=
  ⟨⟨rfl, rfl, rfl⟩,
   ((instruction_line_has_twelve_semicolons sampleLib sampleServer sampleCommand sampleWrite
      "Sim101" "" "incoming").2.2.1 rfl "Sim101" "ES 03-25" rfl rfl).1,
   ((instruction_line_has_twelve_semicolons sampleLib sampleServer sampleCommand sampleWrite
      "Sim101" "" "incoming").2.2.1 rfl "Sim101" "ES 03-25" rfl rfl).2,
   ((instruction_line_has_twelve_semicolons sampleLib sampleServer
      { Type_ := "flatten_account", Payload := [("account", JSON.string "Sim101;X")],
        ID := "cmd_3" } sampleWrite "Sim101" "" "incoming").2.1 rfl "Sim101;X" rfl).1⟩

end NinjaMonitor
